import Mathlib

/-!
# Order lifecycle of the campus marketplace (`src/backend/routes/orders.js`)

A shallow embedding of the order routes and of the part of the relational
schema (`src/backend/db/init.js`) they read and write.

Modelling conventions.
* `DECIMAL(10,2)` amounts are integers counting hundredths.
* A nullable column is an `Option`; `none` is SQL `NULL`, and a request field
  that is absent (`undefined`) or `null` is `none` as well, which is how the
  driver sends it.
* Timestamps are natural numbers; `now` is the value of `NOW()` /
  `CURRENT_TIMESTAMP` for the request.
* Every `query` call is logged.  A statement can fail because a modelled
  constraint rejects it (`NOT NULL`, primary key, foreign key) or because the
  store raises any other error for it; the latter is the `fault` argument, a
  predicate on the position of the statement among the calls made on the
  connection, counted from 0.  The connection itself stays usable, so
  `ROLLBACK` completes.
* Sequences behind `SERIAL` columns are not transactional: a value drawn by a
  statement stays drawn when the transaction is rolled back.
-/

namespace Orders

/-- Amount of a `DECIMAL(10,2)` column, in hundredths. -/
abbrev Money := Int

/-- Row of `products`: `id`, the current `price`, `stock_quantity INTEGER
DEFAULT 0` and `updated_at` (set by the `update_products_updated_at` trigger on
every update).  The other columns play no part in the order routes. -/
structure Product where
  id : Int
  price : Money
  stock_quantity : Option Int
  updated_at : Nat
deriving DecidableEq, Repr

/-- Row of `orders`. -/
structure Order where
  id : Int
  user_id : Option Int
  business_id : Option Int
  total_amount : Money
  delivery_address : String
  delivery_instructions : Option String
  payment_method : Option String
  status : String
  created_at : Nat
  updated_at : Nat
deriving DecidableEq, Repr

/-- Row of `order_items`. -/
structure OrderItem where
  id : Int
  order_id : Option Int
  product_id : Option Int
  quantity : Int
  unit_price : Money
  created_at : Nat
deriving DecidableEq, Repr

/-- The tables the order routes depend on.  `users` and `businesses` are kept
as their primary keys only: the routes use them solely as foreign-key targets. -/
structure Db where
  users : List Int
  businesses : List Int
  products : List Product
  orders : List Order
  order_items : List OrderItem
deriving DecidableEq, Repr

/-- Committed tables together with the last values of the two sequences
`orders_id_seq` and `order_items_id_seq`. -/
structure Store where
  db : Db
  orders_id_seq : Int
  order_items_id_seq : Int
deriving DecidableEq, Repr

/-- The SQL statements issued by the order routes, with their parameters. -/
inductive Stmt where
  | BEGIN
  | COMMIT
  | ROLLBACK
  | insert_order (user_id business_id : Option Int) (total_amount : Option Money)
      (delivery_address delivery_instructions payment_method : Option String)
  | insert_order_item (order_id product_id quantity : Option Int) (unit_price : Option Money)
  | update_stock_minus (quantity product_id : Option Int)
  | update_stock_plus (quantity product_id : Option Int)
  | select_order_items (order_id : Int)
  | update_order_status (status : String) (id : Int)
  | update_order_cancelled (id : Int)
deriving DecidableEq, Repr

/-- What happens on a pooled connection: a statement is sent, or the
connection goes back to the pool. -/
inductive Event where
  | query (st : Stmt)
  | release
deriving DecidableEq, Repr

/-- Why a statement or the handler body threw. -/
inductive Err where
  | fault
  | not_null_violation
  | unique_violation
  | foreign_key_violation
  | type_error
deriving DecidableEq, Repr

/-- A connection checked out of the pool: the committed tables, the working
copy of the open transaction if there is one, the sequences, and the log of
what was done on the connection. -/
structure Session where
  committed : Db
  txn : Option Db
  orders_id_seq : Int
  order_items_id_seq : Int
  log : List Event
deriving DecidableEq, Repr

/-- Tables as the connection sees them. -/
def Session.view (c : Session) : Db :=
  match c.txn with
  | some d => d
  | none => c.committed

/-- Store the result of a data-modifying statement: into the open transaction,
or directly (autocommit) when none is open. -/
def Session.write (c : Session) (d : Db) : Session :=
  match c.txn with
  | some _ => { c with txn := some d }
  | none => { c with committed := d }

/-- Body of `pool.connect()`: a connection with no transaction open. -/
def connect (s : Store) : Session :=
  { committed := s.db, txn := none, orders_id_seq := s.orders_id_seq,
    order_items_id_seq := s.order_items_id_seq, log := [] }

/-- Body of `client.release()`. -/
def release (c : Session) : Session :=
  { c with log := c.log ++ [Event.release] }

/-- One `query` call: the statement is logged; if the store raises an error
for it (`fault` at its position in the log) nothing else happens, otherwise its
effect `eff` takes place. -/
def stmt {α : Type} (fault : Nat → Bool) (st : Stmt) (c : Session)
    (eff : Session → Session × Except Err α) : Session × Except Err α :=
  let c1 : Session := { c with log := c.log ++ [Event.query st] }
  if fault c.log.length then (c1, Except.error Err.fault) else eff c1

/-- A nullable foreign key is satisfied by `NULL` or by an existing key. -/
def refOk (keys : List Int) : Option Int → Bool
  | none => true
  | some k => keys.contains k

/-- SQL `a - b` on nullable integers. -/
def sqlSub : Option Int → Option Int → Option Int
  | some a, some b => some (a - b)
  | _, _ => none

/-- SQL `a + b` on nullable integers. -/
def sqlAdd : Option Int → Option Int → Option Int
  | some a, some b => some (a + b)
  | _, _ => none

/-- `BEGIN`; inside a transaction it only warns. -/
def begin (fault : Nat → Bool) (c : Session) : Session × Except Err Unit :=
  stmt fault Stmt.BEGIN c fun c =>
    match c.txn with
    | some _ => (c, Except.ok ())
    | none => ({ c with txn := some c.committed }, Except.ok ())

/-- `COMMIT`; outside a transaction it only warns. -/
def commit (fault : Nat → Bool) (c : Session) : Session × Except Err Unit :=
  stmt fault Stmt.COMMIT c fun c =>
    match c.txn with
    | some d => ({ c with committed := d, txn := none }, Except.ok ())
    | none => (c, Except.ok ())

/-- `ROLLBACK`: the working copy is dropped. -/
def rollback (c : Session) : Session :=
  { c with txn := none, log := c.log ++ [Event.query Stmt.ROLLBACK] }

/-- `INSERT INTO orders (...) VALUES ($1, ..., $6, 'pending') RETURNING *`. -/
def insertOrder (fault : Nat → Bool) (now : Nat) (user_id business_id : Option Int)
    (total_amount : Option Money)
    (delivery_address delivery_instructions payment_method : Option String)
    (c : Session) : Session × Except Err Order :=
  stmt fault (Stmt.insert_order user_id business_id total_amount delivery_address
      delivery_instructions payment_method) c fun c =>
    let id := c.orders_id_seq + 1
    let c : Session := { c with orders_id_seq := id }
    match total_amount, delivery_address with
    | some total, some address =>
      if c.view.orders.any (fun o => o.id == id) then (c, Except.error Err.unique_violation)
      else if refOk c.view.users user_id && refOk c.view.businesses business_id then
        let row : Order :=
          { id := id, user_id := user_id, business_id := business_id, total_amount := total,
            delivery_address := address, delivery_instructions := delivery_instructions,
            payment_method := payment_method, status := "pending",
            created_at := now, updated_at := now }
        (c.write { c.view with orders := c.view.orders ++ [row] }, Except.ok row)
      else (c, Except.error Err.foreign_key_violation)
    | _, _ => (c, Except.error Err.not_null_violation)

/-- `INSERT INTO order_items (order_id, product_id, quantity, unit_price)
VALUES ($1, $2, $3, $4)`. -/
def insertOrderItem (fault : Nat → Bool) (now : Nat) (order_id product_id quantity : Option Int)
    (unit_price : Option Money) (c : Session) : Session × Except Err Unit :=
  stmt fault (Stmt.insert_order_item order_id product_id quantity unit_price) c fun c =>
    let id := c.order_items_id_seq + 1
    let c : Session := { c with order_items_id_seq := id }
    match quantity, unit_price with
    | some q, some price =>
      if c.view.order_items.any (fun i => i.id == id) then (c, Except.error Err.unique_violation)
      else if refOk (c.view.orders.map fun o => o.id) order_id
          && refOk (c.view.products.map fun p => p.id) product_id then
        let row : OrderItem :=
          { id := id, order_id := order_id, product_id := product_id, quantity := q,
            unit_price := price, created_at := now }
        (c.write { c.view with order_items := c.view.order_items ++ [row] }, Except.ok ())
      else (c, Except.error Err.foreign_key_violation)
    | _, _ => (c, Except.error Err.not_null_violation)

/-- `UPDATE products SET stock_quantity = stock_quantity - $1 WHERE id = $2`. -/
def updateStockMinus (fault : Nat → Bool) (now : Nat) (quantity product_id : Option Int)
    (c : Session) : Session × Except Err Unit :=
  stmt fault (Stmt.update_stock_minus quantity product_id) c fun c =>
    (c.write { c.view with products := c.view.products.map fun p =>
        if product_id = some p.id then
          { p with stock_quantity := sqlSub p.stock_quantity quantity, updated_at := now }
        else p }, Except.ok ())

/-- `UPDATE products SET stock_quantity = stock_quantity + $1 WHERE id = $2`. -/
def updateStockPlus (fault : Nat → Bool) (now : Nat) (quantity product_id : Option Int)
    (c : Session) : Session × Except Err Unit :=
  stmt fault (Stmt.update_stock_plus quantity product_id) c fun c =>
    (c.write { c.view with products := c.view.products.map fun p =>
        if product_id = some p.id then
          { p with stock_quantity := sqlAdd p.stock_quantity quantity, updated_at := now }
        else p }, Except.ok ())

/-- `SELECT product_id, quantity FROM order_items WHERE order_id = $1`. -/
def selectOrderItems (fault : Nat → Bool) (order_id : Int) (c : Session) :
    Session × Except Err (List (Option Int × Int)) :=
  stmt fault (Stmt.select_order_items order_id) c fun c =>
    (c, Except.ok ((c.view.order_items.filter fun i => i.order_id = some order_id).map
      fun i => (i.product_id, i.quantity)))

/-- `UPDATE orders SET status = $1, updated_at = NOW() WHERE id = $2 RETURNING *`. -/
def updateOrderStatusStmt (fault : Nat → Bool) (now : Nat) (status : String) (id : Int)
    (c : Session) : Session × Except Err (List Order) :=
  stmt fault (Stmt.update_order_status status id) c fun c =>
    let upd : Order → Order := fun o =>
      if o.id = id then { o with status := status, updated_at := now } else o
    (c.write { c.view with orders := c.view.orders.map upd },
      Except.ok ((c.view.orders.filter fun o => o.id = id).map upd))

/-- `UPDATE orders SET status = 'cancelled', updated_at = NOW() WHERE id = $1 RETURNING *`. -/
def updateOrderCancelled (fault : Nat → Bool) (now : Nat) (id : Int)
    (c : Session) : Session × Except Err (List Order) :=
  stmt fault (Stmt.update_order_cancelled id) c fun c =>
    let upd : Order → Order := fun o =>
      if o.id = id then { o with status := "cancelled", updated_at := now } else o
    (c.write { c.view with orders := c.view.orders.map upd },
      Except.ok ((c.view.orders.filter fun o => o.id = id).map upd))

/-- One element of `items` in the body of `POST /api/orders`. -/
structure Item where
  product_id : Option Int
  quantity : Option Int
  unit_price : Option Money
deriving DecidableEq, Repr

/-- JSON body of `POST /api/orders`.  `items` is `none` when the body has no
iterable `items`.  `status` and `rest` stand for properties the handler does
not destructure. -/
structure CreateOrderBody where
  user_id : Option Int
  business_id : Option Int
  items : Option (List Item)
  total_amount : Option Money
  delivery_address : Option String
  delivery_instructions : Option String
  payment_method : Option String
  status : Option String
  rest : List (String × String)
deriving DecidableEq, Repr

/-- JSON sent back by the order routes. -/
inductive Body where
  | message_order (message : String) (order : Order)
  | error (error : String)
deriving DecidableEq, Repr

/-- HTTP status and JSON of the response. -/
structure Response where
  status : Nat
  body : Body
deriving DecidableEq, Repr

/-- Result of running a handler: the response, the committed store, the working
copy of a transaction the handler left open on the connection it released, and
the log of the connection. -/
structure Outcome where
  response : Response
  store : Store
  open_txn : Option Db
  log : List Event
deriving DecidableEq, Repr

/-- What is left once the handler has answered and let go of its connection. -/
def finish (c : Session) (r : Response) : Outcome :=
  { response := r,
    store := { db := c.committed, orders_id_seq := c.orders_id_seq,
               order_items_id_seq := c.order_items_id_seq },
    open_txn := c.txn, log := c.log }

/-- The loop `for (const item of items)` of `router.post('/')`: insert the
order item, then decrement the stock of its product. -/
def createOrderItems (fault : Nat → Bool) (now : Nat) (order : Order) :
    List Item → Session → Session × Except Err Unit
  | [], c => (c, Except.ok ())
  | item :: rest, c =>
    match insertOrderItem fault now (some order.id) item.product_id item.quantity
        item.unit_price c with
    | (c, Except.error e) => (c, Except.error e)
    | (c, Except.ok _) =>
      match updateStockMinus fault now item.quantity item.product_id c with
      | (c, Except.error e) => (c, Except.error e)
      | (c, Except.ok _) => createOrderItems fault now order rest c

/-- The `try` block of `router.post('/')`. -/
def createOrderTry (fault : Nat → Bool) (now : Nat) (body : CreateOrderBody) (c : Session) :
    Session × Except Err Response :=
  match begin fault c with
  | (c, Except.error e) => (c, Except.error e)
  | (c, Except.ok _) =>
    match insertOrder fault now body.user_id body.business_id body.total_amount
        body.delivery_address body.delivery_instructions body.payment_method c with
    | (c, Except.error e) => (c, Except.error e)
    | (c, Except.ok order) =>
      match body.items with
      | none => (c, Except.error Err.type_error)
      | some items =>
        match createOrderItems fault now order items c with
        | (c, Except.error e) => (c, Except.error e)
        | (c, Except.ok _) =>
          match commit fault c with
          | (c, Except.error e) => (c, Except.error e)
          | (c, Except.ok _) =>
            (c, Except.ok { status := 201,
                            body := Body.message_order "Order created successfully" order })

/-- Handler `router.post('/')`: create an order. -/
def createOrder (fault : Nat → Bool) (now : Nat) (body : CreateOrderBody) (s : Store) : Outcome :=
  match createOrderTry fault now body (connect s) with
  | (c, Except.ok r) => finish (release c) r
  | (c, Except.error _) =>
    finish (release (rollback c)) { status := 500, body := Body.error "Error creating order" }

/-- The list `validStatuses` of `router.put('/:id/status')`. -/
def validStatuses : List String :=
  ["pending", "confirmed", "preparing", "ready", "delivered", "cancelled"]

/-- Test `validStatuses.includes(status)`; `none` is a body whose `status` is
not a string. -/
def includes (xs : List String) : Option String → Bool
  | none => false
  | some x => xs.contains x

/-- Handler `router.put('/:id/status')`: update the status of an order.  The
statement goes through `pool.query`, which takes a connection, runs the
statement outside any transaction and releases the connection.  Past the
`includes` test the status is a string, one of `validStatuses`. -/
def updateOrderStatus (fault : Nat → Bool) (now : Nat) (id : Int) (status : Option String)
    (s : Store) : Outcome :=
  if !includes validStatuses status then
    { response := { status := 400, body := Body.error "Invalid status" },
      store := s, open_txn := none, log := [] }
  else
    match updateOrderStatusStmt fault now (status.getD "") id (connect s) with
    | (c, Except.error _) =>
      finish (release c) { status := 500, body := Body.error "Error updating order status" }
    | (c, Except.ok []) =>
      finish (release c) { status := 404, body := Body.error "Order not found" }
    | (c, Except.ok (row :: _)) =>
      finish (release c)
        { status := 200, body := Body.message_order "Order status updated successfully" row }

/-- The loop `for (const item of orderItems.rows)` of `router.put('/:id/cancel')`. -/
def restoreStock (fault : Nat → Bool) (now : Nat) :
    List (Option Int × Int) → Session → Session × Except Err Unit
  | [], c => (c, Except.ok ())
  | item :: rest, c =>
    match updateStockPlus fault now (some item.2) item.1 c with
    | (c, Except.error e) => (c, Except.error e)
    | (c, Except.ok _) => restoreStock fault now rest c

/-- The `try` block of `router.put('/:id/cancel')`.  The `return` of the 404
branch leaves it without `COMMIT` or `ROLLBACK`. -/
def cancelOrderTry (fault : Nat → Bool) (now : Nat) (id : Int) (c : Session) :
    Session × Except Err Response :=
  match begin fault c with
  | (c, Except.error e) => (c, Except.error e)
  | (c, Except.ok _) =>
    match selectOrderItems fault id c with
    | (c, Except.error e) => (c, Except.error e)
    | (c, Except.ok orderItems) =>
      match restoreStock fault now orderItems c with
      | (c, Except.error e) => (c, Except.error e)
      | (c, Except.ok _) =>
        match updateOrderCancelled fault now id c with
        | (c, Except.error e) => (c, Except.error e)
        | (c, Except.ok []) =>
          (c, Except.ok { status := 404, body := Body.error "Order not found" })
        | (c, Except.ok (row :: _)) =>
          match commit fault c with
          | (c, Except.error e) => (c, Except.error e)
          | (c, Except.ok _) =>
            (c, Except.ok { status := 200,
                            body := Body.message_order "Order cancelled successfully" row })

/-- Handler `router.put('/:id/cancel')`: cancel an order.  The `reason` of the
body is read and never used. -/
def cancelOrder (fault : Nat → Bool) (now : Nat) (id : Int) (s : Store) : Outcome :=
  match cancelOrderTry fault now id (connect s) with
  | (c, Except.ok r) => finish (release c) r
  | (c, Except.error _) =>
    finish (release (rollback c)) { status := 500, body := Body.error "Error cancelling order" }

/-- Total quantity the elements of `items` order of product `pid`. -/
def orderedQuantity (items : List Item) (pid : Int) : Int :=
  (items.map fun i => if i.product_id = some pid then i.quantity.getD 0 else 0).sum

/-- Total quantity the order items of order `oid` hold of product `pid`. -/
def itemsQuantity (rows : List OrderItem) (oid pid : Int) : Int :=
  ((rows.filter fun i => i.order_id = some oid).map fun i =>
    if i.product_id = some pid then i.quantity else 0).sum

/-- No store error is raised. -/
def noFault : Nat → Bool := fun _ => false

/-- Statements the item loop of `router.post('/')` sends for `items`. -/
def itemEvents (order_id : Int) : List Item → List Event
  | [] => []
  | i :: rest =>
    Event.query (Stmt.insert_order_item (some order_id) i.product_id i.quantity i.unit_price) ::
      Event.query (Stmt.update_stock_minus i.quantity i.product_id) :: itemEvents order_id rest

/-- What a completed run of the item loop did to the open transaction. -/
structure ItemsDone (fault : Nat → Bool) (now : Nat) (order_id : Int) (items : List Item)
    (c c' : Session) (d d' : Db) (rows : List OrderItem) : Prop where
  txn : c'.txn = some d'
  committed : c'.committed = c.committed
  seq : c'.orders_id_seq = c.orders_id_seq
  users : d'.users = d.users
  businesses : d'.businesses = d.businesses
  orders : d'.orders = d.orders
  order_items : d'.order_items = d.order_items ++ rows
  snapshot : rows.map (fun r => (r.order_id, r.product_id, some r.quantity, some r.unit_price)) =
    items.map (fun i => (some order_id, i.product_id, i.quantity, i.unit_price))
  products : d'.products.map (fun p => (p.id, p.stock_quantity)) =
    d.products.map (fun p => (p.id, sqlSub p.stock_quantity (some (orderedQuantity items p.id))))
  log : c'.log = c.log ++ itemEvents order_id items
  faults : ∀ i, c.log.length ≤ i → i < c'.log.length → fault i = false
  refs : ∀ i ∈ items, refOk (d.products.map fun p => p.id) i.product_id = true

/-- Everything a `201` answer of `createOrder` entails: the accepted items, the
inserted order row and the inserted order item rows. -/
structure Created (fault : Nat → Bool) (now : Nat) (body : CreateOrderBody) (s : Store)
    (out : Outcome) (items : List Item) (order : Order) (rows : List OrderItem) : Prop where
  accepted : body.items = some items
  total : body.total_amount = some order.total_amount
  address : body.delivery_address = some order.delivery_address
  row : order = ⟨s.orders_id_seq + 1, body.user_id, body.business_id, order.total_amount,
    order.delivery_address, body.delivery_instructions, body.payment_method, "pending", now, now⟩
  response : out.response = ⟨201, Body.message_order "Order created successfully" order⟩
  users : out.store.db.users = s.db.users
  businesses : out.store.db.businesses = s.db.businesses
  orders : out.store.db.orders = s.db.orders ++ [order]
  fresh : (s.db.orders.any fun o => o.id == order.id) = false
  order_items : out.store.db.order_items = s.db.order_items ++ rows
  snapshot : rows.map (fun r => (r.order_id, r.product_id, some r.quantity, some r.unit_price)) =
    items.map (fun i => (some order.id, i.product_id, i.quantity, i.unit_price))
  products : out.store.db.products.map (fun p => (p.id, p.stock_quantity)) =
    s.db.products.map
      (fun p => (p.id, sqlSub p.stock_quantity (some (orderedQuantity items p.id))))
  open_txn : out.open_txn = none
  log : out.log = Event.query Stmt.BEGIN ::
    Event.query (Stmt.insert_order body.user_id body.business_id body.total_amount
      body.delivery_address body.delivery_instructions body.payment_method) ::
    (itemEvents order.id items ++ [Event.query Stmt.COMMIT, Event.release])
  faults : ∀ i, i < 2 * items.length + 3 → fault i = false
  refs : ∀ i ∈ items, refOk (s.db.products.map fun p => p.id) i.product_id = true

/-- What a failed `createOrder` leaves behind. -/
def CreateFailed (s : Store) (out : Outcome) : Prop :=
  out.response = ⟨500, Body.error "Error creating order"⟩ ∧ out.store.db = s.db ∧
    out.open_txn = none

/-- Total quantity the selected `(product_id, quantity)` rows hold of product `pid`. -/
def restoredQuantity (rows : List (Option Int × Int)) (pid : Int) : Int :=
  (rows.map fun r => if r.1 = some pid then r.2 else 0).sum

/-- Statements the restore loop of `router.put('/:id/cancel')` sends for `rows`. -/
def restoreEvents : List (Option Int × Int) → List Event
  | [] => []
  | r :: rest => Event.query (Stmt.update_stock_plus (some r.2) r.1) :: restoreEvents rest

/-- What a completed run of the restore loop did to the open transaction. -/
structure RestoreDone (fault : Nat → Bool) (rows : List (Option Int × Int))
    (c c' : Session) (d d' : Db) : Prop where
  txn : c'.txn = some d'
  committed : c'.committed = c.committed
  users : d'.users = d.users
  businesses : d'.businesses = d.businesses
  orders : d'.orders = d.orders
  order_items : d'.order_items = d.order_items
  products : d'.products.map (fun p => (p.id, p.stock_quantity)) =
    d.products.map (fun p => (p.id, sqlAdd p.stock_quantity (some (restoredQuantity rows p.id))))
  log : c'.log = c.log ++ restoreEvents rows
  faults : ∀ i, c.log.length ≤ i → i < c'.log.length → fault i = false

/-- The row update of `updateOrderCancelled`. -/
def cancelRow (now : Nat) (id : Int) (o : Order) : Order :=
  if o.id = id then { o with status := "cancelled", updated_at := now } else o

/-- Everything a `200` answer of `cancelOrder` entails; `o` is the row the
`UPDATE ... RETURNING *` reports first, as it was before the update. -/
structure Cancelled (fault : Nat → Bool) (now : Nat) (id : Int) (s : Store) (out : Outcome)
    (o : Order) : Prop where
  found : ∃ rest, (s.db.orders.filter fun x => x.id = id) = o :: rest
  response : out.response =
    ⟨200, Body.message_order "Order cancelled successfully" (cancelRow now id o)⟩
  users : out.store.db.users = s.db.users
  businesses : out.store.db.businesses = s.db.businesses
  orders : out.store.db.orders = s.db.orders.map (cancelRow now id)
  order_items : out.store.db.order_items = s.db.order_items
  products : out.store.db.products.map (fun p => (p.id, p.stock_quantity)) =
    s.db.products.map
      (fun p => (p.id, sqlAdd p.stock_quantity (some (itemsQuantity s.db.order_items id p.id))))
  open_txn : out.open_txn = none
  log : out.log = Event.query Stmt.BEGIN :: Event.query (Stmt.select_order_items id) ::
    (restoreEvents ((s.db.order_items.filter fun i => i.order_id = some id).map
        fun i => (i.product_id, i.quantity)) ++
      [Event.query (Stmt.update_order_cancelled id), Event.query Stmt.COMMIT, Event.release])

/-- What the 404 branch of `cancelOrder` leaves behind: nothing is committed,
and the transaction is still open on the released connection. -/
structure CancelNotFound (id : Int) (s : Store) (out : Outcome) : Prop where
  absent : (s.db.orders.filter fun x => x.id = id) = []
  response : out.response = ⟨404, Body.error "Order not found"⟩
  db : out.store.db = s.db
  open_txn : ∃ d, out.open_txn = some d ∧
    d.products.map (fun p => (p.id, p.stock_quantity)) =
      s.db.products.map
        (fun p => (p.id, sqlAdd p.stock_quantity (some (itemsQuantity s.db.order_items id p.id))))
  log : out.log = Event.query Stmt.BEGIN :: Event.query (Stmt.select_order_items id) ::
    (restoreEvents ((s.db.order_items.filter fun i => i.order_id = some id).map
        fun i => (i.product_id, i.quantity)) ++
      [Event.query (Stmt.update_order_cancelled id), Event.release])

/-- What a failed `cancelOrder` leaves behind; only an error raised by the store
makes it fail. -/
def CancelFailed (fault : Nat → Bool) (s : Store) (out : Outcome) : Prop :=
  out.response = ⟨500, Body.error "Error cancelling order"⟩ ∧ out.store.db = s.db ∧
    out.open_txn = none ∧ ∃ i, fault i = true

/-- Every product with a stock has a stock of at least zero. -/
def stockNonneg (d : Db) : Bool :=
  d.products.all fun p =>
    match p.stock_quantity with
    | some q => decide (0 ≤ q)
    | none => true

/-- Sum of `quantity * unit_price` over the order items of order `oid`. -/
def itemsTotal (rows : List OrderItem) (oid : Int) : Money :=
  ((rows.filter fun i => i.order_id = some oid).map fun i => i.quantity * i.unit_price).sum

/-- Store of the end-to-end scenario: one user, one business, product 7 with
price 3.00 and stock 5, product 8 with price 4.00 and stock 4, no orders yet. -/
def demoStore : Store :=
  { db := { users := [1], businesses := [1],
            products := [⟨7, 300, some 5, 0⟩, ⟨8, 400, some 4, 0⟩],
            orders := [], order_items := [] },
    orders_id_seq := 0, order_items_id_seq := 0 }

/-- Request of the end-to-end scenario: three units of product 7 at 2.50. -/
def demoBody : CreateOrderBody :=
  { user_id := some 1, business_id := some 1,
    items := some [⟨some 7, some 3, some 250⟩],
    total_amount := some 750, delivery_address := some "Unity Hall",
    delivery_instructions := none, payment_method := some "cash",
    status := none, rest := [] }

/-- Request with two items for the same product and one for another. -/
def demoBodyThree : CreateOrderBody :=
  { demoBody with
    items := some [⟨some 7, some 2, some 250⟩, ⟨some 8, some 1, some 400⟩,
      ⟨some 7, some 1, some 250⟩],
    total_amount := some 1150 }

/-- Request ordering six units of product 7, one more than is in stock. -/
def demoBodySix : CreateOrderBody :=
  { demoBody with items := some [⟨some 7, some 6, some 250⟩], total_amount := some 1500 }

/-- Request whose `total_amount` is not the sum of its items. -/
def demoBodyCheap : CreateOrderBody :=
  { demoBody with total_amount := some 100 }

/-- The order the scenario creates. -/
def demoOrder : Order :=
  ⟨1, some 1, some 1, 750, "Unity Hall", none, some "cash", "pending", 10, 10⟩

/-- The order the scenario creates, once cancelled. -/
def demoCancelledOrder : Order :=
  ⟨1, some 1, some 1, 750, "Unity Hall", none, some "cash", "cancelled", 10, 20⟩

/-- Store of the scenario after the order was created and cancelled: the stock
of product 7 is back at 5. -/
def demoCancelledStore : Store :=
  { db := { users := [1], businesses := [1],
            products := [⟨7, 300, some 5, 20⟩, ⟨8, 400, some 4, 0⟩],
            orders := [demoCancelledOrder],
            order_items := [⟨1, some 1, some 7, 3, 250, 10⟩] },
    orders_id_seq := 1, order_items_id_seq := 1 }

/-- A store error on statement 5 of the connection (`BEGIN` is statement 0),
which for `createOrder` is the stock update of the second item. -/
def faultAtFive : Nat → Bool := fun i => i == 5

/-- The row update of `updateOrderStatusStmt`. -/
def statusRow (now : Nat) (status : String) (id : Int) (o : Order) : Order :=
  if o.id = id then { o with status := status, updated_at := now } else o

/-- Tables after `UPDATE orders SET status = $1, updated_at = NOW() WHERE id = $2`. -/
def statusUpdated (now : Nat) (status : String) (id : Int) (s : Store) : Store :=
  { s with db := { s.db with orders := s.db.orders.map (statusRow now status id) } }

/-- Store of the scenario once its order was delivered. -/
def demoDeliveredStore : Store :=
  { db := { users := [1], businesses := [1],
            products := [⟨7, 300, some 2, 10⟩, ⟨8, 400, some 4, 0⟩],
            orders := [{ demoOrder with status := "delivered", updated_at := 20 }],
            order_items := [⟨1, some 1, some 7, 3, 250, 10⟩] },
    orders_id_seq := 1, order_items_id_seq := 1 }

/-- The two operations that write the status of an order. -/
inductive OrderOp where
  | updateStatus (id : Int) (status : Option String)
  | cancel (id : Int)
deriving DecidableEq, Repr

/-- One operation, run as its handler on a new connection. -/
def runOp (fault : Nat → Bool) (now : Nat) : OrderOp → Store → Outcome
  | OrderOp.updateStatus id status, s => updateOrderStatus fault now id status s
  | OrderOp.cancel id, s => cancelOrder fault now id s

/-- The pool of `orders.js` between two requests that are handled one after the
other: the committed store, and the working copy of the transaction a request
left open on the connection it released, if it left one. -/
structure Pool where
  store : Store
  open_txn : Option Db
deriving DecidableEq, Repr

/-- The connection the pool hands out when it still holds the one the previous
request released: a transaction left open on it is still open. -/
def checkout (p : Pool) : Session :=
  { committed := p.store.db, txn := p.open_txn, orders_id_seq := p.store.orders_id_seq,
    order_items_id_seq := p.store.order_items_id_seq, log := [] }

/-- Handler `router.put('/:id/status')` on the connection `pool.query` is
given.  With a transaction open on that connection the `UPDATE` goes into the
transaction. -/
def updateOrderStatusOn (fault : Nat → Bool) (now : Nat) (id : Int) (status : Option String)
    (c : Session) : Outcome :=
  if !includes validStatuses status then
    finish c { status := 400, body := Body.error "Invalid status" }
  else
    match updateOrderStatusStmt fault now (status.getD "") id c with
    | (c, Except.error _) =>
      finish (release c) { status := 500, body := Body.error "Error updating order status" }
    | (c, Except.ok []) =>
      finish (release c) { status := 404, body := Body.error "Order not found" }
    | (c, Except.ok (row :: _)) =>
      finish (release c)
        { status := 200, body := Body.message_order "Order status updated successfully" row }

/-- Handler `router.put('/:id/cancel')` on the connection `pool.connect()`
gives.  With a transaction open on that connection `BEGIN` only warns and
`COMMIT` commits what the transaction holds. -/
def cancelOrderOn (fault : Nat → Bool) (now : Nat) (id : Int) (c : Session) : Outcome :=
  match cancelOrderTry fault now id c with
  | (c, Except.ok r) => finish (release c) r
  | (c, Except.error _) =>
    finish (release (rollback c)) { status := 500, body := Body.error "Error cancelling order" }

/-- One operation, run as its handler on the given connection. -/
def runOpOn (fault : Nat → Bool) (now : Nat) : OrderOp → Session → Outcome
  | OrderOp.updateStatus id status, c => updateOrderStatusOn fault now id status c
  | OrderOp.cancel id, c => cancelOrderOn fault now id c

/-- One request of a sequence: its time, whether the pool still holds the
connection the previous request released (it closes a connection that stays
idle for too long, which rolls back a transaction left open on it, and opens a
new one), and the operation. -/
structure Step where
  now : Nat
  kept : Bool
  op : OrderOp
deriving DecidableEq, Repr

/-- The pool after one request, the store raising no error. -/
def step (st : Step) (p : Pool) : Pool :=
  let c := if st.kept then checkout p else connect p.store
  let out := runOpOn noFault st.now st.op c
  { store := out.store, open_txn := out.open_txn }

/-- The pool after a sequence of requests handled one after the other, each on
the connection the pool hands out. -/
def runOps : List Step → Pool → Pool
  | [], p => p
  | st :: rest, p => runOps rest (step st p)

/-- Status of the order with the given id, if there is one. -/
def statusOf (s : Store) (id : Int) : Option String :=
  (s.db.orders.find? fun o => o.id = id).map fun o => o.status

/-- Status an operation asks for on order `id`: the status of an
`updateStatus` of that order when it is one of `validStatuses`, `cancelled`
for a `cancel` of that order, nothing otherwise. -/
def opTarget (id : Int) : OrderOp → Option String
  | OrderOp.updateStatus i status =>
    if i = id ∧ includes validStatuses status = true then status else none
  | OrderOp.cancel i => if i = id then some "cancelled" else none

/-- Status asked for by the last operation of the sequence that asks for one
on order `id`; `st` when there is none. -/
def lastTarget (id : Int) : List Step → String → String
  | [], st => st
  | step :: rest, st => lastTarget id rest ((opTarget id step.op).getD st)

end Orders

/-!
# Authentication middleware (`src/backend/middleware/auth.js`)

`jwt.verify` of the `jsonwebtoken` library is a parameter: it gives the decoded
payload of a token or the `name` of the error it throws.  A middleware is
described by what it leaves behind: `req.user`, the calls of `next` and the
responses sent.
-/

namespace Auth

/-- Payload of a token as `generateToken` signs it. -/
structure Payload where
  id : Int
  username : String
  email : String
  isAdmin : Bool
deriving DecidableEq, Repr

/-- What the authentication middleware reads of a request:
`req.headers['authorization']` and `req.cookies?.token`, `none` when absent. -/
structure Credentials where
  authorization : Option String
  cookieToken : Option String
deriving DecidableEq, Repr

/-- JSON of a refusal, sent with its HTTP status. -/
structure Denial where
  status : Nat
  error : String
  requiresAuth : Bool
deriving DecidableEq, Repr

/-- What a middleware did: `req.user` afterwards (`none` when unset or `null`),
how many times it called `next`, and the responses it sent. -/
structure Outcome where
  user : Option Payload
  next : Nat
  sent : List Denial
deriving DecidableEq, Repr

/-- JavaScript `split` with a separator of one character: the pieces between
the occurrences of the separator, empty pieces included. -/
def split (sep : Char) : List Char → List (List Char)
  | [] => [[]]
  | c :: cs =>
    if c = sep then [] :: split sep cs
    else
      match split sep cs with
      | [] => [[c]]
      | p :: ps => (c :: p) :: ps

/-- Second piece of the header cut at each space, if there is one. -/
def secondField (h : String) : Option String :=
  (split ' ' h.toList)[1]?.map String.mk

/-- Expression `authHeader && authHeader.split(' ')[1]`: a missing or empty
header is returned as it is, otherwise its second field. -/
def headerToken (authHeader : Option String) : Option String :=
  match authHeader with
  | none => none
  | some h => if h = "" then some "" else secondField h

/-- Expression `headerToken || cookieToken`. -/
def orElse (headerToken cookieToken : Option String) : Option String :=
  match headerToken with
  | some t => if t = "" then cookieToken else some t
  | none => cookieToken

/-- Test `!token`: the token is missing or the empty string. -/
def isFalsy : Option String → Bool
  | none => true
  | some t => t = ""

/-- The 401 refusal of `authenticateToken`. -/
def deny (error : String) : Outcome :=
  { user := none, next := 0, sent := [{ status := 401, error := error, requiresAuth := true }] }

/-- Middleware `authenticateToken`.  `verify` stands for
`jwt.verify(_, config.jwt.secret)` of the `jsonwebtoken` library: the decoded
payload, or the `name` of the error it throws. -/
def authenticateToken (verify : String → Except String Payload) (c : Credentials) : Outcome :=
  let token := orElse (headerToken c.authorization) c.cookieToken
  if isFalsy token then deny "Access denied. No authentication token provided."
  else
    match verify (token.getD "") with
    | Except.ok decoded => { user := some decoded, next := 1, sent := [] }
    | Except.error name =>
      if name = "TokenExpiredError" then deny "Token has expired. Please log in again."
      else if name = "JsonWebTokenError" then deny "Invalid token. Please log in again."
      else deny "Authentication failed."

/-- Middleware `optionalAuth`. -/
def optionalAuth (verify : String → Except String Payload) (c : Credentials) : Outcome :=
  let token := orElse (headerToken c.authorization) c.cookieToken
  if !isFalsy token then
    match verify (token.getD "") with
    | Except.ok decoded => { user := some decoded, next := 1, sent := [] }
    | Except.error _ => { user := none, next := 1, sent := [] }
  else { user := none, next := 1, sent := [] }

/-- The selected token in the words of the specification: the second
space-separated field of the Authorization header if there is one and it is not
empty, otherwise the cookie token if there is one and it is not empty. -/
def selectedToken (c : Credentials) : Option String :=
  match (c.authorization.bind secondField).filter fun t => t ≠ "" with
  | some t => some t
  | none => c.cookieToken.filter fun t => t ≠ ""

/-- A verifier that knows two tokens, one good and one expired. -/
def demoVerify : String → Except String Payload := fun t =>
  if t = "good" then Except.ok ⟨1, "kwame123", "kwame@knust.edu.gh", false⟩
  else if t = "other" then Except.ok ⟨2, "ama_serwaa", "ama@knust.edu.gh", false⟩
  else if t = "old" then Except.error "TokenExpiredError"
  else Except.error "JsonWebTokenError"

end Auth

/-!
# Business, product and user routes, registration
(`src/backend/routes/businesses.js`, `products.js`, `users.js`, `auth.js`)

Each statement goes through `pool.query`, outside any transaction, so a
statement that fails changes nothing.  Body fields are typed by the column they
are written to; a field that is absent or `null` is `none`, except in the
registration body, whose tests tell `undefined` and `null` apart.
-/

namespace Routes

open Orders (Money Err)
open Auth (Payload Credentials)

/-- Row of `users`. -/
structure User where
  id : Int
  username : String
  email : String
  password_hash : String
  first_name : String
  last_name : String
  index_number : String
  hall_of_residence : String
  department : String
  phone_number : String
  profile_picture_url : Option String
  is_verified : Option Bool
  created_at : Nat
  updated_at : Nat
deriving DecidableEq, Repr

/-- Row of `businesses`. -/
structure Business where
  id : Int
  name : String
  description : Option String
  category : String
  location : String
  contact_number : String
  whatsapp_link : Option String
  instagram_handle : Option String
  logo_url : Option String
  owner_id : Option Int
  is_verified : Option Bool
  is_active : Option Bool
  created_at : Nat
  updated_at : Nat
deriving DecidableEq, Repr

/-- Row of `products`. -/
structure Product where
  id : Int
  name : String
  description : Option String
  price : Money
  image_url : Option String
  business_id : Option Int
  category : String
  stock_quantity : Option Int
  is_available : Option Bool
  created_at : Nat
  updated_at : Nat
deriving DecidableEq, Repr

/-- The tables behind the business, product and user routes, with the last
value of `users_id_seq`.  Rows that a cascading delete removes from other
tables (orders, order items, reviews) are outside this model. -/
structure Tables where
  users : List User
  businesses : List Business
  products : List Product
  users_id_seq : Int
deriving DecidableEq, Repr

/-- Fields `router.put('/:id')` of `routes/businesses.js` destructures. -/
structure BusinessBody where
  name : Option String
  description : Option String
  category : Option String
  location : Option String
  contact_number : Option String
  whatsapp_link : Option String
  instagram_handle : Option String
  logo_url : Option String
deriving DecidableEq, Repr

/-- Fields `router.put('/:id')` of `routes/products.js` destructures. -/
structure ProductBody where
  name : Option String
  description : Option String
  price : Option Money
  image_url : Option String
  category : Option String
  stock_quantity : Option Int
  is_available : Option Bool
deriving DecidableEq, Repr

/-- Fields `router.put('/:id')` of `routes/users.js` destructures. -/
structure UserBody where
  first_name : Option String
  last_name : Option String
  hall_of_residence : Option String
  department : Option String
  phone_number : Option String
deriving DecidableEq, Repr

/-- Fields `router.post('/')` of `routes/users.js` destructures. -/
structure NewUserBody where
  username : Option String
  email : Option String
  password_hash : Option String
  first_name : Option String
  last_name : Option String
  index_number : Option String
  hall_of_residence : Option String
  department : Option String
  phone_number : Option String
deriving DecidableEq, Repr

/-- The SQL statements of these routes and of `authorizeOwner`. -/
inductive Query where
  | select_business_owner (id : Int)
  | select_product_owner (id : Int)
  | update_business (id : Int) (body : BusinessBody)
  | delete_business (id : Int)
  | update_product (id : Int) (body : ProductBody)
  | delete_product (id : Int)
  | update_user (id : Int) (body : UserBody)
  | select_user_by_username_email_index (username email index_number : Option String)
  | select_user_by_email_username (email username : Option String)
  | insert_user (row : NewUserBody)
deriving DecidableEq, Repr

/-- JSON sent back by these routes.  A row stands for the columns of it the
statement returns. -/
inductive Body where
  | error (error : String)
  | denied (error : String) (requiresAuth : Bool)
  | message (message : String)
  | business (row : Business)
  | product (row : Product)
  | user (row : User)
  | validation (error : String) (details : List String)
  | registered (message : String) (user : User) (token : String)
deriving DecidableEq, Repr

/-- HTTP status and JSON of the response. -/
structure Response where
  status : Nat
  body : Body
deriving DecidableEq, Repr

/-- Tables and statements sent so far while a request is handled. -/
structure Run where
  tables : Tables
  log : List Query
deriving DecidableEq, Repr

/-- Result of a request: the response, the tables afterwards and the
statements that were sent. -/
structure Outcome where
  response : Response
  tables : Tables
  log : List Query
deriving DecidableEq, Repr

/-- One `pool.query` call: the statement is logged; the store raises an error
for it when `fault` holds at its position among the statements of the request
(counted from 0), otherwise its effect `eff` takes place, which may itself be a
constraint violation. -/
def query {α : Type} (fault : Nat → Bool) (q : Query) (r : Run)
    (eff : Tables → Tables × Except Err α) : Run × Except Err α :=
  if fault r.log.length then ({ r with log := r.log ++ [q] }, Except.error Err.fault)
  else ({ tables := (eff r.tables).1, log := r.log ++ [q] }, (eff r.tables).2)

/-- End of a request. -/
def finish (r : Run) (resp : Response) : Outcome :=
  { response := resp, tables := r.tables, log := r.log }

/-- `SELECT owner_id FROM businesses WHERE id = $1`. -/
def selectBusinessOwner (fault : Nat → Bool) (id : Int) (r : Run) :
    Run × Except Err (List (Option Int)) :=
  query fault (Query.select_business_owner id) r fun t =>
    (t, Except.ok ((t.businesses.filter fun b => b.id = id).map fun b => b.owner_id))

/-- `SELECT b.owner_id FROM products p JOIN businesses b ON p.business_id = b.id
WHERE p.id = $1`. -/
def selectProductOwner (fault : Nat → Bool) (id : Int) (r : Run) :
    Run × Except Err (List (Option Int)) :=
  query fault (Query.select_product_owner id) r fun t =>
    (t, Except.ok
      (((t.products.filter fun p => p.id = id).map fun p =>
        (t.businesses.filter fun b => some b.id = p.business_id).map fun b => b.owner_id).flatten))

/-- What `authorizeOwner` does with the rows of its query: 500 when the query
threw, 404 without rows, 403 when `rows[0].owner_id !== userId`, otherwise
`next()`, which is `none` here. -/
def ownerCheck (resourceType : String) (userId : Int) :
    Run × Except Err (List (Option Int)) → Run × Option Response
  | (r, Except.error _) => (r, some ⟨500, Body.error "Authorization check failed"⟩)
  | (r, Except.ok []) => (r, some ⟨404, Body.error (resourceType ++ " not found")⟩)
  | (r, Except.ok (ownerId :: _)) =>
    if ownerId ≠ some userId then
      (r, some ⟨403, Body.error ("You don't have permission to modify this " ++ resourceType)⟩)
    else (r, none)

/-- Middleware `authorizeOwner(resourceType)`; `user` is `req.user`.  The result
is the response it sent, or `none` when it called `next()`. -/
def authorizeOwner (fault : Nat → Bool) (resourceType : String) (user : Option Payload)
    (resourceId : Int) (r : Run) : Run × Option Response :=
  match user with
  | none => (r, some ⟨500, Body.error "Authorization check failed"⟩)
  | some u =>
    if resourceType = "business" then
      ownerCheck resourceType u.id (selectBusinessOwner fault resourceId r)
    else if resourceType = "product" then
      ownerCheck resourceType u.id (selectProductOwner fault resourceId r)
    else (r, some ⟨400, Body.error "Invalid resource type"⟩)

/-- Row update of `UPDATE businesses SET name = $1, ..., logo_url = $8,
updated_at = NOW() WHERE id = $9`, once the four `NOT NULL` columns are there. -/
def setBusiness (now : Nat) (id : Int) (name category location contact_number : String)
    (body : BusinessBody) (b : Business) : Business :=
  if b.id = id then
    { b with
      name := name, description := body.description, category := category,
      location := location, contact_number := contact_number,
      whatsapp_link := body.whatsapp_link, instagram_handle := body.instagram_handle,
      logo_url := body.logo_url, updated_at := now }
  else b

/-- `UPDATE businesses SET ... WHERE id = $9 RETURNING *`: nothing happens when
no row has the id; a `NULL` for `name`, `category`, `location` or
`contact_number` violates `NOT NULL`. -/
def updateBusinessStmt (fault : Nat → Bool) (now : Nat) (id : Int) (body : BusinessBody)
    (r : Run) : Run × Except Err (List Business) :=
  query fault (Query.update_business id body) r fun t =>
    match t.businesses.filter fun b => b.id = id with
    | [] => (t, Except.ok [])
    | hit =>
      match body.name, body.category, body.location, body.contact_number with
      | some n, some c, some l, some k =>
        ({ t with businesses := t.businesses.map (setBusiness now id n c l k body) },
          Except.ok (hit.map (setBusiness now id n c l k body)))
      | _, _, _, _ => (t, Except.error Err.not_null_violation)

/-- `DELETE FROM businesses WHERE id = $1 RETURNING *`, with the cascade onto
the products of the business. -/
def deleteBusinessStmt (fault : Nat → Bool) (id : Int) (r : Run) :
    Run × Except Err (List Business) :=
  query fault (Query.delete_business id) r fun t =>
    match t.businesses.filter fun b => b.id = id with
    | [] => (t, Except.ok [])
    | hit =>
      ({ t with
          businesses := t.businesses.filter fun b => b.id ≠ id,
          products := t.products.filter fun p => p.business_id ≠ some id },
        Except.ok hit)

/-- Handler of `router.put('/:id')` in `routes/businesses.js`. -/
def updateBusiness (fault : Nat → Bool) (now : Nat) (id : Int) (body : BusinessBody)
    (r : Run) : Outcome :=
  match updateBusinessStmt fault now id body r with
  | (r, Except.error _) => finish r ⟨500, Body.error "Error updating business"⟩
  | (r, Except.ok []) => finish r ⟨404, Body.error "Business not found"⟩
  | (r, Except.ok (row :: _)) => finish r ⟨200, Body.business row⟩

/-- Handler of `router.delete('/:id')` in `routes/businesses.js`. -/
def deleteBusiness (fault : Nat → Bool) (id : Int) (r : Run) : Outcome :=
  match deleteBusinessStmt fault id r with
  | (r, Except.error _) => finish r ⟨500, Body.error "Error deleting business"⟩
  | (r, Except.ok []) => finish r ⟨404, Body.error "Business not found"⟩
  | (r, Except.ok (_ :: _)) => finish r ⟨200, Body.message "Business deleted successfully"⟩

/-- A route behind `authenticateToken` and `authorizeOwner(resourceType)`: each
middleware either answers or lets the next one run. -/
def guarded (verify : String → Except String Payload) (fault : Nat → Bool)
    (resourceType : String) (c : Credentials) (id : Int) (t : Tables)
    (handler : Run → Outcome) : Outcome :=
  match (Auth.authenticateToken verify c).sent with
  | d :: _ => { response := ⟨d.status, Body.denied d.error d.requiresAuth⟩, tables := t, log := [] }
  | [] =>
    match authorizeOwner fault resourceType (Auth.authenticateToken verify c).user id ⟨t, []⟩ with
    | (r, some resp) => finish r resp
    | (r, none) => handler r

/-- Route `PUT /api/businesses/:id`:
`router.put('/:id', authenticateToken, authorizeOwner('business'), ...)`. -/
def putBusiness (verify : String → Except String Payload) (fault : Nat → Bool) (now : Nat)
    (c : Credentials) (id : Int) (body : BusinessBody) (t : Tables) : Outcome :=
  guarded verify fault "business" c id t (updateBusiness fault now id body)

/-- Route `DELETE /api/businesses/:id`:
`router.delete('/:id', authenticateToken, authorizeOwner('business'), ...)`. -/
def delBusiness (verify : String → Except String Payload) (fault : Nat → Bool)
    (c : Credentials) (id : Int) (t : Tables) : Outcome :=
  guarded verify fault "business" c id t (deleteBusiness fault id)

/-- Row update of `UPDATE products SET name = $1, ..., is_available = $7,
updated_at = NOW() WHERE id = $8`, once the three `NOT NULL` columns are there. -/
def setProduct (now : Nat) (id : Int) (name : String) (price : Money) (category : String)
    (body : ProductBody) (p : Product) : Product :=
  if p.id = id then
    { p with
      name := name, description := body.description, price := price,
      image_url := body.image_url, category := category,
      stock_quantity := body.stock_quantity, is_available := body.is_available,
      updated_at := now }
  else p

/-- `UPDATE products SET ... WHERE id = $8 RETURNING *`; `name`, `price` and
`category` are `NOT NULL`. -/
def updateProductStmt (fault : Nat → Bool) (now : Nat) (id : Int) (body : ProductBody)
    (r : Run) : Run × Except Err (List Product) :=
  query fault (Query.update_product id body) r fun t =>
    match t.products.filter fun p => p.id = id with
    | [] => (t, Except.ok [])
    | hit =>
      match body.name, body.price, body.category with
      | some n, some pr, some c =>
        ({ t with products := t.products.map (setProduct now id n pr c body) },
          Except.ok (hit.map (setProduct now id n pr c body)))
      | _, _, _ => (t, Except.error Err.not_null_violation)

/-- `DELETE FROM products WHERE id = $1 RETURNING *`. -/
def deleteProductStmt (fault : Nat → Bool) (id : Int) (r : Run) :
    Run × Except Err (List Product) :=
  query fault (Query.delete_product id) r fun t =>
    ({ t with products := t.products.filter fun p => p.id ≠ id },
      Except.ok (t.products.filter fun p => p.id = id))

/-- Handler of `router.put('/:id')` in `routes/products.js`. -/
def updateProduct (fault : Nat → Bool) (now : Nat) (id : Int) (body : ProductBody)
    (r : Run) : Outcome :=
  match updateProductStmt fault now id body r with
  | (r, Except.error _) => finish r ⟨500, Body.error "Error updating product"⟩
  | (r, Except.ok []) => finish r ⟨404, Body.error "Product not found"⟩
  | (r, Except.ok (row :: _)) => finish r ⟨200, Body.product row⟩

/-- Handler of `router.delete('/:id')` in `routes/products.js`. -/
def deleteProduct (fault : Nat → Bool) (id : Int) (r : Run) : Outcome :=
  match deleteProductStmt fault id r with
  | (r, Except.error _) => finish r ⟨500, Body.error "Error deleting product"⟩
  | (r, Except.ok []) => finish r ⟨404, Body.error "Product not found"⟩
  | (r, Except.ok (_ :: _)) => finish r ⟨200, Body.message "Product deleted successfully"⟩

/-- Route `PUT /api/products/:id`: `router.put('/:id', async (req, res) => ...)`,
with no middleware in front; the credentials of the request are not read. -/
def putProduct (fault : Nat → Bool) (now : Nat) (_c : Credentials) (id : Int)
    (body : ProductBody) (t : Tables) : Outcome :=
  updateProduct fault now id body ⟨t, []⟩

/-- Route `DELETE /api/products/:id`: `router.delete('/:id', async (req, res) => ...)`,
with no middleware in front. -/
def delProduct (fault : Nat → Bool) (_c : Credentials) (id : Int) (t : Tables) : Outcome :=
  deleteProduct fault id ⟨t, []⟩

/-- Row update of `UPDATE users SET first_name = $1, ..., phone_number = $5,
updated_at = NOW() WHERE id = $6`. -/
def setUser (now : Nat) (id : Int) (first_name last_name hall_of_residence department
    phone_number : String) (u : User) : User :=
  if u.id = id then
    { u with
      first_name := first_name, last_name := last_name,
      hall_of_residence := hall_of_residence, department := department,
      phone_number := phone_number, updated_at := now }
  else u

/-- `UPDATE users SET ... WHERE id = $6 RETURNING ...`; the five columns are
`NOT NULL`. -/
def updateUserStmt (fault : Nat → Bool) (now : Nat) (id : Int) (body : UserBody)
    (r : Run) : Run × Except Err (List User) :=
  query fault (Query.update_user id body) r fun t =>
    match t.users.filter fun u => u.id = id with
    | [] => (t, Except.ok [])
    | hit =>
      match body.first_name, body.last_name, body.hall_of_residence, body.department,
        body.phone_number with
      | some f, some l, some h, some d, some p =>
        ({ t with users := t.users.map (setUser now id f l h d p) },
          Except.ok (hit.map (setUser now id f l h d p)))
      | _, _, _, _, _ => (t, Except.error Err.not_null_violation)

/-- Route `PUT /api/users/:id`. -/
def putUser (fault : Nat → Bool) (now : Nat) (id : Int) (body : UserBody) (t : Tables) :
    Outcome :=
  match updateUserStmt fault now id body ⟨t, []⟩ with
  | (r, Except.error _) => finish r ⟨500, Body.error "Error updating user"⟩
  | (r, Except.ok []) => finish r ⟨404, Body.error "User not found"⟩
  | (r, Except.ok (row :: _)) => finish r ⟨200, Body.user row⟩

/-- No store error is raised. -/
def noFault : Nat → Bool := fun _ => false

/-- Sample tables: the three users, the first two businesses and the first two
products of the seed data of `db/init.js`. -/
def demoTables : Tables :=
  { users :=
      [⟨1, "kwame123", "kwame@knust.edu.gh", "hashed_password", "Kwame", "Mensah",
          "123456789", "Unity Hall", "Computer Science", "233257270471", none, some false, 0, 0⟩,
        ⟨2, "ama_serwaa", "ama@knust.edu.gh", "hashed_password", "Ama", "Serwaa",
          "987654321", "Africa Hall", "Business Administration", "233244556677", none,
          some false, 0, 0⟩,
        ⟨3, "kwesi_manu", "kwesi@knust.edu.gh", "hashed_password", "Kwesi", "Manu",
          "456789123", "Independence Hall", "Engineering", "233255667788", none, some false,
          0, 0⟩],
    businesses :=
      [⟨1, "Los Barbados", some "Delicious homemade meals", "Food & Drinks", "Unity Hall",
          "233123456789", some "233123456789", some "losbarbados_knust", none, some 1,
          some false, some true, 0, 0⟩,
        ⟨2, "Ayeduase Tech Solutions", some "Laptop repairs", "Electronics", "CCB",
          "233234567890", some "233234567890", some "ayeduase_tech", none, some 2,
          some false, some true, 0, 0⟩],
    products :=
      [⟨1, "Jollof Rice with Chicken", some "Delicious Ghanaian jollof rice", 2500, none,
          some 1, "Food & Drinks", some 50, some true, 0, 0⟩,
        ⟨2, "Banku with Tilapia", some "Traditional banku", 3000, none, some 1,
          "Food & Drinks", some 30, some true, 0, 0⟩],
    users_id_seq := 3 }

/-- Credentials of user 1, who owns business 1. -/
def ownerCreds : Credentials := ⟨some "Bearer good", none⟩

/-- Credentials of user 2, who does not own business 1. -/
def otherCreds : Credentials := ⟨some "Bearer other", none⟩

/-- A full body for `PUT /api/businesses/:id`. -/
def demoBusinessBody : BusinessBody :=
  ⟨some "Los Barbados Kitchen", some "Meals", some "Food & Drinks", some "Unity Hall",
    some "233123456789", none, none, none⟩

/-- A body for `PUT /api/businesses/:id` with no field. -/
def emptyBusinessBody : BusinessBody := ⟨none, none, none, none, none, none, none, none⟩

/-- A body for `PUT /api/businesses/:id` that carries a new description and
nothing else. -/
def descriptionBody : BusinessBody :=
  ⟨none, some "Fresh meals every day", none, none, none, none, none, none⟩

/-- A body for `PUT /api/products/:id` that carries the three `NOT NULL` columns
and nothing else. -/
def demoProductBody : ProductBody :=
  ⟨some "Jollof Rice", none, some 2800, none, some "Food & Drinks", none, none⟩

/-- A property of a JSON body that is a string when present: absent
(`undefined`), `null`, or the string. -/
inductive Field where
  | undefined
  | null
  | str (s : String)
deriving DecidableEq, Repr

/-- Test `!x`. -/
def Field.falsy : Field → Bool
  | Field.str s => s = ""
  | _ => true

/-- The string a regular expression tests when given `x`. -/
def Field.text : Field → String
  | Field.undefined => "undefined"
  | Field.null => "null"
  | Field.str s => s

/-- The value as a statement parameter: `undefined` and `null` are `NULL`. -/
def Field.param : Field → Option String
  | Field.str s => some s
  | _ => none

/-- JavaScript `length` of a string: its number of UTF-16 code units. -/
def utf16Length (s : String) : Nat :=
  (s.toList.map fun c => if c.toNat < 65536 then 1 else 2).sum

/-- Test `!x || x.length < n`. -/
def Field.shorterThan (x : Field) (n : Nat) : Bool :=
  x.falsy || decide (utf16Length x.text < n)

/-- Character class `\s` of JavaScript. -/
def isSpace (c : Char) : Bool :=
  c.toNat = 9 || c.toNat = 10 || c.toNat = 11 || c.toNat = 12 || c.toNat = 13 ||
    c.toNat = 32 || c.toNat = 160 || c.toNat = 5760 ||
    (decide (8192 ≤ c.toNat) && decide (c.toNat ≤ 8202)) ||
    c.toNat = 8232 || c.toNat = 8233 || c.toNat = 8239 || c.toNat = 8287 ||
    c.toNat = 12288 || c.toNat = 65279

/-- Character class `[A-Za-z]`. -/
def isLetter (c : Char) : Bool :=
  (decide (65 ≤ c.toNat) && decide (c.toNat ≤ 90)) ||
    (decide (97 ≤ c.toNat) && decide (c.toNat ≤ 122))

/-- Character class `\d`, which is `[0-9]`. -/
def isDigit (c : Char) : Bool :=
  decide (48 ≤ c.toNat) && decide (c.toNat ≤ 57)

/-- The text before and after the first occurrence of `sep`, if it occurs. -/
def splitFirst (sep : Char) : List Char → Option (List Char × List Char)
  | [] => none
  | c :: cs =>
    if c = sep then some ([], cs)
    else
      match splitFirst sep cs with
      | some (a, b) => some (c :: a, b)
      | none => none

/-- Function `validateEmail`: the expression `/^[^\s@]+@[^\s@]+\.[^\s@]+$/`
matches.  The string has one `@`; before it comes a non-empty text, after it a
text with a dot that is neither its first nor its last character; there is no
white space. -/
def validateEmail (email : String) : Bool :=
  match splitFirst '@' email.toList with
  | none => false
  | some (a, d) =>
    !a.isEmpty && a.all (fun c => !isSpace c) &&
      d.all (fun c => !isSpace c && c != '@') && ((d.drop 1).dropLast).contains '.'

/-- Function `validateKNUSTEmail`: the expression
`/^[a-zA-Z0-9._%+-]+@(st\.)?knust\.edu\.gh$/` matches. -/
def validateKNUSTEmail (email : String) : Bool :=
  match splitFirst '@' email.toList with
  | none => false
  | some (a, d) =>
    !a.isEmpty &&
      a.all (fun c => isLetter c || isDigit c || ['.', '_', '%', '+', '-'].contains c) &&
      (d == "knust.edu.gh".toList || d == "st.knust.edu.gh".toList)

/-- Function `validatePassword`: the expression
`/^(?=.*[A-Za-z])(?=.*\d)[A-Za-z\d@$!%*#?&]{6,}$/` matches. -/
def validatePassword (password : String) : Bool :=
  password.toList.all (fun c =>
      isLetter c || isDigit c || ['@', '$', '!', '%', '*', '#', '?', '&'].contains c) &&
    decide (6 ≤ password.toList.length) && password.toList.any isLetter &&
    password.toList.any isDigit

/-- Function `validateIndexNumber`: the expression `/^[0-9]{8,10}$/` matches. -/
def validateIndexNumber (indexNumber : String) : Bool :=
  indexNumber.toList.all isDigit && decide (8 ≤ indexNumber.toList.length) &&
    decide (indexNumber.toList.length ≤ 10)

/-- Fields `router.post('/register')` destructures. -/
structure RegisterBody where
  username : Field
  email : Field
  password : Field
  confirmPassword : Field
  firstName : Field
  lastName : Field
  indexNumber : Field
  hallOfResidence : Field
  department : Field
  phoneNumber : Field
deriving DecidableEq, Repr

/-- Statement `if (cond) { errors.push(msg); }`. -/
def pushIf (cond : Bool) (msg : String) (errors : List String) : List String :=
  if cond then errors ++ [msg] else errors

/-- The `errors` array of `router.post('/register')` after the eleven tests. -/
def registerErrors (b : RegisterBody) : List String :=
  let errors : List String := []
  let errors := pushIf (b.username.shorterThan 3)
    "Username must be at least 3 characters long" errors
  let errors := pushIf (b.email.falsy || !validateEmail b.email.text)
    "Please provide a valid email address" errors
  let errors := pushIf (!validateKNUSTEmail b.email.text)
    "Please use your KNUST email address (@knust.edu.gh or @st.knust.edu.gh)" errors
  let errors := pushIf (b.password.falsy || !validatePassword b.password.text)
    "Password must be at least 6 characters long and contain at least one letter and one number"
    errors
  let errors := pushIf (b.password != b.confirmPassword)
    "Password confirmation does not match" errors
  let errors := pushIf (b.firstName.shorterThan 2)
    "First name must be at least 2 characters long" errors
  let errors := pushIf (b.lastName.shorterThan 2)
    "Last name must be at least 2 characters long" errors
  let errors := pushIf (b.indexNumber.falsy || !validateIndexNumber b.indexNumber.text)
    "Please provide a valid KNUST index number (8-10 digits)" errors
  let errors := pushIf b.hallOfResidence.falsy "Hall of residence is required" errors
  let errors := pushIf b.department.falsy "Department is required" errors
  let errors := pushIf (b.phoneNumber.shorterThan 9)
    "Please provide a valid phone number" errors
  errors

/-- The validation rules of the registration in their order: when a body
violates the rule, and the message for it. -/
def registerRules : List ((RegisterBody → Bool) × String) :=
  [(fun b => b.username.shorterThan 3, "Username must be at least 3 characters long"),
    (fun b => b.email.falsy || !validateEmail b.email.text,
      "Please provide a valid email address"),
    (fun b => !validateKNUSTEmail b.email.text,
      "Please use your KNUST email address (@knust.edu.gh or @st.knust.edu.gh)"),
    (fun b => b.password.falsy || !validatePassword b.password.text,
      "Password must be at least 6 characters long and contain at least one letter and one number"),
    (fun b => b.password != b.confirmPassword, "Password confirmation does not match"),
    (fun b => b.firstName.shorterThan 2, "First name must be at least 2 characters long"),
    (fun b => b.lastName.shorterThan 2, "Last name must be at least 2 characters long"),
    (fun b => b.indexNumber.falsy || !validateIndexNumber b.indexNumber.text,
      "Please provide a valid KNUST index number (8-10 digits)"),
    (fun b => b.hallOfResidence.falsy, "Hall of residence is required"),
    (fun b => b.department.falsy, "Department is required"),
    (fun b => b.phoneNumber.shorterThan 9, "Please provide a valid phone number")]

/-- `SELECT id FROM users WHERE username = $1 OR email = $2 OR index_number = $3`. -/
def selectUserByUsernameEmailIndex (fault : Nat → Bool)
    (username email index_number : Option String) (r : Run) : Run × Except Err (List Int) :=
  query fault (Query.select_user_by_username_email_index username email index_number) r fun t =>
    (t, Except.ok ((t.users.filter fun u =>
      some u.username = username ∨ some u.email = email ∨ some u.index_number = index_number).map
        fun u => u.id))

/-- `SELECT id FROM users WHERE email = $1 OR username = $2`. -/
def selectUserByEmailUsername (fault : Nat → Bool) (email username : Option String) (r : Run) :
    Run × Except Err (List Int) :=
  query fault (Query.select_user_by_email_username email username) r fun t =>
    (t, Except.ok ((t.users.filter fun u =>
      some u.email = email ∨ some u.username = username).map fun u => u.id))

/-- `INSERT INTO users (username, ..., phone_number) VALUES ($1, ..., $9)
RETURNING ...`: the id is drawn from the sequence; the nine columns are
`NOT NULL`; `id`, `username`, `email` and `index_number` are unique. -/
def insertUserStmt (fault : Nat → Bool) (now : Nat) (row : NewUserBody) (r : Run) :
    Run × Except Err User :=
  query fault (Query.insert_user row) r fun t =>
    let id := t.users_id_seq + 1
    let t1 : Tables := { t with users_id_seq := id }
    match row.username, row.email, row.password_hash, row.first_name, row.last_name,
      row.index_number, row.hall_of_residence, row.department, row.phone_number with
    | some un, some em, some ph, some fn, some ln, some ix, some hr, some dp, some pn =>
      if t.users.any (fun u => u.id == id || u.username == un || u.email == em ||
          u.index_number == ix) then (t1, Except.error Err.unique_violation)
      else
        let user : User := ⟨id, un, em, ph, fn, ln, ix, hr, dp, pn, none, some false, now, now⟩
        ({ t1 with users := t.users ++ [user] }, Except.ok user)
    | _, _, _, _, _, _, _, _, _ => (t1, Except.error Err.not_null_violation)

/-- Handler `router.post('/register')` of `routes/auth.js`.  `hash` stands for
`bcrypt.hash(_, 12)` and `sign` for `generateToken`. -/
def register (hash : String → String) (sign : Payload → String) (fault : Nat → Bool)
    (now : Nat) (b : RegisterBody) (t : Tables) : Outcome :=
  if (registerErrors b).length > 0 then
    { response := ⟨400, Body.validation "Validation failed" (registerErrors b)⟩,
      tables := t, log := [] }
  else
    match selectUserByUsernameEmailIndex fault b.username.param b.email.param
        b.indexNumber.param ⟨t, []⟩ with
    | (r, Except.error _) => finish r ⟨500, Body.error "Registration failed. Please try again."⟩
    | (r, Except.ok (_ :: _)) =>
      finish r ⟨409, Body.error "User already exists with this username, email, or index number"⟩
    | (r, Except.ok []) =>
      match insertUserStmt fault now
          ⟨b.username.param, b.email.param, some (hash b.password.text), b.firstName.param,
            b.lastName.param, b.indexNumber.param, b.hallOfResidence.param, b.department.param,
            b.phoneNumber.param⟩ r with
      | (r, Except.error _) =>
        finish r ⟨500, Body.error "Registration failed. Please try again."⟩
      | (r, Except.ok user) =>
        finish r ⟨201, Body.registered
          "Registration successful! Welcome to KNUST Enterprise Hub!" user
          (sign ⟨user.id, user.username, user.email, false⟩)⟩

/-- Handler `router.post('/')` of `routes/users.js`: create a user. -/
def createUser (fault : Nat → Bool) (now : Nat) (b : NewUserBody) (t : Tables) : Outcome :=
  match selectUserByEmailUsername fault b.email b.username ⟨t, []⟩ with
  | (r, Except.error _) => finish r ⟨500, Body.error "Error creating user"⟩
  | (r, Except.ok (_ :: _)) => finish r ⟨400, Body.error "User already exists"⟩
  | (r, Except.ok []) =>
    match insertUserStmt fault now b r with
    | (r, Except.error _) => finish r ⟨500, Body.error "Error creating user"⟩
    | (r, Except.ok user) => finish r ⟨201, Body.user user⟩

/-- A registration that passes every rule. -/
def demoRegisterBody : RegisterBody :=
  ⟨Field.str "yaw_boat", Field.str "yaw@st.knust.edu.gh", Field.str "secret12",
    Field.str "secret12", Field.str "Yaw", Field.str "Boateng", Field.str "20481234",
    Field.str "Katanga", Field.str "Physics", Field.str "233200000000"⟩

/-- A registration that violates the rules on the email (twice), on the
confirmation and on the department. -/
def badRegisterBody : RegisterBody :=
  { demoRegisterBody with
    email := Field.str "yaw.gmail.com", confirmPassword := Field.undefined,
    department := Field.str "" }

/-- A valid registration under the username of user 1. -/
def takenRegisterBody : RegisterBody :=
  { demoRegisterBody with username := Field.str "kwame123" }

/-- A stand-in for the password hash. -/
def demoHash : String → String := fun p => "hash:" ++ p

/-- A stand-in for `generateToken`. -/
def demoSign : Payload → String := fun p => "token:" ++ p.username

end Routes

/-!
# Controllers (`src/backend/controllers/userController.js`,
`businessController.js`)

The controllers call `db.get` and `db.run` on the object they take from
`require('../db/init')`.  The object is a parameter of the model, each method
being there or not; `initModule` is the object that module exports.
-/

namespace Controllers

open Routes (Field)

/-- A JSON value bound to a `?` of a statement. -/
inductive JsValue where
  | null
  | bool (b : Bool)
  | num (n : Int)
  | str (s : String)
deriving DecidableEq, Repr

/-- A call of a method of `db`, with the statement text and its parameters. -/
inductive Call where
  | get (sql : String) (params : List JsValue)
  | run (sql : String) (params : List JsValue)
deriving DecidableEq, Repr

/-- The object `db` the controllers take from `require('../db/init')`, as far
as they use it.  A method the module does not export is `none`, and calling it
throws.  `get` resolves to a row or to `undefined` (here: whether there is a
row) and `run` to an object with `lastID`; both may reject. -/
structure DbModule where
  get : Option (String → List JsValue → Except Unit Bool)
  run : Option (String → List JsValue → Except Unit Int)

/-- The module `src/backend/db/init.js` as it is exported:
`module.exports = { initializeDatabase }`, with neither `get` nor `run`. -/
def initModule : DbModule := { get := none, run := none }

/-- JSON of a controller response: `success`, `message` and, on a
registration, `data` with the new id and the account type. -/
structure Response where
  status : Nat
  success : Bool
  message : String
  data : Option (Int × Field)
deriving DecidableEq, Repr

/-- Result of a controller: the response and the calls made on `db`. -/
structure Outcome where
  response : Response
  calls : List Call
deriving DecidableEq, Repr

/-- A body field as a statement parameter. -/
def fieldValue : Field → JsValue
  | Field.str s => JsValue.str s
  | _ => JsValue.null

/-- Fields `registerUser` destructures. -/
structure RegisterUserBody where
  username : Field
  email : Field
  password : Field
  first_name : Field
  last_name : Field
  index_number : Field
  hall_of_residence : Field
  department : Field
  phone_number : Field
  account_type : Field
deriving DecidableEq, Repr

/-- Controller `registerUser` of `controllers/userController.js`.  `hash` stands
for `bcrypt.hash(_, 10)`.  Statement texts are given without the line breaks of
their template literals. -/
def registerUser (hash : String → String) (db : DbModule) (b : RegisterUserBody) : Outcome :=
  let account_type : Field :=
    match b.account_type with
    | Field.undefined => Field.str "user"
    | x => x
  let failed : Response := ⟨500, false, "Failed to register user", none⟩
  if b.username.falsy || b.email.falsy || b.password.falsy || b.first_name.falsy ||
      b.last_name.falsy || b.index_number.falsy || b.hall_of_residence.falsy ||
      b.department.falsy || b.phone_number.falsy then
    ⟨⟨400, false, "All fields are required", none⟩, []⟩
  else
    match db.get with
    | none => ⟨failed, []⟩
    | some get =>
      let check := Call.get "SELECT id FROM users WHERE username = ? OR email = ?"
        [fieldValue b.username, fieldValue b.email]
      match get "SELECT id FROM users WHERE username = ? OR email = ?"
          [fieldValue b.username, fieldValue b.email] with
      | Except.error _ => ⟨failed, [check]⟩
      | Except.ok true => ⟨⟨400, false, "Username or email already exists", none⟩, [check]⟩
      | Except.ok false =>
        let insertQuery := "INSERT INTO users ( username, email, password_hash, first_name, last_name, index_number, hall_of_residence, department, phone_number, account_type ) VALUES (?, ?, ?, ?, ?, ?, ?, ?, ?, ?)"
        let values := [fieldValue b.username, fieldValue b.email,
          JsValue.str (hash b.password.text), fieldValue b.first_name, fieldValue b.last_name,
          fieldValue b.index_number, fieldValue b.hall_of_residence, fieldValue b.department,
          fieldValue b.phone_number, fieldValue account_type]
        match db.run with
        | none => ⟨failed, [check]⟩
        | some run =>
          match run insertQuery values with
          | Except.error _ => ⟨failed, [check, Call.run insertQuery values]⟩
          | Except.ok lastID =>
            let created : Response :=
              ⟨201, true, "User registered successfully", some (lastID, account_type)⟩
            if account_type = Field.str "business_owner" then
              match run "INSERT INTO business_owners (user_id) VALUES (?)"
                  [JsValue.num lastID] with
              | Except.error _ =>
                ⟨failed, [check, Call.run insertQuery values,
                  Call.run "INSERT INTO business_owners (user_id) VALUES (?)"
                    [JsValue.num lastID]]⟩
              | Except.ok _ =>
                ⟨created, [check, Call.run insertQuery values,
                  Call.run "INSERT INTO business_owners (user_id) VALUES (?)"
                    [JsValue.num lastID]]⟩
            else ⟨created, [check, Call.run insertQuery values]⟩

/-- The loop `allowedFields.forEach(field => { if (updateData[field] !==
undefined) { updates.push(...); values.push(...); } })`, giving `updates` and
`values`.  `updateData field` is `none` when the property is `undefined`. -/
def collect (updateData : String → Option JsValue) (allowedFields : List String) :
    List String × List JsValue :=
  allowedFields.foldl
    (fun acc field =>
      match updateData field with
      | some v => (acc.1 ++ [field ++ " = ?"], acc.2 ++ [v])
      | none => acc)
    ([], [])

/-- The `allowedFields` of `updateBusiness`. -/
def businessFields : List String :=
  ["name", "description", "category", "location", "contact_number", "whatsapp_link",
    "instagram_handle", "facebook_page", "website_url", "operating_hours", "is_active"]

/-- The `allowedFields` of `updateUserProfile`. -/
def profileFields : List String :=
  ["first_name", "last_name", "hall_of_residence", "department", "phone_number",
    "profile_picture_url"]

/-- The `ownershipQuery` of `updateBusiness`, without its line breaks. -/
def ownershipQuery : String :=
  "SELECT b.* FROM businesses b JOIN business_owners bo ON b.owner_id = bo.id WHERE b.id = ? AND bo.user_id = ?"

/-- Controller `updateBusiness` of `controllers/businessController.js`; `id` is
`req.params.id` and `userId` is `req.user.id`. -/
def updateBusiness (db : DbModule) (id : String) (userId : Int)
    (updateData : String → Option JsValue) : Outcome :=
  let failed : Response := ⟨500, false, "Failed to update business", none⟩
  let check := Call.get ownershipQuery [JsValue.str id, JsValue.num userId]
  match db.get with
  | none => ⟨failed, []⟩
  | some get =>
    match get ownershipQuery [JsValue.str id, JsValue.num userId] with
    | Except.error _ => ⟨failed, [check]⟩
    | Except.ok false => ⟨⟨403, false, "You can only update your own businesses", none⟩, [check]⟩
    | Except.ok true =>
      let updates := (collect updateData businessFields).1
      let values := (collect updateData businessFields).2
      if updates.length = 0 then ⟨⟨400, false, "No valid fields to update", none⟩, [check]⟩
      else
        let updates := updates ++ ["updated_at = CURRENT_TIMESTAMP"]
        let values := values ++ [JsValue.str id]
        let updateQuery := "UPDATE businesses SET " ++ ", ".intercalate updates ++ " WHERE id = ?"
        match db.run with
        | none => ⟨failed, [check]⟩
        | some run =>
          match run updateQuery values with
          | Except.error _ => ⟨failed, [check, Call.run updateQuery values]⟩
          | Except.ok _ =>
            ⟨⟨200, true, "Business updated successfully", none⟩,
              [check, Call.run updateQuery values]⟩

/-- Controller `updateUserProfile` of `controllers/userController.js`; `userId`
is `req.user.id`. -/
def updateUserProfile (db : DbModule) (userId : Int) (updateData : String → Option JsValue) :
    Outcome :=
  let failed : Response := ⟨500, false, "Failed to update profile", none⟩
  let updates := (collect updateData profileFields).1
  let values := (collect updateData profileFields).2
  if updates.length = 0 then ⟨⟨400, false, "No valid fields to update", none⟩, []⟩
  else
    let updates := updates ++ ["updated_at = CURRENT_TIMESTAMP"]
    let values := values ++ [JsValue.num userId]
    let updateQuery := "UPDATE users SET " ++ ", ".intercalate updates ++ " WHERE id = ?"
    match db.run with
    | none => ⟨failed, []⟩
    | some run =>
      match run updateQuery values with
      | Except.error _ => ⟨failed, [Call.run updateQuery values]⟩
      | Except.ok _ =>
        ⟨⟨200, true, "Profile updated successfully", none⟩, [Call.run updateQuery values]⟩

/-- The allow-listed fields the body defines, in allow-list order. -/
def presentFields (updateData : String → Option JsValue) (allowedFields : List String) :
    List String :=
  allowedFields.filter fun field => (updateData field).isSome

/-- The statement the specification describes: after `head`, one assignment per
allow-listed field the body defines, in allow-list order, then `updated_at`. -/
def updateText (head : String) (updateData : String → Option JsValue)
    (allowedFields : List String) : String :=
  head ++
    ", ".intercalate (((presentFields updateData allowedFields).map fun field =>
      field ++ " = ?") ++ ["updated_at = CURRENT_TIMESTAMP"]) ++ " WHERE id = ?"

/-- The parameters the specification describes: the values of those fields, in
the same order. -/
def updateValues (updateData : String → Option JsValue) (allowedFields : List String) :
    List JsValue :=
  (presentFields updateData allowedFields).filterMap updateData

/-- A `db` with both methods, on which every statement succeeds and the
ownership query finds the business. -/
def owningDb : DbModule :=
  { get := some fun _ _ => Except.ok true, run := some fun _ _ => Except.ok 1 }

/-- A body with a `name`, a `null` `description`, and two properties outside the
allow-lists. -/
def demoUpdate : String → Option JsValue := fun field =>
  if field = "name" then some (JsValue.str "Los Barbados Kitchen")
  else if field = "description" then some JsValue.null
  else if field = "owner_id" then some (JsValue.num 2)
  else if field = "phone_number" then some (JsValue.str "233200000000")
  else if field = "is_verified" then some (JsValue.bool true)
  else none

/-- A body with no property. -/
def emptyUpdate : String → Option JsValue := fun _ => none

/-- A registration with every field, under the username of the first seeded
user. -/
def takenUserBody : RegisterUserBody :=
  ⟨Field.str "kwame123", Field.str "new@knust.edu.gh", Field.str "secret12", Field.str "Kwame",
    Field.str "Mensah", Field.str "20481234", Field.str "Unity Hall", Field.str "Physics",
    Field.str "233200000000", Field.undefined⟩

end Controllers

/-!
# Further middleware and routes

`requireAdmin` of `src/backend/middleware/auth.js`, the deletion of an order in
`src/backend/routes/orders.js`, the password rule of `routes/auth.js` and the
creation of a business in `routes/businesses.js`.
-/

namespace Auth

/-- Middleware `requireAdmin`; `user` is `req.user`.  The result is the status
and the `error` of the response it sent, or `none` when it called `next()`. -/
def requireAdmin (user : Option Payload) : Option (Nat × String) :=
  match user with
  | none => some (403, "Admin access required")
  | some u => if !u.isAdmin then some (403, "Admin access required") else none

end Auth

namespace Orders

/-- JSON sent back by `router.delete('/:id')`. -/
inductive DeleteBody where
  | message (message : String)
  | error (error : String)
deriving DecidableEq, Repr

/-- Result of `router.delete('/:id')`: the response and the committed store. -/
structure DeleteOutcome where
  status : Nat
  body : DeleteBody
  store : Store
deriving DecidableEq, Repr

/-- `DELETE FROM orders WHERE id = $1 RETURNING *`: the tables afterwards and
the rows deleted.  The order items of the order go with it
(`order_id INTEGER REFERENCES orders(id) ON DELETE CASCADE`). -/
def deleteOrderStmt (id : Int) (d : Db) : Db × List Order :=
  ({ d with
      orders := d.orders.filter fun o => o.id ≠ id,
      order_items := d.order_items.filter fun i => i.order_id ≠ some id },
    d.orders.filter fun o => o.id = id)

/-- Handler `router.delete('/:id')`: delete an order.  The statement goes
through `pool.query`, outside any transaction; `fault 0` tells whether the store
raises an error for it. -/
def deleteOrder (fault : Nat → Bool) (id : Int) (s : Store) : DeleteOutcome :=
  if fault 0 then ⟨500, DeleteBody.error "Error deleting order", s⟩
  else
    match deleteOrderStmt id s.db with
    | (_, []) => ⟨404, DeleteBody.error "Order not found", s⟩
    | (d, _ :: _) => ⟨200, DeleteBody.message "Order deleted successfully", { s with db := d }⟩

/-- Route `DELETE /api/orders/:id`: `router.delete('/:id', async (req, res) => ...)`,
mounted by `app.use('/api/orders', ...)`.  No middleware stands before the
handler, so the credentials of the request are never read. -/
def delOrder (fault : Nat → Bool) (_c : Auth.Credentials) (id : Int) (s : Store) :
    DeleteOutcome :=
  deleteOrder fault id s

end Orders

namespace Routes

/-- The password rule in the words of the specification: at least 6
characters, at least one letter and at least one digit. -/
def passwordRule (p : String) : Bool :=
  decide (6 ≤ p.length) && p.toList.any isLetter && p.toList.any isDigit

/-- The characters the expression of `validatePassword` lets a password be
made of: `[A-Za-z\d@$!%*#?&]`. -/
def passwordChar (c : Char) : Bool :=
  isLetter c || isDigit c || ['@', '$', '!', '%', '*', '#', '?', '&'].contains c

end Routes

namespace Routes

open Orders (Money Err)
open Auth (Payload Credentials)

/-- Fields `router.post('/')` of `routes/businesses.js` destructures.
`owner_id` is read from the body and not used afterwards. -/
structure NewBusinessBody where
  name : Option String
  description : Option String
  category : Option String
  location : Option String
  contact_number : Option String
  whatsapp_link : Option String
  instagram_handle : Option String
  logo_url : Option String
  owner_id : Option Int
deriving DecidableEq, Repr

/-- The tables together with the last value of `businesses_id_seq`, from which
`INSERT INTO businesses` draws the id. -/
structure BusinessStore where
  tables : Tables
  businesses_id_seq : Int
deriving DecidableEq, Repr

/-- Result of `POST /api/businesses`: the response and the store afterwards. -/
structure CreateOutcome where
  response : Response
  store : BusinessStore
deriving DecidableEq, Repr

/-- `INSERT INTO businesses (name, description, category, location,
contact_number, whatsapp_link, instagram_handle, logo_url, owner_id)
VALUES ($1, ..., $9) RETURNING *`: the id is drawn from the sequence; `name`,
`category`, `location` and `contact_number` are `NOT NULL`; `owner_id`
references `users(id)`; `is_verified` and `is_active` take their defaults. -/
def insertBusinessStmt (now : Nat) (body : NewBusinessBody) (owner_id : Option Int)
    (s : BusinessStore) : BusinessStore × Except Err Business :=
  let id := s.businesses_id_seq + 1
  let s1 : BusinessStore := { s with businesses_id_seq := id }
  match body.name, body.category, body.location, body.contact_number with
  | some n, some c, some l, some k =>
    if s.tables.businesses.any (fun b => b.id == id) then (s1, Except.error Err.unique_violation)
    else if Orders.refOk (s.tables.users.map fun u => u.id) owner_id then
      let row : Business :=
        ⟨id, n, body.description, c, l, k, body.whatsapp_link, body.instagram_handle,
          body.logo_url, owner_id, some false, some true, now, now⟩
      ({ s1 with tables := { s.tables with businesses := s.tables.businesses ++ [row] } },
        Except.ok row)
    else (s1, Except.error Err.foreign_key_violation)
  | _, _, _, _ => (s1, Except.error Err.not_null_violation)

/-- Handler of `router.post('/')` in `routes/businesses.js`; `user` is
`req.user`.  Reading `req.user.id` of a missing user throws inside the `try`.
The statement goes through `pool.query`; `fault 0` tells whether the store
raises an error for it. -/
def createBusiness (fault : Nat → Bool) (now : Nat) (user : Option Payload)
    (body : NewBusinessBody) (s : BusinessStore) : CreateOutcome :=
  match user with
  | none => ⟨⟨500, Body.error "Error creating business"⟩, s⟩
  | some u =>
    let actualOwnerId := u.id
    if fault 0 then ⟨⟨500, Body.error "Error creating business"⟩, s⟩
    else
      match insertBusinessStmt now body (some actualOwnerId) s with
      | (s, Except.error _) => ⟨⟨500, Body.error "Error creating business"⟩, s⟩
      | (s, Except.ok row) => ⟨⟨201, Body.business row⟩, s⟩

/-- Route `POST /api/businesses`: `router.post('/', authenticateToken, ...)`. -/
def postBusiness (verify : String → Except String Payload) (fault : Nat → Bool) (now : Nat)
    (c : Credentials) (body : NewBusinessBody) (s : BusinessStore) : CreateOutcome :=
  match (Auth.authenticateToken verify c).sent with
  | d :: _ => ⟨⟨d.status, Body.denied d.error d.requiresAuth⟩, s⟩
  | [] => createBusiness fault now (Auth.authenticateToken verify c).user body s

/-- The sample tables with the sequence of business ids at 2. -/
def demoBusinessStore : BusinessStore := ⟨demoTables, 2⟩

/-- A body for `POST /api/businesses` that names user 2 as the owner. -/
def demoNewBusiness : NewBusinessBody :=
  ⟨some "Kwame Prints", some "Printing and binding", some "Services", some "Unity Hall",
    some "233257270471", none, none, none, some 2⟩

/-- The row the sample request adds at time 10: business 3, owned by user 1. -/
def demoNewRow : Business :=
  ⟨3, "Kwame Prints", some "Printing and binding", "Services", "Unity Hall", "233257270471",
    none, none, none, some 1, some false, some true, 10, 10⟩

end Routes

/-!
# Search routes (`src/backend/routes/products.js`, `businesses.js`)

Both routes hand the parameter `%${query}%` to `ILIKE`.  In a pattern of
`LIKE`, `%` stands for any run of characters, `_` for any one character, and a
backslash makes the character after it stand for itself; a pattern that ends in
a lone backslash is an error.  `ILIKE` compares characters up to the case
folding of the database locale, the parameter `fold`.  The rows come back
ordered by `created_at`, latest first; rows of the same time keep the order of
the table.  Of the aggregate columns of the business search only
`product_count` is modelled: the other two are computed from `reviews`, a table
outside the model.
-/

namespace Search

open Routes (Product Business Tables)

/-- An element of a `LIKE` pattern. -/
inductive Tok where
  | any
  | one
  | lit (c : Char)
deriving DecidableEq, Repr

/-- The backslash, the escape character of `LIKE`. -/
def escape : Char := Char.ofNat 92

/-- A `LIKE` pattern read into its elements; `none` when it ends in a lone
escape character. -/
def tokens : List Char → Option (List Tok)
  | [] => some []
  | c :: rest =>
    if c = escape then
      match rest with
      | [] => none
      | d :: rest => (tokens rest).map fun ts => Tok.lit d :: ts
    else if c = '%' then (tokens rest).map fun ts => Tok.any :: ts
    else if c = '_' then (tokens rest).map fun ts => Tok.one :: ts
    else (tokens rest).map fun ts => Tok.lit c :: ts

/-- Whether the whole text matches the pattern, characters compared up to
`fold`. -/
def likeMatch (fold : Char → Char) : List Tok → List Char → Bool
  | [], s => s.isEmpty
  | Tok.any :: p, s => s.tails.any (likeMatch fold p)
  | Tok.one :: p, s =>
    match s with
    | [] => false
    | _ :: s => likeMatch fold p s
  | Tok.lit a :: p, s =>
    match s with
    | [] => false
    | c :: s => fold a == fold c && likeMatch fold p s

/-- Condition `column ILIKE $1` of a `WHERE`: on `NULL` it is not met. -/
def ilike (fold : Char → Char) (pat : List Tok) : Option String → Bool
  | none => false
  | some s => likeMatch fold pat s.toList

/-- The parameter `%${query}%`. -/
def pattern (query : String) : List Char := '%' :: (query.toList ++ ['%'])

/-- A row of the product search: `p.*`, `business_name`, `business_location`. -/
structure ProductRow where
  product : Product
  business_name : String
  business_location : String
deriving DecidableEq, Repr

/-- A row of the business search: `b.*` and `product_count`. -/
structure BusinessRow where
  business : Business
  product_count : Nat
deriving DecidableEq, Repr

/-- JSON sent back by the search routes. -/
inductive Body where
  | products (rows : List ProductRow)
  | businesses (rows : List BusinessRow)
  | error (error : String)
deriving DecidableEq, Repr

/-- HTTP status and JSON of the response. -/
structure Response where
  status : Nat
  body : Body
deriving DecidableEq, Repr

/-- `FROM products p JOIN businesses b ON p.business_id = b.id`. -/
def joined (t : Tables) : List ProductRow :=
  (t.products.map fun p =>
    (t.businesses.filter fun b => p.business_id = some b.id).map fun b =>
      (⟨p, b.name, b.location⟩ : ProductRow)).flatten

/-- `WHERE p.name ILIKE $1 OR p.description ILIKE $1 OR p.category ILIKE $1`. -/
def productWhere (fold : Char → Char) (pat : List Tok) (p : Product) : Bool :=
  ilike fold pat (some p.name) || ilike fold pat p.description || ilike fold pat (some p.category)

/-- `WHERE b.name ILIKE $1 OR b.description ILIKE $1 OR b.category ILIKE $1`. -/
def businessWhere (fold : Char → Char) (pat : List Tok) (b : Business) : Bool :=
  ilike fold pat (some b.name) || ilike fold pat b.description || ilike fold pat (some b.category)

/-- The statement of the product search, `ORDER BY p.created_at DESC`. -/
def selectProducts (fold : Char → Char) (pat : List Tok) (t : Tables) : List ProductRow :=
  ((joined t).filter fun r => productWhere fold pat r.product).insertionSort
    fun r r' => r'.product.created_at ≤ r.product.created_at

/-- Column `COUNT(DISTINCT p.id) as product_count` of a business. -/
def productCount (t : Tables) (b : Business) : Nat :=
  ((t.products.filter fun p => p.business_id = some b.id).map fun p => p.id).dedup.length

/-- The statement of the business search, `GROUP BY b.id
ORDER BY b.created_at DESC`: one row for each business the `WHERE` takes. -/
def selectBusinesses (fold : Char → Char) (pat : List Tok) (t : Tables) : List BusinessRow :=
  ((t.businesses.filter fun b => businessWhere fold pat b).map fun b =>
      (⟨b, productCount t b⟩ : BusinessRow)).insertionSort
    fun r r' => r'.business.created_at ≤ r.business.created_at

/-- Handler `router.get('/search/:query')` of `routes/products.js`.  The
statement goes through `pool.query`; `fault 0` tells whether the store raises
an error for it. -/
def searchProducts (fold : Char → Char) (fault : Nat → Bool) (query : String) (t : Tables) :
    Response :=
  if fault 0 then ⟨500, Body.error "Error searching products"⟩
  else
    match tokens (pattern query) with
    | none => ⟨500, Body.error "Error searching products"⟩
    | some pat => ⟨200, Body.products (selectProducts fold pat t)⟩

/-- Handler `router.get('/search/:query')` of `routes/businesses.js`. -/
def searchBusinesses (fold : Char → Char) (fault : Nat → Bool) (query : String) (t : Tables) :
    Response :=
  if fault 0 then ⟨500, Body.error "Error searching businesses"⟩
  else
    match tokens (pattern query) with
    | none => ⟨500, Body.error "Error searching businesses"⟩
    | some pat => ⟨200, Body.businesses (selectBusinesses fold pat t)⟩

/-- The product rows of a response; none when it carries something else. -/
def Response.productRows (r : Response) : List ProductRow :=
  match r.body with
  | Body.products rows => rows
  | _ => []

/-- The business rows of a response; none when it carries something else. -/
def Response.businessRows (r : Response) : List BusinessRow :=
  match r.body with
  | Body.businesses rows => rows
  | _ => []

/-- The text `q` occurs in the column as a case-insensitive substring, in the
words of the specification; it does not occur in `NULL`. -/
def occurs (fold : Char → Char) (q : String) : Option String → Bool
  | none => false
  | some s => decide (q.toList.map fold <:+: s.toList.map fold)

/-- The text occurs in the name, the description or the category of a product. -/
def productHas (fold : Char → Char) (q : String) (p : Product) : Bool :=
  occurs fold q (some p.name) || occurs fold q p.description || occurs fold q (some p.category)

/-- The text occurs in the name, the description or the category of a business. -/
def businessHas (fold : Char → Char) (q : String) (b : Business) : Bool :=
  occurs fold q (some b.name) || occurs fold q b.description || occurs fold q (some b.category)

end Search

/-!
# Form validation in the browser (`src/js/validation.js`)

A `FormValidator` holds the array `errors`; each method returns its verdict and
may push one message.  A method is a function from the array before the call to
the verdict and the array after it.
-/

namespace Validation

open Routes (Field utf16Length isSpace)

/-- Method `validateRequired(value, fieldName)`: the test
`!value || value.trim() === ''`.  `trim` removes the white space and line
terminators `\s` stands for. -/
def validateRequired (value : Field) (fieldName : String) (errors : List String) :
    Bool × List String :=
  if value.falsy || value.text.toList.all isSpace then
    (false, errors ++ [fieldName ++ " is required"])
  else (true, errors)

/-- Method `validateBusinessName(name)`. -/
def validateBusinessName (name : Field) (errors : List String) : Bool × List String :=
  match validateRequired name "Business name" errors with
  | (false, errors) => (false, errors)
  | (true, errors) =>
    if utf16Length name.text < 3 then
      (false, errors ++ ["Business name must be at least 3 characters long"])
    else if utf16Length name.text > 100 then
      (false, errors ++ ["Business name must be less than 100 characters"])
    else (true, errors)

/-- Method `validateDescription(description)`. -/
def validateDescription (description : Field) (errors : List String) : Bool × List String :=
  match validateRequired description "Description" errors with
  | (false, errors) => (false, errors)
  | (true, errors) =>
    if utf16Length description.text < 10 then
      (false, errors ++ ["Description must be at least 10 characters long"])
    else if utf16Length description.text > 500 then
      (false, errors ++ ["Description must be less than 500 characters"])
    else (true, errors)

/-- A text of `n` letters `a`. -/
def letters (n : Nat) : Field := Field.str (String.mk (List.replicate n 'a'))

end Validation

/-!
# The cart of the browser (`src/scripts.js`, `src/js/business-detail.js`)

Both files define the cart with the same three methods, statement for
statement; one model stands for both.  A method is a function from the array
`items` before the call to the array after it; `updateCart`, which redraws the
page and saves the array, does not change it.  Identifiers and quantities are
integers.
-/

namespace Cart

/-- The product handed to `addItem`, as far as the cart reads it. -/
structure Product where
  id : Int
  name : String
  price : Int
  business_name : Option String
deriving DecidableEq, Repr

/-- An element of `items`: the object `{ ...product, quantity }`. -/
structure Item where
  product : Product
  quantity : Int
deriving DecidableEq, Repr

/-- Property `id` of an item, copied from the product. -/
def Item.id (item : Item) : Int := item.product.id

/-- An assignment to the object `find` returned, which is the first item with
the id: that item is changed in place. -/
def updateFound (productId : Int) (f : Item → Item) : List Item → List Item
  | [] => []
  | item :: rest =>
    if item.id = productId then f item :: rest else item :: updateFound productId f rest

/-- Method `addItem(product)`. -/
def addItem (product : Product) (items : List Item) : List Item :=
  match items.find? fun item => item.id = product.id with
  | some _ =>
    updateFound product.id (fun item => { item with quantity := item.quantity + 1 }) items
  | none => items ++ [{ product := product, quantity := 1 }]

/-- Method `removeItem(productId)`. -/
def removeItem (productId : Int) (items : List Item) : List Item :=
  items.filter fun item => item.id ≠ productId

/-- Method `updateQuantity(productId, quantity)`. -/
def updateQuantity (productId quantity : Int) (items : List Item) : List Item :=
  match items.find? fun item => item.id = productId with
  | some _ =>
    if quantity ≤ 0 then removeItem productId items
    else updateFound productId (fun item => { item with quantity := quantity }) items
  | none => items

/-- A call of one of the three methods. -/
inductive Call where
  | addItem (product : Product)
  | removeItem (productId : Int)
  | updateQuantity (productId quantity : Int)
deriving DecidableEq, Repr

/-- The array after a call. -/
def call : Call → List Item → List Item
  | Call.addItem product, items => addItem product items
  | Call.removeItem productId, items => removeItem productId items
  | Call.updateQuantity productId quantity, items => updateQuantity productId quantity items

/-- The array after a sequence of calls, the first call first. -/
def calls : List Call → List Item → List Item
  | [], items => items
  | c :: rest, items => calls rest (call c items)

/-- Quantity of the first item with the id, if there is one. -/
def quantityOf (items : List Item) (productId : Int) : Option Int :=
  (items.find? fun item => item.id = productId).map fun item => item.quantity

/-- No two items share an id and every quantity is at least 1. -/
def Valid (items : List Item) : Prop :=
  (items.map Item.id).Nodup ∧ ∀ item ∈ items, 1 ≤ item.quantity

/-- A sample product. -/
def jollof : Product := ⟨1, "Jollof Rice with Chicken", 2500, some "Los Barbados"⟩

/-- Another sample product. -/
def banku : Product := ⟨2, "Banku with Tilapia", 3000, some "Los Barbados"⟩

end Cart

/-!
# Star ratings (`src/scripts.js`, `src/js/modern-ui.js`)

Both files define `generateStarRating(rating)`.  A rating is a rational number;
`Math.floor` and the remainder `rating % 1` are exact on the numbers JavaScript
represents.  Each function first computes `fullStars` and `hasHalfStar` and then
builds the markup from these two.
-/

namespace Stars

/-- Markup of a full star. -/
def fullStar : String := "<i class=\"fas fa-star\"></i>"

/-- Markup of a half star. -/
def halfStar : String := "<i class=\"fas fa-star-half-alt\"></i>"

/-- Markup of an empty star. -/
def emptyStar : String := "<i class=\"far fa-star\"></i>"

/-- Expression `rating % 1`: what is left of the rating once its integer part,
rounded towards zero, is taken away. -/
def remainderOne (rating : ℚ) : ℚ :=
  if 0 ≤ rating then rating - (Rat.floor rating : ℚ) else rating + (Rat.floor (-rating) : ℚ)

/-- Statement `for (let i = 0; i < n; i++) { stars += icon; }`. -/
def appendTimes (n : Int) (icon : String) (stars : String) : String :=
  (List.range n.toNat).foldl (fun acc _ => acc ++ icon) stars

namespace Scripts

/-- The loop `for (let i = 0; i < 5; i++)` of `generateStarRating` in
`scripts.js`, given `fullStars` and `hasHalfStar`. -/
def stars (fullStars : Int) (hasHalfStar : Bool) : String :=
  (List.range 5).foldl
    (fun html i =>
      if (i : Int) < fullStars then html ++ fullStar
      else if (i : Int) = fullStars && hasHalfStar then html ++ halfStar
      else html ++ emptyStar)
    ""

/-- Function `generateStarRating` of `scripts.js`. -/
def generateStarRating (rating : ℚ) : String :=
  stars (Rat.floor rating) (decide (remainderOne rating ≠ 0))

end Scripts

namespace ModernUi

/-- The three loops of `generateStarRating` in `modern-ui.js`, given
`fullStars` and `hasHalfStar`. -/
def stars (fullStars : Int) (hasHalfStar : Bool) : String :=
  let emptyStars := 5 - fullStars - (if hasHalfStar then 1 else 0)
  let stars := appendTimes fullStars fullStar ""
  let stars := if hasHalfStar then stars ++ halfStar else stars
  appendTimes emptyStars emptyStar stars

/-- Function `generateStarRating` of `modern-ui.js`. -/
def generateStarRating (rating : ℚ) : String :=
  stars (Rat.floor rating) (decide (remainderOne rating ≠ 0))

end ModernUi

/-- The three kinds of icon. -/
inductive Icon where
  | full
  | half
  | empty
deriving DecidableEq, Repr

/-- Markup of an icon. -/
def Icon.html : Icon → String
  | Icon.full => fullStar
  | Icon.half => halfStar
  | Icon.empty => emptyStar

/-- Five icons: `full` full stars, then a half star if `half`, then empty
stars. -/
def iconsOf (full : Nat) (half : Bool) : List Icon :=
  List.replicate full Icon.full ++ (if half then [Icon.half] else []) ++
    List.replicate (5 - full - (if half then 1 else 0)) Icon.empty

/-- The icons of a rating in the words of the specification: `floor(r)` full
stars, then one half star if `r` is not an integer, then empty stars. -/
def icons (r : ℚ) : List Icon :=
  iconsOf (Rat.floor r).toNat (decide (r ≠ (Rat.floor r : ℚ)))

/-- The markup of a list of icons, one after the other. -/
def markup (l : List Icon) : String :=
  l.foldl (fun acc icon => acc ++ icon.html) ""

end Stars

namespace Orders

/-! ## Lemmas on the statements and the handlers -/

theorem insertOrderItem_ok {fault : Nat → Bool} {now : Nat} {oid pid qty : Option Int}
    {price : Option Money} {c c' : Session} {d : Db} (h : c.txn = some d)
    (hr : insertOrderItem fault now oid pid qty price c = (c', Except.ok ())) :
    ∃ q pr, qty = some q ∧ price = some pr ∧ fault c.log.length = false ∧
      refOk (d.products.map fun p => p.id) pid = true ∧
      c'.txn = some { d with order_items := d.order_items ++
        [{ id := c.order_items_id_seq + 1, order_id := oid, product_id := pid, quantity := q,
           unit_price := pr, created_at := now }] } ∧
      c'.committed = c.committed ∧
      c'.log = c.log ++ [Event.query (Stmt.insert_order_item oid pid qty price)] := by
  unfold insertOrderItem stmt at hr
  cases hf : fault c.log.length with
  | true => simp [hf] at hr
  | false =>
    cases qty with
    | none => simp [hf] at hr
    | some q =>
      cases price with
      | none => simp [hf] at hr
      | some pr =>
        simp only [hf, Session.view, Session.write, h, Bool.false_eq_true, if_false] at hr
        split_ifs at hr with h1 h2
        · simp at hr
        · simp only [Prod.mk.injEq, and_true] at hr
          simp only [Bool.and_eq_true] at h2
          subst hr
          exact ⟨q, pr, rfl, rfl, rfl, h2.2, rfl, rfl, rfl⟩
        · simp at hr

theorem updateStockMinus_run {fault : Nat → Bool} {now : Nat} {qty pid : Option Int}
    {c : Session} {d : Db} (h : c.txn = some d) (hf : fault c.log.length = false) :
    updateStockMinus fault now qty pid c =
      ({ c with
          txn := some { d with
            products := d.products.map fun p =>
              if pid = some p.id then
                { p with stock_quantity := sqlSub p.stock_quantity qty, updated_at := now }
              else p },
          log := c.log ++ [Event.query (Stmt.update_stock_minus qty pid)] }, Except.ok ()) := by
  simp [updateStockMinus, stmt, hf, Session.view, Session.write, h]

theorem updateStockMinus_fault {fault : Nat → Bool} {now : Nat} {qty pid : Option Int}
    {c : Session} (hf : fault c.log.length = true) :
    updateStockMinus fault now qty pid c =
      ({ c with log := c.log ++ [Event.query (Stmt.update_stock_minus qty pid)] },
        Except.error Err.fault) := by
  simp [updateStockMinus, stmt, hf]

theorem updateStockPlus_run {fault : Nat → Bool} {now : Nat} {qty pid : Option Int}
    {c : Session} {d : Db} (h : c.txn = some d) (hf : fault c.log.length = false) :
    updateStockPlus fault now qty pid c =
      ({ c with
          txn := some { d with
            products := d.products.map fun p =>
              if pid = some p.id then
                { p with stock_quantity := sqlAdd p.stock_quantity qty, updated_at := now }
              else p },
          log := c.log ++ [Event.query (Stmt.update_stock_plus qty pid)] }, Except.ok ()) := by
  simp [updateStockPlus, stmt, hf, Session.view, Session.write, h]

theorem updateStockPlus_fault {fault : Nat → Bool} {now : Nat} {qty pid : Option Int}
    {c : Session} (hf : fault c.log.length = true) :
    updateStockPlus fault now qty pid c =
      ({ c with log := c.log ++ [Event.query (Stmt.update_stock_plus qty pid)] },
        Except.error Err.fault) := by
  simp [updateStockPlus, stmt, hf]

/-- Inside a transaction, inserting an order item never touches the committed
tables and leaves the transaction open, whether it succeeds or not. -/
theorem insertOrderItem_txn (fault : Nat → Bool) (now : Nat) (oid pid qty : Option Int)
    (price : Option Money) {c : Session} {d : Db} (h : c.txn = some d) :
    (insertOrderItem fault now oid pid qty price c).1.committed = c.committed ∧
      ∃ d', (insertOrderItem fault now oid pid qty price c).1.txn = some d' := by
  unfold insertOrderItem stmt
  cases fault c.log.length <;> cases qty <;> cases price <;>
    simp only [Session.view, Session.write, h, Bool.false_eq_true, if_false, if_true] <;>
    (try split_ifs) <;> simp

theorem itemEvents_length (order_id : Int) (items : List Item) :
    (itemEvents order_id items).length = 2 * items.length := by
  induction items with
  | nil => rfl
  | cons i rest ih => simp [itemEvents, ih]; omega

theorem sqlSub_sqlSub (x : Option Int) (a b : Int) :
    sqlSub (sqlSub x (some a)) (some b) = sqlSub x (some (a + b)) := by
  cases x with
  | none => rfl
  | some v => simp [sqlSub]; omega

theorem sqlSub_zero (x : Option Int) : sqlSub x (some 0) = x := by
  cases x <;> simp [sqlSub]

theorem map_id_update (ps : List Product) (f : Product → Product)
    (hf : ∀ p, (f p).id = p.id) :
    (ps.map f).map (fun p => p.id) = ps.map (fun p => p.id) := by
  rw [List.map_map]
  apply List.map_congr_left
  intro p _
  exact hf p

theorem orderedQuantity_cons (i : Item) (rest : List Item) (pid : Int) :
    orderedQuantity (i :: rest) pid =
      (if i.product_id = some pid then i.quantity.getD 0 else 0) + orderedQuantity rest pid := by
  simp [orderedQuantity]

theorem createOrderItems_ok {fault : Nat → Bool} {now : Nat} {order : Order} :
    ∀ (items : List Item) {c c' : Session} {d : Db}, c.txn = some d →
      createOrderItems fault now order items c = (c', Except.ok ()) →
      ∃ d' rows, ItemsDone fault now order.id items c c' d d' rows := by
  intro items
  induction items with
  | nil =>
    intro c c' d h hr
    simp only [createOrderItems, Prod.mk.injEq, and_true] at hr
    subst hr
    refine ⟨d, [], ⟨h, rfl, rfl, rfl, rfl, rfl, by simp, rfl, ?_, by simp [itemEvents], ?_,
      by simp⟩⟩
    · apply List.map_congr_left
      intro p _
      simp [orderedQuantity, sqlSub_zero]
    · intro i h1 h2; omega
  | cons it rest ih =>
    intro c c' d h hr
    unfold createOrderItems at hr
    cases hins : insertOrderItem fault now (some order.id) it.product_id it.quantity
        it.unit_price c with
    | mk c1 r1 =>
      rw [hins] at hr
      cases r1 with
      | error e => simp at hr
      | ok u =>
        obtain ⟨q, pr, hq, hpr, hf1, href, htx1, hcm1, hlog1⟩ := insertOrderItem_ok h hins
        have hseq1 : c1.orders_id_seq = c.orders_id_seq := by
          have := hins
          unfold insertOrderItem stmt at this
          simp only [hf1, hq, hpr, Session.view, Session.write, h, Bool.false_eq_true,
            if_false] at this
          split_ifs at this <;> simp only [Prod.mk.injEq, reduceCtorEq, and_false, and_true] at this
          subst this; rfl
        simp only at hr
        cases hf2 : fault c1.log.length with
        | true => rw [updateStockMinus_fault hf2] at hr; simp at hr
        | false =>
          rw [updateStockMinus_run htx1 hf2] at hr
          simp only at hr
          obtain ⟨d', rows, hd⟩ := ih (c := _) (d := _) rfl hr
          refine ⟨d', (⟨c.order_items_id_seq + 1, some order.id, it.product_id, q, pr, now⟩ :
            OrderItem) :: rows, ?_⟩
          constructor
          · exact hd.txn
          · rw [hd.committed]; exact hcm1
          · rw [hd.seq]; exact hseq1
          · rw [hd.users]
          · rw [hd.businesses]
          · rw [hd.orders]
          · rw [hd.order_items]; simp
          · simp [hd.snapshot, hq, hpr]
          · rw [hd.products, List.map_map]
            apply List.map_congr_left
            intro p _
            simp only [Function.comp, orderedQuantity_cons, hq, Option.getD_some]
            by_cases hp : it.product_id = some p.id
            · simp [hp, sqlSub_sqlSub]
            · simp [hp]
          · rw [hd.log]; simp [hlog1, itemEvents]
          · intro i h1 h2
            by_cases hi : i = c.log.length
            · rw [hi]; exact hf1
            · by_cases hi2 : i = c1.log.length
              · rw [hi2]; exact hf2
              · apply hd.faults i _ h2
                simp [hlog1] at hi2 ⊢
                omega
          · intro i hi
            rcases List.mem_cons.1 hi with rfl | hi
            · exact href
            · have := hd.refs i hi
              rwa [map_id_update] at this
              intro p
              split_ifs <;> rfl

theorem begin_run {fault : Nat → Bool} {c : Session} (h : c.txn = none)
    (hf : fault c.log.length = false) :
    begin fault c =
      ({ c with txn := some c.committed, log := c.log ++ [Event.query Stmt.BEGIN] },
        Except.ok ()) := by
  simp [begin, stmt, hf, h]

theorem begin_fault {fault : Nat → Bool} {c : Session} (hf : fault c.log.length = true) :
    begin fault c =
      ({ c with log := c.log ++ [Event.query Stmt.BEGIN] }, Except.error Err.fault) := by
  simp [begin, stmt, hf]

theorem commit_run {fault : Nat → Bool} {c : Session} {d : Db} (h : c.txn = some d)
    (hf : fault c.log.length = false) :
    commit fault c =
      ({ c with committed := d, txn := none, log := c.log ++ [Event.query Stmt.COMMIT] },
        Except.ok ()) := by
  simp [commit, stmt, hf, h]

theorem commit_fault {fault : Nat → Bool} {c : Session} (hf : fault c.log.length = true) :
    commit fault c =
      ({ c with log := c.log ++ [Event.query Stmt.COMMIT] }, Except.error Err.fault) := by
  simp [commit, stmt, hf]

/-- Inside a transaction a stock decrement never touches the committed tables
and leaves the transaction open. -/
theorem updateStockMinus_txn (fault : Nat → Bool) (now : Nat) (qty pid : Option Int)
    {c : Session} {d : Db} (h : c.txn = some d) :
    (updateStockMinus fault now qty pid c).1.committed = c.committed ∧
      ∃ d', (updateStockMinus fault now qty pid c).1.txn = some d' := by
  cases hf : fault c.log.length with
  | true => rw [updateStockMinus_fault hf]; exact ⟨rfl, d, h⟩
  | false => rw [updateStockMinus_run h hf]; exact ⟨rfl, _, rfl⟩

/-- Inside a transaction a stock increment never touches the committed tables
and leaves the transaction open. -/
theorem updateStockPlus_txn (fault : Nat → Bool) (now : Nat) (qty pid : Option Int)
    {c : Session} {d : Db} (h : c.txn = some d) :
    (updateStockPlus fault now qty pid c).1.committed = c.committed ∧
      ∃ d', (updateStockPlus fault now qty pid c).1.txn = some d' := by
  cases hf : fault c.log.length with
  | true => rw [updateStockPlus_fault hf]; exact ⟨rfl, d, h⟩
  | false => rw [updateStockPlus_run h hf]; exact ⟨rfl, _, rfl⟩

/-- The item loop never touches the committed tables, however it ends. -/
theorem createOrderItems_txn (fault : Nat → Bool) (now : Nat) (order : Order) :
    ∀ (items : List Item) {c : Session} {d : Db}, c.txn = some d →
      (createOrderItems fault now order items c).1.committed = c.committed ∧
        ∃ d', (createOrderItems fault now order items c).1.txn = some d' := by
  intro items
  induction items with
  | nil => intro c d h; exact ⟨rfl, d, h⟩
  | cons it rest ih =>
    intro c d h
    unfold createOrderItems
    obtain ⟨h1, d1, h1'⟩ := insertOrderItem_txn fault now (some order.id) it.product_id
      it.quantity it.unit_price h
    cases hins : insertOrderItem fault now (some order.id) it.product_id it.quantity
        it.unit_price c with
    | mk c1 r1 =>
      rw [hins] at h1 h1'
      cases r1 with
      | error e => exact ⟨h1, d1, h1'⟩
      | ok u =>
        simp only at h1 h1' ⊢
        obtain ⟨h2, d2, h2'⟩ := updateStockMinus_txn fault now it.quantity it.product_id h1'
        cases hupd : updateStockMinus fault now it.quantity it.product_id c1 with
        | mk c2 r2 =>
          rw [hupd] at h2 h2'
          cases r2 with
          | error e => exact ⟨h2.trans h1, d2, h2'⟩
          | ok u2 =>
            simp only at h2 h2' ⊢
            obtain ⟨h3, d3, h3'⟩ := ih h2'
            exact ⟨h3.trans (h2.trans h1), d3, h3'⟩

/-- Inside a transaction, inserting an order never touches the committed tables
and leaves the transaction open. -/
theorem insertOrder_txn (fault : Nat → Bool) (now : Nat) (uid bid : Option Int)
    (total : Option Money) (addr instr pay : Option String) {c : Session} {d : Db}
    (h : c.txn = some d) :
    (insertOrder fault now uid bid total addr instr pay c).1.committed = c.committed ∧
      ∃ d', (insertOrder fault now uid bid total addr instr pay c).1.txn = some d' := by
  unfold insertOrder stmt
  cases fault c.log.length <;> cases total <;> cases addr <;>
    simp only [Session.view, Session.write, h, Bool.false_eq_true, if_false, if_true] <;>
    (try split_ifs) <;> simp

theorem insertOrder_ok {fault : Nat → Bool} {now : Nat} {uid bid : Option Int}
    {total : Option Money} {addr instr pay : Option String} {c c' : Session} {d : Db}
    {order : Order} (h : c.txn = some d)
    (hr : insertOrder fault now uid bid total addr instr pay c = (c', Except.ok order)) :
    ∃ t a, total = some t ∧ addr = some a ∧ fault c.log.length = false ∧
      order = ⟨c.orders_id_seq + 1, uid, bid, t, a, instr, pay, "pending", now, now⟩ ∧
      (d.orders.any fun o => o.id == c.orders_id_seq + 1) = false ∧
      refOk d.users uid = true ∧ refOk d.businesses bid = true ∧
      c'.txn = some { d with orders := d.orders ++ [order] } ∧
      c'.committed = c.committed ∧ c'.orders_id_seq = c.orders_id_seq + 1 ∧
      c'.log = c.log ++ [Event.query (Stmt.insert_order uid bid total addr instr pay)] := by
  unfold insertOrder stmt at hr
  cases hf : fault c.log.length with
  | true => simp [hf] at hr
  | false =>
    cases total with
    | none => simp [hf] at hr
    | some t =>
      cases addr with
      | none => simp [hf] at hr
      | some a =>
        simp only [hf, Session.view, Session.write, h, Bool.false_eq_true, if_false] at hr
        split_ifs at hr with h1 h2
        · simp at hr
        · simp only [Prod.mk.injEq, Except.ok.injEq] at hr
          simp only [Bool.and_eq_true] at h2
          obtain ⟨hc, ho⟩ := hr
          subst hc ho
          refine ⟨t, a, rfl, rfl, rfl, rfl, ?_, h2.1, h2.2, rfl, rfl, rfl, rfl⟩
          simpa using h1
        · simp at hr

/-- A call of `createOrder` either commits everything or answers 500 and commits
nothing. -/
theorem createOrder_cases (fault : Nat → Bool) (now : Nat) (body : CreateOrderBody) (s : Store) :
    (∃ items order rows,
        Created fault now body s (createOrder fault now body s) items order rows) ∨
      CreateFailed s (createOrder fault now body s) := by
  unfold createOrder createOrderTry
  have h0 : (connect s).txn = none := rfl
  cases hf0 : fault (connect s).log.length with
  | true => rw [begin_fault hf0]; right; exact ⟨rfl, rfl, rfl⟩
  | false =>
    rw [begin_run h0 hf0]
    simp only
    generalize hc1 : (⟨(connect s).committed, some (connect s).committed,
      (connect s).orders_id_seq, (connect s).order_items_id_seq,
      (connect s).log ++ [Event.query Stmt.BEGIN]⟩ : Session) = c1
    have htx1 : c1.txn = some s.db := by subst hc1; rfl
    have hcm1 : c1.committed = s.db := by subst hc1; rfl
    have hlog1 : c1.log = [Event.query Stmt.BEGIN] := by subst hc1; rfl
    have hseq1 : c1.orders_id_seq = s.orders_id_seq := by subst hc1; rfl
    obtain ⟨hi1, di, hi2⟩ := insertOrder_txn fault now body.user_id body.business_id
      body.total_amount body.delivery_address body.delivery_instructions body.payment_method htx1
    cases hins : insertOrder fault now body.user_id body.business_id body.total_amount
        body.delivery_address body.delivery_instructions body.payment_method c1 with
    | mk c2 r2 =>
      rw [hins] at hi1 hi2
      cases r2 with
      | error e => right; exact ⟨rfl, hi1.trans hcm1, rfl⟩
      | ok order =>
        simp only at hi1 hi2 ⊢
        obtain ⟨t, a, ht, ha, hf1, hrow, hfresh, hu, hb, htx2, hcm2, hseq2, hlog2⟩ :=
          insertOrder_ok htx1 hins
        cases hitems : body.items with
        | none => right; exact ⟨rfl, hi1.trans hcm1, rfl⟩
        | some items =>
          simp only
          obtain ⟨hl1, dl, hl2⟩ := createOrderItems_txn fault now order items htx2
          cases hloop : createOrderItems fault now order items c2 with
          | mk c3 r3 =>
            rw [hloop] at hl1 hl2
            cases r3 with
            | error e => right; exact ⟨rfl, hl1.trans (hi1.trans hcm1), rfl⟩
            | ok u =>
              simp only at hl1 hl2 ⊢
              obtain ⟨d3, rows, hd⟩ := createOrderItems_ok items htx2 hloop
              cases hf3 : fault c3.log.length with
              | true =>
                rw [commit_fault hf3]; right; exact ⟨rfl, hl1.trans (hi1.trans hcm1), rfl⟩
              | false =>
                rw [commit_run hd.txn hf3]
                left
                have hlen : c3.log.length = 2 * items.length + 2 := by
                  rw [hd.log, hlog2, hlog1]
                  simp [itemEvents_length]
                refine ⟨items, order, rows, ?_⟩
                have hoid : order.id = s.orders_id_seq + 1 := by rw [hrow, hseq1]
                constructor
                · exact hitems
                · rw [ht, hrow]
                · rw [ha, hrow]
                · rw [hrow, hseq1]
                · rfl
                · exact hd.users
                · exact hd.businesses
                · simp only [finish, release]; rw [hd.orders]
                · rw [hoid, ← hseq1]; exact hfresh
                · simp only [finish, release]; rw [hd.order_items]
                · exact hd.snapshot
                · exact hd.products
                · rfl
                · simp only [finish, release]
                  rw [hd.log, hlog2, hlog1]; simp
                · intro i hi
                  by_cases h0' : i = 0
                  · rw [h0']; exact hf0
                  · by_cases h1' : i = 1
                    · rw [h1']; rw [hlog1] at hf1; exact hf1
                    · by_cases h2' : i = c3.log.length
                      · rw [h2']; exact hf3
                      · apply hd.faults i
                        · rw [hlog2, hlog1]; simp; omega
                        · omega
                · exact hd.refs

theorem restoreEvents_length (rows : List (Option Int × Int)) :
    (restoreEvents rows).length = rows.length := by
  induction rows with
  | nil => rfl
  | cons r rest ih => simp [restoreEvents, ih]

theorem sqlAdd_zero (x : Option Int) : sqlAdd x (some 0) = x := by
  cases x <;> simp [sqlAdd]

theorem sqlAdd_sqlAdd (x : Option Int) (a b : Int) :
    sqlAdd (sqlAdd x (some a)) (some b) = sqlAdd x (some (a + b)) := by
  cases x with
  | none => rfl
  | some v => simp [sqlAdd]; omega

theorem sqlAdd_sqlSub (x : Option Int) (a : Int) :
    sqlAdd (sqlSub x (some a)) (some a) = x := by
  cases x with
  | none => rfl
  | some v => simp [sqlAdd, sqlSub]

theorem restoredQuantity_cons (r : Option Int × Int) (rest : List (Option Int × Int))
    (pid : Int) :
    restoredQuantity (r :: rest) pid =
      (if r.1 = some pid then r.2 else 0) + restoredQuantity rest pid := by
  simp [restoredQuantity]

theorem itemsQuantity_eq (rows : List OrderItem) (oid pid : Int) :
    itemsQuantity rows oid pid =
      restoredQuantity ((rows.filter fun i => i.order_id = some oid).map
        fun i => (i.product_id, i.quantity)) pid := by
  simp only [itemsQuantity, restoredQuantity, List.map_map]
  rfl

theorem restoreStock_ok {fault : Nat → Bool} {now : Nat} :
    ∀ (rows : List (Option Int × Int)) {c c' : Session} {d : Db}, c.txn = some d →
      restoreStock fault now rows c = (c', Except.ok ()) →
      ∃ d', RestoreDone fault rows c c' d d' := by
  intro rows
  induction rows with
  | nil =>
    intro c c' d h hr
    simp only [restoreStock, Prod.mk.injEq, and_true] at hr
    subst hr
    refine ⟨d, ⟨h, rfl, rfl, rfl, rfl, rfl, ?_, by simp [restoreEvents], ?_⟩⟩
    · apply List.map_congr_left
      intro p _
      simp [restoredQuantity, sqlAdd_zero]
    · intro i h1 h2; omega
  | cons r rest ih =>
    intro c c' d h hr
    unfold restoreStock at hr
    cases hf : fault c.log.length with
    | true => rw [updateStockPlus_fault hf] at hr; simp at hr
    | false =>
      rw [updateStockPlus_run h hf] at hr
      simp only at hr
      obtain ⟨d', hd⟩ := ih (c := _) (d := _) rfl hr
      refine ⟨d', ?_⟩
      constructor
      · exact hd.txn
      · rw [hd.committed]
      · rw [hd.users]
      · rw [hd.businesses]
      · rw [hd.orders]
      · rw [hd.order_items]
      · rw [hd.products, List.map_map]
        apply List.map_congr_left
        intro p _
        simp only [Function.comp, restoredQuantity_cons]
        by_cases hp : r.1 = some p.id
        · simp [hp, sqlAdd_sqlAdd]
        · simp [hp]
      · rw [hd.log]; simp [restoreEvents]
      · intro i h1 h2
        by_cases hi : i = c.log.length
        · rw [hi]; exact hf
        · apply hd.faults i _ h2
          simp
          omega

/-- The restore loop never touches the committed tables, however it ends. -/
theorem restoreStock_txn (fault : Nat → Bool) (now : Nat) :
    ∀ (rows : List (Option Int × Int)) {c : Session} {d : Db}, c.txn = some d →
      (restoreStock fault now rows c).1.committed = c.committed ∧
        ∃ d', (restoreStock fault now rows c).1.txn = some d' := by
  intro rows
  induction rows with
  | nil => intro c d h; exact ⟨rfl, d, h⟩
  | cons r rest ih =>
    intro c d h
    unfold restoreStock
    obtain ⟨h1, d1, h1'⟩ := updateStockPlus_txn fault now (some r.2) r.1 h
    cases hupd : updateStockPlus fault now (some r.2) r.1 c with
    | mk c1 r1 =>
      rw [hupd] at h1 h1'
      cases r1 with
      | error e => exact ⟨h1, d1, h1'⟩
      | ok u =>
        simp only at h1 h1' ⊢
        obtain ⟨h2, d2, h2'⟩ := ih h1'
        exact ⟨h2.trans h1, d2, h2'⟩

/-- When the store raises no error the restore loop runs to its end. -/
theorem restoreStock_total {fault : Nat → Bool} {now : Nat} :
    ∀ (rows : List (Option Int × Int)) {c : Session} {d : Db}, c.txn = some d →
      (∀ i, c.log.length ≤ i → i < c.log.length + rows.length → fault i = false) →
      ∃ c', restoreStock fault now rows c = (c', Except.ok ()) := by
  intro rows
  induction rows with
  | nil => intro c d _ _; exact ⟨c, rfl⟩
  | cons r rest ih =>
    intro c d h hfa
    unfold restoreStock
    have hf : fault c.log.length = false := hfa _ (le_refl _) (by simp)
    rw [updateStockPlus_run h hf]
    simp only
    apply ih (c := _) (d := _) rfl
    intro i h1 h2
    apply hfa i
    · simp at h1; omega
    · simp at h2 ⊢; omega

theorem selectOrderItems_run {fault : Nat → Bool} {id : Int} {c : Session} {d : Db}
    (h : c.txn = some d) (hf : fault c.log.length = false) :
    selectOrderItems fault id c =
      ({ c with log := c.log ++ [Event.query (Stmt.select_order_items id)] },
        Except.ok ((d.order_items.filter fun i => i.order_id = some id).map
          fun i => (i.product_id, i.quantity))) := by
  simp [selectOrderItems, stmt, hf, Session.view, h]

theorem selectOrderItems_fault {fault : Nat → Bool} {id : Int} {c : Session}
    (hf : fault c.log.length = true) :
    selectOrderItems fault id c =
      ({ c with log := c.log ++ [Event.query (Stmt.select_order_items id)] },
        Except.error Err.fault) := by
  simp [selectOrderItems, stmt, hf]

theorem updateOrderCancelled_run {fault : Nat → Bool} {now : Nat} {id : Int} {c : Session}
    {d : Db} (h : c.txn = some d) (hf : fault c.log.length = false) :
    updateOrderCancelled fault now id c =
      ({ c with
          txn := some { d with orders := d.orders.map (cancelRow now id) },
          log := c.log ++ [Event.query (Stmt.update_order_cancelled id)] },
        Except.ok ((d.orders.filter fun o => o.id = id).map (cancelRow now id))) := by
  simp [updateOrderCancelled, stmt, hf, Session.view, Session.write, h, cancelRow]

theorem updateOrderCancelled_fault {fault : Nat → Bool} {now : Nat} {id : Int} {c : Session}
    (hf : fault c.log.length = true) :
    updateOrderCancelled fault now id c =
      ({ c with log := c.log ++ [Event.query (Stmt.update_order_cancelled id)] },
        Except.error Err.fault) := by
  simp [updateOrderCancelled, stmt, hf]

/-- A call of `cancelOrder` ends in exactly one of three ways. -/
theorem cancelOrder_cases (fault : Nat → Bool) (now : Nat) (id : Int) (s : Store) :
    (∃ o, Cancelled fault now id s (cancelOrder fault now id s) o) ∨
      CancelNotFound id s (cancelOrder fault now id s) ∨
      CancelFailed fault s (cancelOrder fault now id s) := by
  unfold cancelOrder cancelOrderTry
  have h0 : (connect s).txn = none := rfl
  cases hf0 : fault (connect s).log.length with
  | true => rw [begin_fault hf0]; right; right; exact ⟨rfl, rfl, rfl, _, hf0⟩
  | false =>
    rw [begin_run h0 hf0]
    simp only
    generalize hc1 : (⟨(connect s).committed, some (connect s).committed,
      (connect s).orders_id_seq, (connect s).order_items_id_seq,
      (connect s).log ++ [Event.query Stmt.BEGIN]⟩ : Session) = c1
    have htx1 : c1.txn = some s.db := by subst hc1; rfl
    have hcm1 : c1.committed = s.db := by subst hc1; rfl
    have hlog1 : c1.log = [Event.query Stmt.BEGIN] := by subst hc1; rfl
    cases hf1 : fault c1.log.length with
    | true => rw [selectOrderItems_fault hf1]; right; right; exact ⟨rfl, hcm1, rfl, _, hf1⟩
    | false =>
      rw [selectOrderItems_run htx1 hf1]
      simp only
      generalize hsel : ((s.db.order_items.filter fun i => i.order_id = some id).map
        fun i => (i.product_id, i.quantity)) = sel
      generalize hc2 : (⟨c1.committed, c1.txn, c1.orders_id_seq, c1.order_items_id_seq,
        c1.log ++ [Event.query (Stmt.select_order_items id)]⟩ : Session) = c2
      have htx2 : c2.txn = some s.db := by subst hc2; exact htx1
      have hcm2 : c2.committed = s.db := by subst hc2; exact hcm1
      have hlog2 : c2.log = [Event.query Stmt.BEGIN, Event.query (Stmt.select_order_items id)] := by
        subst hc2; simp [hlog1]
      obtain ⟨hl1, dl, hl2⟩ := restoreStock_txn fault now sel htx2
      cases hloop : restoreStock fault now sel c2 with
      | mk c3 r3 =>
        rw [hloop] at hl1 hl2
        cases r3 with
        | error e =>
          right; right
          refine ⟨rfl, hl1.trans hcm2, rfl, ?_⟩
          by_contra hno
          obtain ⟨c', hc'⟩ := @restoreStock_total fault now sel c2 s.db htx2
            (fun i _ _ => by
              cases hfi : fault i with
              | true => exact absurd ⟨i, hfi⟩ hno
              | false => rfl)
          rw [hloop] at hc'
          simp at hc'
        | ok u =>
          simp only at hl1 hl2 ⊢
          obtain ⟨d3, hd⟩ := restoreStock_ok sel htx2 hloop
          cases hf3 : fault c3.log.length with
          | true =>
            rw [updateOrderCancelled_fault hf3]; right; right
            exact ⟨rfl, hl1.trans hcm2, rfl, _, hf3⟩
          | false =>
            rw [updateOrderCancelled_run hd.txn hf3]
            have hprod : d3.products.map (fun p => (p.id, p.stock_quantity)) =
                s.db.products.map (fun p => (p.id, sqlAdd p.stock_quantity
                  (some (itemsQuantity s.db.order_items id p.id)))) := by
              rw [hd.products]
              apply List.map_congr_left
              intro p _
              rw [itemsQuantity_eq, hsel]
            cases hrows : (d3.orders.filter fun o => o.id = id) with
            | nil =>
              right; left
              simp only [List.map_nil]
              rw [hd.orders] at hrows
              refine ⟨hrows, rfl, hl1.trans hcm2, ⟨_, rfl, hprod⟩, ?_⟩
              simp only [finish, release]
              rw [hd.log, hlog2, ← hsel]; simp
            | cons o rest =>
              simp only [List.map_cons]
              cases hf4 : fault (c3.log ++ [Event.query (Stmt.update_order_cancelled id)]).length with
              | true =>
                rw [commit_fault hf4]; right; right
                exact ⟨rfl, hl1.trans hcm2, rfl, _, hf4⟩
              | false =>
                rw [commit_run rfl hf4]
                left
                rw [hd.orders] at hrows
                refine ⟨o, ⟨rest, hrows⟩, rfl, hd.users, hd.businesses, ?_, hd.order_items,
                  hprod, rfl, ?_⟩
                · simp only [finish, release]; rw [hd.orders]
                · simp only [finish, release]
                  rw [hd.log, hlog2, ← hsel]; simp

/-- With no store error, cancelling an order that exists answers 200. -/
theorem cancelOrder_found (now : Nat) (id : Int) (s : Store) (o : Order)
    (h : o ∈ s.db.orders) (hid : o.id = id) :
    (cancelOrder noFault now id s).response.status = 200 := by
  rcases cancelOrder_cases noFault now id s with ⟨o', hc⟩ | hn | hf
  · rw [hc.response]
  · have : o ∈ s.db.orders.filter fun x => x.id = id := by
      simp [List.mem_filter, h, hid]
    rw [hn.absent] at this
    simp at this
  · obtain ⟨_, _, _, i, hi⟩ := hf
    simp [noFault] at hi

/-- A `201` answer comes with everything `Created` lists. -/
theorem createOrder_created {fault : Nat → Bool} {now : Nat} {body : CreateOrderBody}
    {s : Store} (h : (createOrder fault now body s).response.status = 201) :
    ∃ items order rows, Created fault now body s (createOrder fault now body s) items order rows := by
  rcases createOrder_cases fault now body s with hc | hf
  · exact hc
  · rw [hf.1] at h
    simp at h

/-- Any other answer is the 500 of a call that committed nothing. -/
theorem createOrder_failed {fault : Nat → Bool} {now : Nat} {body : CreateOrderBody}
    {s : Store} (h : (createOrder fault now body s).response.status ≠ 201) :
    CreateFailed s (createOrder fault now body s) := by
  rcases createOrder_cases fault now body s with ⟨items, order, rows, hc⟩ | hf
  · rw [hc.response] at h
    simp at h
  · exact hf

theorem snapshot_present {oid : Int} {rows : List OrderItem} {items : List Item}
    (h : rows.map (fun r => (r.order_id, r.product_id, some r.quantity, some r.unit_price)) =
      items.map (fun i => (some oid, i.product_id, i.quantity, i.unit_price))) :
    ∀ i ∈ items, i.quantity ≠ none ∧ i.unit_price ≠ none := by
  intro i hi
  have hm : (some oid, i.product_id, i.quantity, i.unit_price) ∈
      items.map (fun i => (some oid, i.product_id, i.quantity, i.unit_price)) :=
    List.mem_map.2 ⟨i, hi, rfl⟩
  rw [← h] at hm
  obtain ⟨r, _, hr⟩ := List.mem_map.1 hm
  simp only [Prod.mk.injEq] at hr
  obtain ⟨_, _, hq, hp⟩ := hr
  rw [← hq, ← hp]
  simp

theorem filter_primary_key {orders : List Order} {o : Order}
    (hpk : (orders.map fun x => x.id).Nodup) (ho : o ∈ orders) :
    (orders.filter fun x => x.id = o.id) = [o] := by
  induction orders with
  | nil => simp at ho
  | cons x rest ih =>
    simp only [List.map_cons, List.nodup_cons, List.mem_map, not_exists, not_and] at hpk
    rcases List.mem_cons.1 ho with rfl | hmem
    · have hrest : (rest.filter fun x => decide (x.id = o.id)) = [] := by
        rw [List.filter_eq_nil_iff]
        intro y hy
        have := hpk.1 y hy
        simpa using this
      simp [List.filter_cons, hrest]
    · have hne : x.id ≠ o.id := fun he => hpk.1 o hmem he.symm
      simp [List.filter_cons, hne, ih hpk.2 hmem]

theorem itemsQuantity_append (l1 l2 : List OrderItem) (oid pid : Int) :
    itemsQuantity (l1 ++ l2) oid pid = itemsQuantity l1 oid pid + itemsQuantity l2 oid pid := by
  simp [itemsQuantity, List.filter_append]

/-- Order items that all reference existing orders hold nothing for an order id
that no order has. -/
theorem itemsQuantity_fresh {orders : List Order} {rows : List OrderItem} {oid : Int}
    (hfk : ∀ i ∈ rows, refOk (orders.map fun o => o.id) i.order_id = true)
    (hfresh : (orders.any fun o => o.id == oid) = false) (pid : Int) :
    itemsQuantity rows oid pid = 0 := by
  have hnil : (rows.filter fun i => i.order_id = some oid) = [] := by
    rw [List.filter_eq_nil_iff]
    intro i hi
    have h1 := hfk i hi
    intro h2
    simp only [decide_eq_true_eq] at h2
    rw [h2] at h1
    simp only [refOk, List.contains, List.elem_eq_mem, decide_eq_true_eq, List.mem_map] at h1
    obtain ⟨o, ho, hoe⟩ := h1
    have : (orders.any fun o => o.id == oid) = true := by
      rw [List.any_eq_true]
      exact ⟨o, ho, by simp [hoe]⟩
    rw [hfresh] at this
    simp at this
  simp [itemsQuantity, hnil]

theorem itemsQuantity_snapshot {oid : Int} :
    ∀ {rows : List OrderItem} {items : List Item},
      rows.map (fun r => (r.order_id, r.product_id, some r.quantity, some r.unit_price)) =
        items.map (fun i => (some oid, i.product_id, i.quantity, i.unit_price)) →
      ∀ pid, itemsQuantity rows oid pid = orderedQuantity items pid := by
  intro rows
  induction rows with
  | nil =>
    intro items h pid
    cases items with
    | nil => rfl
    | cons i rest => simp at h
  | cons r rs ih =>
    intro items h pid
    cases items with
    | nil => simp at h
    | cons i rest =>
      simp only [List.map_cons, List.cons.injEq, Prod.mk.injEq] at h
      obtain ⟨⟨ho, hp, hq, _⟩, hrest⟩ := h
      have := ih hrest pid
      rw [orderedQuantity_cons, ← this, ← hq, ← hp]
      simp [itemsQuantity, List.filter_cons, ho]

theorem stockNonneg_iff (d : Db) :
    stockNonneg d = true ↔
      ∀ r ∈ d.products.map (fun p => (p.id, p.stock_quantity)), ∀ q, r.2 = some q → 0 ≤ q := by
  simp only [stockNonneg, List.all_eq_true, List.mem_map]
  constructor
  · rintro h r ⟨p, hp, rfl⟩ q hq
    have := h p hp
    simp only at hq
    rw [hq] at this
    simpa using this
  · intro h p hp
    cases hq : p.stock_quantity with
    | none => rfl
    | some q => simpa using h (p.id, p.stock_quantity) ⟨p, hp, rfl⟩ q hq

theorem includes_validStatuses (status : Option String) :
    includes validStatuses status = true ↔
      ∃ v ∈ ["pending", "confirmed", "preparing", "ready", "delivered", "cancelled"],
        status = some v := by
  cases status with
  | none => simp [includes]
  | some x =>
    simp only [includes, validStatuses, List.contains, List.elem_eq_mem, decide_eq_true_eq,
      Option.some.injEq]
    constructor
    · intro h; exact ⟨x, h, rfl⟩
    · rintro ⟨v, hv, rfl⟩; exact hv

/-! ## The claims -/

/-- C1: after a `createOrder` call answered 201 for the item list `items`, the
product rows are the rows of before, in the same positions and with the same
ids, and the `stock_quantity` of each is its previous value minus the sum of
the quantities of the elements of `items` that reference the product: several
items on one product add up, a product no item references keeps its value
(the sum is 0), and a `NULL` stock stays `NULL`. -/
theorem createOrder_stock (fault : Nat → Bool) (now : Nat) (body : CreateOrderBody) (s : Store)
    (h : (createOrder fault now body s).response.status = 201) :
    ∃ items, body.items = some items ∧ (∀ i ∈ items, i.quantity ≠ none) ∧
      (createOrder fault now body s).store.db.products.map (fun p => (p.id, p.stock_quantity)) =
        s.db.products.map
          (fun p => (p.id, sqlSub p.stock_quantity (some (orderedQuantity items p.id)))) := by
  obtain ⟨items, order, rows, hc⟩ := createOrder_created h
  exact ⟨items, hc.accepted, fun i hi => (snapshot_present hc.snapshot i hi).1, hc.products⟩

/-- Witness of C1: the three-item request on the demo store, where product 7
goes from 5 to 2 and product 8 from 4 to 3. -/
theorem createOrder_stock_witness :
    (createOrder noFault 10 demoBodyThree demoStore).response.status = 201 ∧
      ∃ items, demoBodyThree.items = some items ∧ (∀ i ∈ items, i.quantity ≠ none) ∧
        (createOrder noFault 10 demoBodyThree demoStore).store.db.products.map
            (fun p => (p.id, p.stock_quantity)) =
          demoStore.db.products.map
            (fun p => (p.id, sqlSub p.stock_quantity (some (orderedQuantity items p.id)))) :=
  ⟨by decide, createOrder_stock noFault 10 demoBodyThree demoStore (by decide)⟩

/-- C2: `createOrder` is all-or-nothing.  Whenever the call is not answered 201,
the committed tables are those of before the call, no transaction is left open
and the answer is the 500 creation failure.  And the call is not answered 201 as
soon as a statement of item `N` fails: the store raises an error for its
`order_items` insert (statement `2 * N` of the connection) or for its stock update
(statement `2 * N + 1`), or the insert violates a constraint (no quantity, no
unit price, unknown product). -/
theorem createOrder_all_or_nothing (fault : Nat → Bool) (now : Nat) (body : CreateOrderBody)
    (s : Store) :
    ((createOrder fault now body s).response.status ≠ 201 →
      (createOrder fault now body s).store.db = s.db ∧
      (createOrder fault now body s).open_txn = none ∧
      (createOrder fault now body s).response = ⟨500, Body.error "Error creating order"⟩) ∧
    (∀ items N, body.items = some items → 1 ≤ N → N ≤ items.length →
      (fault (2 * N) = true ∨ fault (2 * N + 1) = true) →
      (createOrder fault now body s).response.status ≠ 201) ∧
    (∀ items, body.items = some items → ∀ i ∈ items,
      (i.quantity = none ∨ i.unit_price = none ∨
        refOk (s.db.products.map fun p => p.id) i.product_id = false) →
      (createOrder fault now body s).response.status ≠ 201) := by
  refine ⟨fun h => ?_, ?_, ?_⟩
  · obtain ⟨h1, h2, h3⟩ := createOrder_failed h
    exact ⟨h2, h3, h1⟩
  · intro items N hitems h1 h2 hf hs
    obtain ⟨items', order, rows, hc⟩ := createOrder_created hs
    have he : items' = items := by
      have := hc.accepted
      rw [hitems] at this
      exact (Option.some.inj this).symm
    subst he
    rcases hf with hf | hf
    · rw [hc.faults (2 * N) (by omega)] at hf
      simp at hf
    · rw [hc.faults (2 * N + 1) (by omega)] at hf
      simp at hf
  · intro items hitems i hi hbad hs
    obtain ⟨items', order, rows, hc⟩ := createOrder_created hs
    have he : items' = items := by
      have := hc.accepted
      rw [hitems] at this
      exact (Option.some.inj this).symm
    subst he
    rcases hbad with hq | hp | hr
    · exact (snapshot_present hc.snapshot i hi).1 hq
    · exact (snapshot_present hc.snapshot i hi).2 hp
    · rw [hc.refs i hi] at hr
      simp at hr

/-- Witness of C2: the stock update of the second of three items fails; the
order row, the two order item rows and the stock change of the first item are
gone and the answer is 500. -/
theorem createOrder_all_or_nothing_witness :
    (createOrder faultAtFive 10 demoBodyThree demoStore).response.status ≠ 201 ∧
      (createOrder faultAtFive 10 demoBodyThree demoStore).store.db = demoStore.db ∧
      (createOrder faultAtFive 10 demoBodyThree demoStore).open_txn = none ∧
      (createOrder faultAtFive 10 demoBodyThree demoStore).response =
        ⟨500, Body.error "Error creating order"⟩ :=
  ⟨(createOrder_all_or_nothing faultAtFive 10 demoBodyThree demoStore).2.1 _ 2 rfl
      (by decide) (by decide) (Or.inr rfl),
    (createOrder_all_or_nothing faultAtFive 10 demoBodyThree demoStore).1
      ((createOrder_all_or_nothing faultAtFive 10 demoBodyThree demoStore).2.1 _ 2 rfl
        (by decide) (by decide) (Or.inr rfl))⟩

/-- C3: a `cancelOrder` call answered 200 for an existing order `o` (order ids
being unique, as the primary key makes them) returns `o` with status
`cancelled`, sets that status on `o` in the table, and leaves each product with
its previous `stock_quantity` plus the sum of the quantities of the order items
of `o` that reference the product. -/
theorem cancelOrder_restores (fault : Nat → Bool) (now : Nat) (s : Store) (o : Order)
    (ho : o ∈ s.db.orders) (hpk : (s.db.orders.map fun x => x.id).Nodup)
    (h : (cancelOrder fault now o.id s).response.status = 200) :
    (cancelOrder fault now o.id s).response.body =
        Body.message_order "Order cancelled successfully"
          { o with status := "cancelled", updated_at := now } ∧
      (cancelOrder fault now o.id s).store.db.orders =
        s.db.orders.map (fun x =>
          if x.id = o.id then { x with status := "cancelled", updated_at := now } else x) ∧
      (cancelOrder fault now o.id s).store.db.products.map (fun p => (p.id, p.stock_quantity)) =
        s.db.products.map (fun p =>
          (p.id, sqlAdd p.stock_quantity (some (itemsQuantity s.db.order_items o.id p.id)))) := by
  rcases cancelOrder_cases fault now o.id s with ⟨o', hc⟩ | hn | hf
  · obtain ⟨rest, hfound⟩ := hc.found
    rw [filter_primary_key hpk ho] at hfound
    simp only [List.cons.injEq] at hfound
    obtain ⟨ho', -⟩ := hfound
    subst ho'
    refine ⟨?_, hc.orders, hc.products⟩
    rw [hc.response]
    simp [cancelRow]
  · rw [hn.response] at h
    simp at h
  · rw [hf.1] at h
    simp at h

/-- Witness of C3: cancelling the order of the scenario right after it was
created; product 7 goes from 2 back to 5. -/
theorem cancelOrder_restores_witness :
    demoOrder ∈ (createOrder noFault 10 demoBody demoStore).store.db.orders ∧
      (cancelOrder noFault 20 demoOrder.id
        (createOrder noFault 10 demoBody demoStore).store).response.status = 200 ∧
      (cancelOrder noFault 20 demoOrder.id
          (createOrder noFault 10 demoBody demoStore).store).store.db.products.map
        (fun p => (p.id, p.stock_quantity)) =
      (createOrder noFault 10 demoBody demoStore).store.db.products.map (fun p =>
        (p.id, sqlAdd p.stock_quantity (some (itemsQuantity
          (createOrder noFault 10 demoBody demoStore).store.db.order_items demoOrder.id p.id)))) :=
  ⟨by decide, by decide,
    (cancelOrder_restores noFault 20 (createOrder noFault 10 demoBody demoStore).store demoOrder
      (by decide) (by decide) (by decide)).2.2⟩

/-- C4: create-then-cancel is a round trip on stock.  In a store whose order
items reference existing orders (the foreign key of `order_items.order_id`),
when `createOrder` answers 201 with an order, that order has status `pending`;
cancelling it succeeds when the store raises no error; and every `cancelOrder`
of it that is answered 200 returns it with status `cancelled` and leaves every
product with the `stock_quantity` it had before the `createOrder`. -/
theorem create_then_cancel (fault₁ fault₂ : Nat → Bool) (now₁ now₂ : Nat)
    (body : CreateOrderBody) (s : Store) (msg : String) (order : Order)
    (hfk : ∀ i ∈ s.db.order_items, refOk (s.db.orders.map fun o => o.id) i.order_id = true)
    (h : (createOrder fault₁ now₁ body s).response = ⟨201, Body.message_order msg order⟩) :
    order.status = "pending" ∧
      (cancelOrder noFault now₂ order.id
        (createOrder fault₁ now₁ body s).store).response.status = 200 ∧
      ((cancelOrder fault₂ now₂ order.id
          (createOrder fault₁ now₁ body s).store).response.status = 200 →
        (cancelOrder fault₂ now₂ order.id (createOrder fault₁ now₁ body s).store).response.body =
            Body.message_order "Order cancelled successfully"
              { order with status := "cancelled", updated_at := now₂ } ∧
          (cancelOrder fault₂ now₂ order.id
              (createOrder fault₁ now₁ body s).store).store.db.products.map
            (fun p => (p.id, p.stock_quantity)) =
          s.db.products.map (fun p => (p.id, p.stock_quantity))) := by
  have hs : (createOrder fault₁ now₁ body s).response.status = 201 := by rw [h]
  obtain ⟨items, order', rows, hc⟩ := createOrder_created hs
  have he : order' = order := by
    have := hc.response
    rw [h] at this
    simp only [Response.mk.injEq, Body.message_order.injEq, true_and] at this
    exact this.2.symm
  subst he
  have hmem : order' ∈ (createOrder fault₁ now₁ body s).store.db.orders := by
    rw [hc.orders]; simp
  have hfresh : (s.db.orders.filter fun x => x.id = order'.id) = [] := by
    rw [List.filter_eq_nil_iff]
    intro x hx hxe
    have := hc.fresh
    rw [List.any_eq_false] at this
    exact this x hx (by simpa using hxe)
  refine ⟨?_, cancelOrder_found now₂ order'.id _ order' hmem rfl, fun h2 => ?_⟩
  · rw [hc.row]
  · rcases cancelOrder_cases fault₂ now₂ order'.id (createOrder fault₁ now₁ body s).store with
      ⟨o, hk⟩ | hn | hf
    · obtain ⟨rest, hfound⟩ := hk.found
      rw [hc.orders, List.filter_append, hfresh] at hfound
      simp only [List.nil_append, List.filter_cons, decide_True, if_true, List.filter_nil,
        List.cons.injEq] at hfound
      obtain ⟨ho, -⟩ := hfound
      subst ho
      constructor
      · rw [hk.response]
        simp [cancelRow]
      · rw [hk.products]
        have hq : ∀ pid, itemsQuantity (createOrder fault₁ now₁ body s).store.db.order_items
            order'.id pid = orderedQuantity items pid := by
          intro pid
          rw [hc.order_items, itemsQuantity_append, itemsQuantity_fresh hfk hc.fresh,
            itemsQuantity_snapshot hc.snapshot]
          simp
        have hcomp : (createOrder fault₁ now₁ body s).store.db.products.map
            (fun p => (p.id, sqlAdd p.stock_quantity (some (itemsQuantity
              (createOrder fault₁ now₁ body s).store.db.order_items order'.id p.id)))) =
            ((createOrder fault₁ now₁ body s).store.db.products.map
              (fun p => (p.id, p.stock_quantity))).map
              (fun r => (r.1, sqlAdd r.2 (some (orderedQuantity items r.1)))) := by
          rw [List.map_map]
          apply List.map_congr_left
          intro p _
          simp [hq]
        rw [hcomp, hc.products, List.map_map]
        apply List.map_congr_left
        intro p _
        simp [sqlAdd_sqlSub]
    · rw [hn.response] at h2
      simp at h2
    · rw [hf.1] at h2
      simp at h2

/-- Witness of C4: the scenario of the specification, stock 5 and quantity 3. -/
theorem create_then_cancel_witness :
    (createOrder noFault 10 demoBody demoStore).store.db.products.map
        (fun p => (p.id, p.stock_quantity)) = [(7, some 2), (8, some 4)] ∧
      demoOrder.status = "pending" ∧
      (cancelOrder noFault 20 demoOrder.id
        (createOrder noFault 10 demoBody demoStore).store).response.status = 200 ∧
      ((cancelOrder noFault 20 demoOrder.id
          (createOrder noFault 10 demoBody demoStore).store).response.status = 200 →
        (cancelOrder noFault 20 demoOrder.id
            (createOrder noFault 10 demoBody demoStore).store).response.body =
            Body.message_order "Order cancelled successfully"
              { demoOrder with status := "cancelled", updated_at := 20 } ∧
          (cancelOrder noFault 20 demoOrder.id
              (createOrder noFault 10 demoBody demoStore).store).store.db.products.map
            (fun p => (p.id, p.stock_quantity)) =
          demoStore.db.products.map (fun p => (p.id, p.stock_quantity))) :=
  ⟨by decide,
    create_then_cancel noFault noFault 10 20 demoBody demoStore "Order created successfully"
      demoOrder (by decide) (by decide)⟩

/-- Counterexample to C5: the store of the scenario after its order was created
and cancelled holds that order with status `cancelled` and product 7 with stock
5; cancelling the order again is answered 200 and raises the stock to 8. -/
theorem cancelOrder_twice_restocks :
    (cancelOrder noFault 20 1 (createOrder noFault 10 demoBody demoStore).store).store =
        demoCancelledStore ∧
      demoCancelledStore.db.orders.map (fun o => (o.id, o.status)) = [(1, "cancelled")] ∧
      demoCancelledStore.db.products.map (fun p => (p.id, p.stock_quantity)) =
        [(7, some 5), (8, some 4)] ∧
      (cancelOrder noFault 30 1 demoCancelledStore).response.status = 200 ∧
      (cancelOrder noFault 30 1 demoCancelledStore).store.db.products.map
        (fun p => (p.id, p.stock_quantity)) = [(7, some 8), (8, some 4)] := by
  decide

/-- C5, amended: on a store where the orders with the given id already have
status `cancelled`, `cancelOrder` leaves the status of every order unchanged;
when it answers 200 it adds the quantities of the order items of that order to
the stock of their products once more, and otherwise it commits nothing. -/
theorem cancelOrder_cancelled (fault : Nat → Bool) (now : Nat) (id : Int) (s : Store)
    (hc : ∀ o ∈ s.db.orders, o.id = id → o.status = "cancelled") :
    (cancelOrder fault now id s).store.db.orders.map (fun o => (o.id, o.status)) =
        s.db.orders.map (fun o => (o.id, o.status)) ∧
      ((cancelOrder fault now id s).response.status = 200 →
        (cancelOrder fault now id s).store.db.products.map (fun p => (p.id, p.stock_quantity)) =
          s.db.products.map (fun p =>
            (p.id, sqlAdd p.stock_quantity (some (itemsQuantity s.db.order_items id p.id))))) ∧
      ((cancelOrder fault now id s).response.status ≠ 200 →
        (cancelOrder fault now id s).store.db = s.db) := by
  rcases cancelOrder_cases fault now id s with ⟨o, hk⟩ | hn | hf
  · refine ⟨?_, fun _ => hk.products, fun h => ?_⟩
    · rw [hk.orders, List.map_map]
      apply List.map_congr_left
      intro x hx
      simp only [Function.comp, cancelRow]
      split_ifs with hxi
      · simp [hc x hx hxi]
      · rfl
    · rw [hk.response] at h
      simp at h
  · refine ⟨by rw [hn.db], fun h => ?_, fun _ => hn.db⟩
    rw [hn.response] at h
    simp at h
  · refine ⟨by rw [hf.2.1], fun h => ?_, fun _ => hf.2.1⟩
    rw [hf.1] at h
    simp at h

/-- Witness of C5, amended: the second cancellation of the scenario. -/
theorem cancelOrder_cancelled_witness :
    (cancelOrder noFault 30 1 demoCancelledStore).store.db.orders.map
        (fun o => (o.id, o.status)) = [(1, "cancelled")] ∧
      (cancelOrder noFault 30 1 demoCancelledStore).store.db.products.map
          (fun p => (p.id, p.stock_quantity)) =
        demoCancelledStore.db.products.map (fun p =>
          (p.id, sqlAdd p.stock_quantity
            (some (itemsQuantity demoCancelledStore.db.order_items 1 p.id)))) :=
  ⟨(cancelOrder_cancelled noFault 30 1 demoCancelledStore (by decide)).1,
    (cancelOrder_cancelled noFault 30 1 demoCancelledStore (by decide)).2.1 (by decide)⟩

/-- Counterexample to C6: every stock of the demo store is at least zero; an
order for six units of product 7, which has five, is answered 201 and leaves
that product with stock -1. -/
theorem createOrder_stock_negative :
    stockNonneg demoStore.db = true ∧
      (createOrder noFault 10 demoBodySix demoStore).response.status = 201 ∧
      (createOrder noFault 10 demoBodySix demoStore).store.db.products.map
        (fun p => (p.id, p.stock_quantity)) = [(7, some (-1)), (8, some 4)] ∧
      stockNonneg (createOrder noFault 10 demoBodySix demoStore).store.db = false := by
  decide

/-- C6, amended: on a store where every stock is at least zero, every stock is
still at least zero after `createOrder` exactly when the call is not answered
201 or, for each product, the quantities ordered of it sum to at most its stock
of before. -/
theorem createOrder_stock_floor (fault : Nat → Bool) (now : Nat) (body : CreateOrderBody)
    (s : Store) (h0 : stockNonneg s.db = true) :
    stockNonneg (createOrder fault now body s).store.db = true ↔
      ((createOrder fault now body s).response.status ≠ 201 ∨
        ∃ items, body.items = some items ∧
          ∀ p ∈ s.db.products, ∀ q, p.stock_quantity = some q →
            orderedQuantity items p.id ≤ q) := by
  rcases createOrder_cases fault now body s with ⟨items, order, rows, hc⟩ | hf
  · rw [stockNonneg_iff, hc.products]
    have hst : (createOrder fault now body s).response.status = 201 := by rw [hc.response]
    constructor
    · intro h
      right
      refine ⟨items, hc.accepted, fun p hp q hq => ?_⟩
      have := h (p.id, sqlSub p.stock_quantity (some (orderedQuantity items p.id)))
        (List.mem_map.2 ⟨p, hp, rfl⟩) (q - orderedQuantity items p.id) (by simp [hq, sqlSub])
      omega
    · rintro (h | ⟨items', hi, h⟩)
      · exact absurd hst h
      · have he : items' = items := by
          have := hc.accepted
          rw [hi] at this
          exact Option.some.inj this
        subst he
        rintro r hr q hq
        obtain ⟨p, hp, rfl⟩ := List.mem_map.1 hr
        cases hpq : p.stock_quantity with
        | none => simp [hpq, sqlSub] at hq
        | some v =>
          simp only [hpq, sqlSub, Option.some.injEq] at hq
          have := h p hp v hpq
          omega
  · have hst : (createOrder fault now body s).response.status ≠ 201 := by
      rw [hf.1]; simp
    rw [hf.2.1]
    exact ⟨fun _ => Or.inl hst, fun _ => h0⟩

/-- Witness of C6, amended: three units out of five leave every stock at least
zero. -/
theorem createOrder_stock_floor_witness :
    stockNonneg demoStore.db = true ∧
      (stockNonneg (createOrder noFault 10 demoBody demoStore).store.db = true ↔
        ((createOrder noFault 10 demoBody demoStore).response.status ≠ 201 ∨
          ∃ items, demoBody.items = some items ∧
            ∀ p ∈ demoStore.db.products, ∀ q, p.stock_quantity = some q →
              orderedQuantity items p.id ≤ q)) :=
  ⟨by decide, createOrder_stock_floor noFault 10 demoBody demoStore (by decide)⟩

/-- Counterexample to C7: a request with `total_amount` 1.00 and one item of
three units at 2.50 is answered 201; the order is stored with total 1.00 while
its order items sum to 7.50. -/
theorem createOrder_total_mismatch :
    (createOrder noFault 10 demoBodyCheap demoStore).response =
        ⟨201, Body.message_order "Order created successfully"
          { demoOrder with total_amount := 100 }⟩ ∧
      (createOrder noFault 10 demoBodyCheap demoStore).store.db.orders =
        [{ demoOrder with total_amount := 100 }] ∧
      itemsTotal (createOrder noFault 10 demoBodyCheap demoStore).store.db.order_items 1 = 750 := by
  decide

/-- C7, amended: for every `createOrder` call answered 201, the `total_amount`
stored on the created order is the `total_amount` of the request body. -/
theorem createOrder_total (fault : Nat → Bool) (now : Nat) (body : CreateOrderBody) (s : Store)
    (h : (createOrder fault now body s).response.status = 201) :
    ∃ order, (createOrder fault now body s).response.body =
        Body.message_order "Order created successfully" order ∧
      (createOrder fault now body s).store.db.orders = s.db.orders ++ [order] ∧
      body.total_amount = some order.total_amount := by
  obtain ⟨items, order, rows, hc⟩ := createOrder_created h
  exact ⟨order, by rw [hc.response], hc.orders, hc.total⟩

/-- Witness of C7, amended: the request whose total is not the sum of its items. -/
theorem createOrder_total_witness :
    (createOrder noFault 10 demoBodyCheap demoStore).response.status = 201 ∧
      ∃ order, (createOrder noFault 10 demoBodyCheap demoStore).response.body =
          Body.message_order "Order created successfully" order ∧
        (createOrder noFault 10 demoBodyCheap demoStore).store.db.orders =
          demoStore.db.orders ++ [order] ∧
        demoBodyCheap.total_amount = some order.total_amount :=
  ⟨by decide, createOrder_total noFault 10 demoBodyCheap demoStore (by decide)⟩

/-- C8: the outcome of `createOrder` does not depend on the properties of the
body the handler does not destructure (a `status` among them); and every call
answered 201 appends exactly one row to `orders`, which is the order of the
response and has status `pending` and the `user_id`, `business_id`,
`total_amount`, `delivery_address`, `delivery_instructions` and `payment_method`
of the body. -/
theorem createOrder_order_row (fault : Nat → Bool) (now : Nat) (body : CreateOrderBody)
    (s : Store) :
    (∀ status rest,
      createOrder fault now { body with status := status, rest := rest } s =
        createOrder fault now body s) ∧
    ((createOrder fault now body s).response.status = 201 →
      ∃ order,
        (createOrder fault now body s).response =
          ⟨201, Body.message_order "Order created successfully" order⟩ ∧
        (createOrder fault now body s).store.db.orders = s.db.orders ++ [order] ∧
        order.status = "pending" ∧
        order.user_id = body.user_id ∧ order.business_id = body.business_id ∧
        some order.total_amount = body.total_amount ∧
        some order.delivery_address = body.delivery_address ∧
        order.delivery_instructions = body.delivery_instructions ∧
        order.payment_method = body.payment_method) := by
  refine ⟨fun _ _ => rfl, fun h => ?_⟩
  obtain ⟨items, order, rows, hc⟩ := createOrder_created h
  refine ⟨order, hc.response, hc.orders, ?_, ?_, ?_, hc.total.symm, hc.address.symm, ?_, ?_⟩
  all_goals rw [hc.row]

/-- Witness of C8: the scenario request, also when it carries a `status`. -/
theorem createOrder_order_row_witness :
    createOrder noFault 10 { demoBody with status := some "delivered", rest := [("id", "99")] }
        demoStore = createOrder noFault 10 demoBody demoStore ∧
      (createOrder noFault 10 demoBody demoStore).response.status = 201 ∧
      ∃ order,
        (createOrder noFault 10 demoBody demoStore).response =
          ⟨201, Body.message_order "Order created successfully" order⟩ ∧
        (createOrder noFault 10 demoBody demoStore).store.db.orders =
          demoStore.db.orders ++ [order] ∧
        order.status = "pending" ∧
        order.user_id = demoBody.user_id ∧ order.business_id = demoBody.business_id ∧
        some order.total_amount = demoBody.total_amount ∧
        some order.delivery_address = demoBody.delivery_address ∧
        order.delivery_instructions = demoBody.delivery_instructions ∧
        order.payment_method = demoBody.payment_method :=
  ⟨(createOrder_order_row noFault 10 demoBody demoStore).1 _ _, by decide,
    (createOrder_order_row noFault 10 demoBody demoStore).2 (by decide)⟩

/-- C9: for every `createOrder` call answered 201 with item list `items`, the
rows added to `order_items` are one per element of `items`, in input order, each
with the id of the inserted order and the `product_id`, `quantity` and
`unit_price` of its element (the `price` of the product is not read); and the
statements sent are, in this order, `BEGIN`, the order insert, for each item its
`order_items` insert followed by its stock update, and `COMMIT`. -/
theorem createOrder_item_rows (fault : Nat → Bool) (now : Nat) (body : CreateOrderBody)
    (s : Store) (h : (createOrder fault now body s).response.status = 201) :
    ∃ items order rows, body.items = some items ∧
      (createOrder fault now body s).response.body =
        Body.message_order "Order created successfully" order ∧
      (createOrder fault now body s).store.db.order_items = s.db.order_items ++ rows ∧
      rows.map (fun r => (r.order_id, r.product_id, some r.quantity, some r.unit_price)) =
        items.map (fun i => (some order.id, i.product_id, i.quantity, i.unit_price)) ∧
      (createOrder fault now body s).log =
        Event.query Stmt.BEGIN ::
        Event.query (Stmt.insert_order body.user_id body.business_id body.total_amount
          body.delivery_address body.delivery_instructions body.payment_method) ::
        (itemEvents order.id items ++ [Event.query Stmt.COMMIT, Event.release]) := by
  obtain ⟨items, order, rows, hc⟩ := createOrder_created h
  exact ⟨items, order, rows, hc.accepted, by rw [hc.response], hc.order_items, hc.snapshot,
    hc.log⟩

/-- Witness of C9: the three-item request on the demo store; the items for
product 7 are stored at the 2.50 of the request, not at its price of 3.00. -/
theorem createOrder_item_rows_witness :
    (createOrder noFault 10 demoBodyThree demoStore).store.db.order_items =
        [⟨1, some 1, some 7, 2, 250, 10⟩, ⟨2, some 1, some 8, 1, 400, 10⟩,
          ⟨3, some 1, some 7, 1, 250, 10⟩] ∧
      ∃ items order rows, demoBodyThree.items = some items ∧
        (createOrder noFault 10 demoBodyThree demoStore).response.body =
          Body.message_order "Order created successfully" order ∧
        (createOrder noFault 10 demoBodyThree demoStore).store.db.order_items =
          demoStore.db.order_items ++ rows ∧
        rows.map (fun r => (r.order_id, r.product_id, some r.quantity, some r.unit_price)) =
          items.map (fun i => (some order.id, i.product_id, i.quantity, i.unit_price)) ∧
        (createOrder noFault 10 demoBodyThree demoStore).log =
          Event.query Stmt.BEGIN ::
          Event.query (Stmt.insert_order demoBodyThree.user_id demoBodyThree.business_id
            demoBodyThree.total_amount demoBodyThree.delivery_address
            demoBodyThree.delivery_instructions demoBodyThree.payment_method) ::
          (itemEvents order.id items ++ [Event.query Stmt.COMMIT, Event.release]) :=
  ⟨by decide, createOrder_item_rows noFault 10 demoBodyThree demoStore (by decide)⟩

/-- C10: `updateOrderStatus` answers 400 exactly when the status of the body is
not one of `pending`, `confirmed`, `preparing`, `ready`, `delivered`,
`cancelled`; in that case no statement is sent and the store is unchanged. -/
theorem updateOrderStatus_rejects (fault : Nat → Bool) (now : Nat) (id : Int)
    (status : Option String) (s : Store) :
    ((updateOrderStatus fault now id status s).response.status = 400 ↔
      ∀ v ∈ ["pending", "confirmed", "preparing", "ready", "delivered", "cancelled"],
        status ≠ some v) ∧
    ((updateOrderStatus fault now id status s).response.status = 400 →
      (updateOrderStatus fault now id status s).response = ⟨400, Body.error "Invalid status"⟩ ∧
      (updateOrderStatus fault now id status s).log = [] ∧
      (updateOrderStatus fault now id status s).store = s ∧
      (updateOrderStatus fault now id status s).open_txn = none) := by
  have hiff := includes_validStatuses status
  cases hin : includes validStatuses status with
  | false =>
    have hout : updateOrderStatus fault now id status s =
        { response := { status := 400, body := Body.error "Invalid status" },
          store := s, open_txn := none, log := [] } := by
      simp [updateOrderStatus, hin]
    rw [hout]
    refine ⟨⟨fun _ v hv he => ?_, fun _ => rfl⟩, fun _ => ⟨rfl, rfl, rfl, rfl⟩⟩
    have := hiff.2 ⟨v, hv, he⟩
    rw [hin] at this
    simp at this
  | true =>
    have hne : (updateOrderStatus fault now id status s).response.status ≠ 400 := by
      unfold updateOrderStatus
      simp only [hin, Bool.not_true, Bool.false_eq_true, if_false]
      split <;> simp [finish]
    refine ⟨⟨fun h => absurd h hne, fun h => ?_⟩, fun h => absurd h hne⟩
    obtain ⟨v, hv, he⟩ := hiff.1 hin
    exact absurd he (h v hv)

/-- Witness of C10: status `shipped` on an existing order of the scenario. -/
theorem updateOrderStatus_rejects_witness :
    (updateOrderStatus noFault 30 1 (some "shipped")
        (createOrder noFault 10 demoBody demoStore).store).response =
        ⟨400, Body.error "Invalid status"⟩ ∧
      (updateOrderStatus noFault 30 1 (some "shipped")
        (createOrder noFault 10 demoBody demoStore).store).log = [] ∧
      (updateOrderStatus noFault 30 1 (some "shipped")
        (createOrder noFault 10 demoBody demoStore).store).store =
        (createOrder noFault 10 demoBody demoStore).store ∧
      (updateOrderStatus noFault 30 1 (some "shipped")
        (createOrder noFault 10 demoBody demoStore).store).open_txn = none :=
  (updateOrderStatus_rejects noFault 30 1 (some "shipped")
    (createOrder noFault 10 demoBody demoStore).store).2
    ((updateOrderStatus_rejects noFault 30 1 (some "shipped")
      (createOrder noFault 10 demoBody demoStore).store).1.2 (by decide))

theorem includes_valid {st : String} (hv : st ∈ validStatuses) :
    includes validStatuses (some st) = true := by
  simpa [includes, List.contains, List.elem_eq_mem] using hv

/-- The three ways `updateOrderStatus` ends for a status of the list. -/
theorem updateOrderStatus_run (fault : Nat → Bool) (now : Nat) (id : Int) (st : String)
    (s : Store) (hv : st ∈ validStatuses) :
    updateOrderStatus fault now id (some st) s =
      if fault 0 then
        { response := ⟨500, Body.error "Error updating order status"⟩, store := s,
          open_txn := none,
          log := [Event.query (Stmt.update_order_status st id), Event.release] }
      else
        match (s.db.orders.filter fun o => o.id = id).map (statusRow now st id) with
        | [] =>
          { response := ⟨404, Body.error "Order not found"⟩,
            store := statusUpdated now st id s, open_txn := none,
            log := [Event.query (Stmt.update_order_status st id), Event.release] }
        | row :: _ =>
          { response := ⟨200, Body.message_order "Order status updated successfully" row⟩,
            store := statusUpdated now st id s, open_txn := none,
            log := [Event.query (Stmt.update_order_status st id), Event.release] } := by
  unfold updateOrderStatus
  simp only [includes_valid hv, Bool.not_true, Bool.false_eq_true, if_false, Option.getD_some]
  unfold updateOrderStatusStmt stmt
  cases hf : fault 0 with
  | true => simp [connect, hf, finish, release]
  | false =>
    simp only [connect, List.length_nil, hf, Bool.false_eq_true, if_false, Session.view,
      Session.write]
    have hfun : (fun o : Order =>
        if o.id = id then { o with status := st, updated_at := now } else o) =
        statusRow now st id := rfl
    rw [hfun]
    cases (s.db.orders.filter fun o => o.id = id).map (statusRow now st id) with
    | nil => rfl
    | cons row rest => rfl

/-- An update that matches no order leaves the table as it is. -/
theorem statusUpdated_absent {now : Nat} {st : String} {id : Int} {s : Store}
    (h : ∀ o ∈ s.db.orders, o.id ≠ id) : statusUpdated now st id s = s := by
  have : s.db.orders.map (statusRow now st id) = s.db.orders := by
    conv_rhs => rw [← List.map_id s.db.orders]
    apply List.map_congr_left
    intro o ho
    simp [statusRow, h o ho]
  simp [statusUpdated, this]

theorem find_statusRow (now : Nat) (st : String) (i id : Int) (orders : List Order) :
    (orders.map (statusRow now st i)).find? (fun o => o.id = id) =
      (orders.find? fun o => o.id = id).map (statusRow now st i) := by
  induction orders with
  | nil => rfl
  | cons o rest ih =>
    have hid : (statusRow now st i o).id = o.id := by
      unfold statusRow; split_ifs <;> rfl
    by_cases h : o.id = id
    · simp [List.find?_cons, hid, h]
    · simp [List.find?_cons, hid, h, ih]

theorem find_cancelRow (now : Nat) (i id : Int) (orders : List Order) :
    (orders.map (cancelRow now i)).find? (fun o => o.id = id) =
      (orders.find? fun o => o.id = id).map (cancelRow now i) := by
  induction orders with
  | nil => rfl
  | cons o rest ih =>
    have hid : (cancelRow now i o).id = o.id := by
      unfold cancelRow; split_ifs <;> rfl
    by_cases h : o.id = id
    · simp [List.find?_cons, hid, h]
    · simp [List.find?_cons, hid, h, ih]

theorem find_id {orders : List Order} {id : Int} {o : Order}
    (h : (orders.find? fun x => x.id = id) = some o) : o.id = id := by
  have := List.find?_some h
  simpa using this

/-- With no store error, one operation leaves order `id` with the status the
operation asks for on it, or with its previous status when it asks for none. -/
theorem runOp_status (now : Nat) (op : OrderOp) (s : Store) (id : Int) (st : String)
    (h : statusOf s id = some st) :
    statusOf (runOp noFault now op s).store id = some ((opTarget id op).getD st) := by
  unfold statusOf at h ⊢
  cases hfind : s.db.orders.find? (fun o => o.id = id) with
  | none => rw [hfind] at h; simp at h
  | some o =>
    rw [hfind] at h
    simp only [Option.map_some', Option.some.injEq] at h
    have hoid : o.id = id := find_id hfind
    cases op with
    | updateStatus i status =>
      cases hin : includes validStatuses status with
      | false =>
        have hout : (runOp noFault now (OrderOp.updateStatus i status) s).store = s := by
          simp [runOp, updateOrderStatus, hin]
        rw [hout, hfind]
        simp [opTarget, hin, h]
      | true =>
        cases status with
        | none => simp [includes] at hin
        | some v =>
          have hv : v ∈ validStatuses := by
            simpa [includes, List.contains, List.elem_eq_mem] using hin
          have hout : (runOp noFault now (OrderOp.updateStatus i (some v)) s).store =
              statusUpdated now v i s := by
            simp only [runOp]
            rw [updateOrderStatus_run noFault now i v s hv]
            simp only [noFault, Bool.false_eq_true, if_false]
            split <;> rfl
          rw [hout]
          simp only [statusUpdated, find_statusRow, hfind, Option.map_some', opTarget, hin,
            and_true]
          by_cases hi : i = id
          · simp [hi, statusRow, hoid]
          · have : ¬ o.id = i := fun he => hi (he.symm.trans hoid)
            simp [hi, statusRow, this, h]
    | cancel i =>
      simp only [runOp, opTarget]
      rcases cancelOrder_cases noFault now i s with ⟨o', hc⟩ | hn | hf
      · rw [hc.orders, find_cancelRow, hfind]
        by_cases hi : i = id
        · simp [hi, cancelRow, hoid]
        · have : ¬ o.id = i := fun he => hi (he.symm.trans hoid)
          simp [hi, cancelRow, this, h]
      · rw [hn.db, hfind]
        by_cases hi : i = id
        · exfalso
          have hmem : o ∈ s.db.orders.filter fun x => x.id = i := by
            rw [List.mem_filter]
            exact ⟨List.mem_of_find?_eq_some hfind, by simp [hoid, hi]⟩
          rw [hn.absent] at hmem
          simp at hmem
        · simp [hi, h]
      · obtain ⟨_, _, _, k, hk⟩ := hf
        simp [noFault] at hk

/-- C11: for a status of the enum and a store that raises no error,
`updateOrderStatus` answers 200 when an order has the given id and returns that
order with the new status (its current status plays no part; order ids are
unique by the primary key); the tables afterwards differ from those before only
in the `status` and `updated_at` of the orders with that id, so no other order,
no order item and no product changes; when no order has the id it answers 404
and the store is unchanged.  No transaction is left open. -/
theorem updateOrderStatus_frame (fault : Nat → Bool) (now : Nat) (id : Int) (st : String)
    (s : Store) (hv : st ∈ validStatuses) (hf : fault 0 = false) :
    (∀ o ∈ s.db.orders, o.id = id → (s.db.orders.map fun x => x.id).Nodup →
      (updateOrderStatus fault now id (some st) s).response =
        ⟨200, Body.message_order "Order status updated successfully"
          { o with status := st, updated_at := now }⟩) ∧
    ((∃ o ∈ s.db.orders, o.id = id) →
      (updateOrderStatus fault now id (some st) s).response.status = 200 ∧
      (updateOrderStatus fault now id (some st) s).store =
        { s with
          db := { s.db with
            orders := s.db.orders.map fun x =>
              if x.id = id then { x with status := st, updated_at := now } else x } }) ∧
    ((∀ o ∈ s.db.orders, o.id ≠ id) →
      (updateOrderStatus fault now id (some st) s).response =
        ⟨404, Body.error "Order not found"⟩ ∧
      (updateOrderStatus fault now id (some st) s).store = s) ∧
    (updateOrderStatus fault now id (some st) s).open_txn = none := by
  rw [updateOrderStatus_run fault now id st s hv]
  simp only [hf, Bool.false_eq_true, if_false]
  refine ⟨fun o ho hid hpk => ?_, fun hex => ?_, fun hno => ?_, ?_⟩
  · subst hid
    rw [filter_primary_key hpk ho]
    simp [statusRow]
  · obtain ⟨o, ho, hid⟩ := hex
    have hmem : o ∈ s.db.orders.filter fun x => x.id = id := by
      simp [List.mem_filter, ho, hid]
    cases hrows : (s.db.orders.filter fun x => x.id = id) with
    | nil => rw [hrows] at hmem; simp at hmem
    | cons r rest => exact ⟨rfl, rfl⟩
  · have hnil : (s.db.orders.filter fun x => x.id = id) = [] := by
      rw [List.filter_eq_nil_iff]
      intro o ho
      simpa using hno o ho
    rw [hnil]
    exact ⟨rfl, statusUpdated_absent hno⟩
  · split <;> rfl

/-- Witness of C11: the delivered order of the scenario is set back to
`pending`. -/
theorem updateOrderStatus_frame_witness :
    (updateOrderStatus noFault 30 1 (some "pending") demoDeliveredStore).response =
        ⟨200, Body.message_order "Order status updated successfully"
          { demoOrder with status := "pending", updated_at := 30 }⟩ ∧
      (updateOrderStatus noFault 30 1 (some "pending") demoDeliveredStore).store =
        { demoDeliveredStore with
          db := { demoDeliveredStore.db with
            orders := [{ demoOrder with status := "pending", updated_at := 30 }] } } ∧
      (updateOrderStatus noFault 30 9 (some "pending") demoDeliveredStore).response =
        ⟨404, Body.error "Order not found"⟩ ∧
      (updateOrderStatus noFault 30 9 (some "pending") demoDeliveredStore).store =
        demoDeliveredStore :=
  ⟨(updateOrderStatus_frame noFault 30 1 "pending" demoDeliveredStore (by decide) rfl).1
      { demoOrder with status := "delivered", updated_at := 20 } (by decide) rfl (by decide),
    ((updateOrderStatus_frame noFault 30 1 "pending" demoDeliveredStore (by decide) rfl).2.1
      ⟨{ demoOrder with status := "delivered", updated_at := 20 }, by decide, rfl⟩).2,
    (updateOrderStatus_frame noFault 30 9 "pending" demoDeliveredStore (by decide) rfl).2.2.1
      (by decide)⟩

/-- A pool whose connection has no transaction open hands out a connection like
a new one. -/
theorem checkout_closed {p : Pool} (h : p.open_txn = none) : checkout p = connect p.store := by
  simp [checkout, connect, h]

/-- On a new connection an operation is its handler as defined for a store. -/
theorem runOpOn_connect (fault : Nat → Bool) (now : Nat) (op : OrderOp) (s : Store) :
    runOpOn fault now op (connect s) = runOp fault now op s := by
  cases op with
  | updateStatus id status =>
    simp only [runOpOn, runOp, updateOrderStatusOn, updateOrderStatus]
    split_ifs
    · rfl
    · rfl
  | cancel id => rfl

/-- With no store error an operation other than the cancellation of an order
that does not exist leaves no transaction open and keeps the ids of the
orders. -/
theorem runOp_closed (now : Nat) (op : OrderOp) (s : Store)
    (hc : ∀ i, op = OrderOp.cancel i → ∃ o ∈ s.db.orders, o.id = i) :
    (runOp noFault now op s).open_txn = none ∧
      (runOp noFault now op s).store.db.orders.map (fun o => o.id) =
        s.db.orders.map fun o => o.id := by
  cases op with
  | updateStatus i status =>
    cases hin : includes validStatuses status with
    | false => simp [runOp, updateOrderStatus, hin]
    | true =>
      cases status with
      | none => simp [includes] at hin
      | some v =>
        have hv : v ∈ validStatuses := by
          simpa [includes, List.contains, List.elem_eq_mem] using hin
        simp only [runOp]
        rw [updateOrderStatus_run noFault now i v s hv]
        simp only [noFault, Bool.false_eq_true, if_false]
        have hids : (statusUpdated now v i s).db.orders.map (fun o => o.id) =
            s.db.orders.map fun o => o.id := by
          simp only [statusUpdated, List.map_map]
          apply List.map_congr_left
          intro o _
          simp only [Function.comp, statusRow]
          split_ifs <;> rfl
        split <;> exact ⟨rfl, hids⟩
  | cancel i =>
    obtain ⟨o, ho, hoi⟩ := hc i rfl
    simp only [runOp]
    rcases cancelOrder_cases noFault now i s with ⟨o', hcd⟩ | hn | hf
    · refine ⟨hcd.open_txn, ?_⟩
      rw [hcd.orders, List.map_map]
      apply List.map_congr_left
      intro x _
      simp only [Function.comp, cancelRow]
      split_ifs <;> rfl
    · exfalso
      have hmem : o ∈ s.db.orders.filter fun x => x.id = i := by
        simp [List.mem_filter, ho, hoi]
      rw [hn.absent] at hmem
      simp at hmem
    · obtain ⟨_, _, _, k, hk⟩ := hf
      simp [noFault] at hk

/-- One request on a pool without an open transaction, whether the pool kept
its connection or opened a new one. -/
theorem step_closed (st : Step) (p : Pool) (hopen : p.open_txn = none) :
    step st p = ⟨(runOp noFault st.now st.op p.store).store,
      (runOp noFault st.now st.op p.store).open_txn⟩ := by
  unfold step
  simp only [checkout_closed hopen, ite_self, runOpOn_connect]

/-- The cancellation of order 99, which does not exist, leaves its transaction
open on the connection of the pool; the update of order 1 to `ready` that
follows on the same connection goes into that transaction, and the committed
status of order 1 stays `delivered`.  It is `ready` when the pool has replaced
the connection in between, and a later cancellation of order 1 on the kept
connection commits what the transaction holds. -/
theorem cancel_absent_withholds_update :
    statusOf (runOps [⟨30, true, OrderOp.cancel 99⟩,
        ⟨31, true, OrderOp.updateStatus 1 (some "ready")⟩] ⟨demoDeliveredStore, none⟩).store 1 =
        some "delivered" ∧
      (runOps [⟨30, true, OrderOp.cancel 99⟩,
        ⟨31, true, OrderOp.updateStatus 1 (some "ready")⟩]
          ⟨demoDeliveredStore, none⟩).open_txn.map (fun d => d.orders.map fun o => o.status) =
        some ["ready"] ∧
      statusOf (runOps [⟨30, true, OrderOp.cancel 99⟩,
        ⟨31, false, OrderOp.updateStatus 1 (some "ready")⟩] ⟨demoDeliveredStore, none⟩).store 1 =
        some "ready" ∧
      statusOf (runOps [⟨30, true, OrderOp.cancel 99⟩,
        ⟨31, true, OrderOp.updateStatus 1 (some "ready")⟩, ⟨32, true, OrderOp.cancel 1⟩]
          ⟨demoDeliveredStore, none⟩).store 1 = some "cancelled" :=
  ⟨by decide, by decide, by decide, by decide⟩

/-- Counterexample to C12: the delivered order of the scenario becomes `pending`
through `updateOrderStatus` and `cancelled` through `cancelOrder`, and its
cancelled order becomes `pending` through `updateOrderStatus`. -/
theorem terminal_status_left :
    statusOf demoDeliveredStore 1 = some "delivered" ∧
      statusOf (runOps [⟨30, true, OrderOp.updateStatus 1 (some "pending")⟩]
        ⟨demoDeliveredStore, none⟩).store 1 = some "pending" ∧
      statusOf (runOps [⟨30, true, OrderOp.cancel 1⟩] ⟨demoDeliveredStore, none⟩).store 1 =
        some "cancelled" ∧
      statusOf demoCancelledStore 1 = some "cancelled" ∧
      statusOf (runOps [⟨30, true, OrderOp.updateStatus 1 (some "pending")⟩]
        ⟨demoCancelledStore, none⟩).store 1 = some "pending" := by
  decide

/-- C12, amended: take requests handled one after the other on the pool, with
no store error, no transaction open on the connection of the pool at the start,
and every `cancel` of the sequence naming an order that exists.  After any such
sequence of `updateStatus` and `cancel` operations an order has, committed, the
status asked for by the last operation of the sequence that asks for one on it
(the enum status of an `updateStatus`, `cancelled` for a `cancel`), whatever its
status was, `delivered` and `cancelled` included; it keeps its status when no
operation asks for one on it.  No transaction is open afterwards. -/
theorem status_after_operations (steps : List Step) (p : Pool) (id : Int) (st : String)
    (hopen : p.open_txn = none)
    (hcancel : ∀ step ∈ steps, ∀ i, step.op = OrderOp.cancel i →
      ∃ o ∈ p.store.db.orders, o.id = i)
    (h : statusOf p.store id = some st) :
    statusOf (runOps steps p).store id = some (lastTarget id steps st) ∧
      (runOps steps p).open_txn = none := by
  induction steps generalizing p st with
  | nil => exact ⟨h, hopen⟩
  | cons s rest ih =>
    simp only [runOps, lastTarget]
    have hcl := runOp_closed s.now s.op p.store (hcancel s (List.mem_cons_self _ _))
    rw [step_closed s p hopen]
    refine ih _ _ hcl.1 (fun x hx i hi => ?_) (runOp_status s.now s.op p.store id st h)
    obtain ⟨o, ho, hoi⟩ := hcancel x (List.mem_cons_of_mem _ hx) i hi
    have hmem : i ∈ p.store.db.orders.map fun o => o.id := List.mem_map.2 ⟨o, ho, hoi⟩
    rw [← hcl.2] at hmem
    obtain ⟨o', ho', hoi'⟩ := List.mem_map.1 hmem
    exact ⟨o', ho', hoi'⟩

/-- Witness of C12, amended: on the cancelled order of the scenario, a second
cancellation keeps `cancelled`, a later `updateStatus` to `ready` wins, and an
`updateStatus` to `shipped`, which is no status, changes nothing. -/
theorem status_after_operations_witness :
    statusOf demoCancelledStore 1 = some "cancelled" ∧
      statusOf (runOps [⟨30, true, OrderOp.cancel 1⟩,
        ⟨31, true, OrderOp.updateStatus 1 (some "ready")⟩,
        ⟨32, false, OrderOp.updateStatus 1 (some "shipped")⟩]
          ⟨demoCancelledStore, none⟩).store 1 = some "ready" ∧
      (runOps [⟨30, true, OrderOp.cancel 1⟩,
        ⟨31, true, OrderOp.updateStatus 1 (some "ready")⟩,
        ⟨32, false, OrderOp.updateStatus 1 (some "shipped")⟩]
          ⟨demoCancelledStore, none⟩).open_txn = none :=
  ⟨by decide,
    status_after_operations [⟨30, true, OrderOp.cancel 1⟩,
        ⟨31, true, OrderOp.updateStatus 1 (some "ready")⟩,
        ⟨32, false, OrderOp.updateStatus 1 (some "shipped")⟩]
      ⟨demoCancelledStore, none⟩ 1 "cancelled" rfl
      (fun step hs i hi => by
        simp only [List.mem_cons, List.mem_singleton, List.not_mem_nil, or_false] at hs
        rcases hs with rfl | rfl | rfl
        · simp only [OrderOp.cancel.injEq] at hi
          subst hi
          exact ⟨_, List.mem_cons_self _ _, rfl⟩
        · simp at hi
        · simp at hi)
      (by decide)⟩

end Orders

namespace Auth

/-- The token the middleware tests is the selected token of the specification. -/
theorem token_selected (c : Credentials) :
    selectedToken c =
      if isFalsy (orElse (headerToken c.authorization) c.cookieToken) then none
      else some ((orElse (headerToken c.authorization) c.cookieToken).getD "") := by
  obtain ⟨auth, cookie⟩ := c
  have hsec : secondField "" = none := by decide
  cases auth with
  | none =>
    cases cookie with
    | none => simp [selectedToken, headerToken, orElse, Option.filter, isFalsy]
    | some k =>
      by_cases hk : k = "" <;>
        simp [selectedToken, headerToken, orElse, Option.filter, isFalsy, hk]
  | some h =>
    by_cases hh : h = ""
    · subst hh
      cases cookie with
      | none => simp [selectedToken, headerToken, orElse, Option.filter, isFalsy, hsec]
      | some k =>
        by_cases hk : k = "" <;>
          simp [selectedToken, headerToken, orElse, Option.filter, isFalsy, hk, hsec]
    · cases hs : secondField h with
      | none =>
        cases cookie with
        | none => simp [selectedToken, headerToken, orElse, Option.filter, isFalsy, hh, hs]
        | some k =>
          by_cases hk : k = "" <;>
            simp [selectedToken, headerToken, orElse, Option.filter, isFalsy, hk, hh, hs]
      | some t =>
        by_cases ht : t = ""
        · cases cookie with
          | none =>
            simp [selectedToken, headerToken, orElse, Option.filter, isFalsy, hh, hs, ht]
          | some k =>
            by_cases hk : k = "" <;>
              simp [selectedToken, headerToken, orElse, Option.filter, isFalsy, hk, hh, hs, ht]
        · simp [selectedToken, headerToken, orElse, hh, hs, ht, Option.filter, isFalsy]

/-- The outcome of `authenticateToken` written with the selected token. -/
theorem authenticateToken_eq (verify : String → Except String Payload) (c : Credentials) :
    authenticateToken verify c =
      match selectedToken c with
      | none => deny "Access denied. No authentication token provided."
      | some t =>
        match verify t with
        | Except.ok decoded => { user := some decoded, next := 1, sent := [] }
        | Except.error name =>
          if name = "TokenExpiredError" then deny "Token has expired. Please log in again."
          else if name = "JsonWebTokenError" then deny "Invalid token. Please log in again."
          else deny "Authentication failed." := by
  rw [token_selected]
  unfold authenticateToken
  cases hf : isFalsy (orElse (headerToken c.authorization) c.cookieToken) <;> simp [hf]

/-- The outcome of `optionalAuth` written with the selected token. -/
theorem optionalAuth_eq (verify : String → Except String Payload) (c : Credentials) :
    optionalAuth verify c =
      match selectedToken c with
      | none => { user := none, next := 1, sent := [] }
      | some t =>
        match verify t with
        | Except.ok decoded => { user := some decoded, next := 1, sent := [] }
        | Except.error _ => { user := none, next := 1, sent := [] } := by
  rw [token_selected]
  unfold optionalAuth
  cases hf : isFalsy (orElse (headerToken c.authorization) c.cookieToken) <;> simp [hf]

/-- C13: `authenticateToken` calls `next` exactly when the selected token exists
and verifies, and then it calls it once, sends nothing and has set `req.user` to
the decoded payload; in every other case it never calls `next`, leaves
`req.user` unset and sends one response, a 401 with `requiresAuth` true whose
message tells a missing token, an expired token and an invalid token apart. -/
theorem authenticateToken_exclusive (verify : String → Except String Payload)
    (c : Credentials) :
    ((authenticateToken verify c).next = 1 ↔
      ∃ t p, selectedToken c = some t ∧ verify t = Except.ok p) ∧
    (∀ t p, selectedToken c = some t → verify t = Except.ok p →
      authenticateToken verify c = { user := some p, next := 1, sent := [] }) ∧
    ((¬ ∃ t p, selectedToken c = some t ∧ verify t = Except.ok p) →
      (authenticateToken verify c).next = 0 ∧ (authenticateToken verify c).user = none ∧
      ∃ msg, (authenticateToken verify c).sent = [⟨401, msg, true⟩] ∧
        (msg = "Access denied. No authentication token provided." ↔ selectedToken c = none) ∧
        (msg = "Token has expired. Please log in again." ↔
          ∃ t, selectedToken c = some t ∧ verify t = Except.error "TokenExpiredError") ∧
        (msg = "Invalid token. Please log in again." ↔
          ∃ t, selectedToken c = some t ∧ verify t = Except.error "JsonWebTokenError")) := by
  rw [authenticateToken_eq]
  cases hs : selectedToken c with
  | none =>
    refine ⟨by simp [deny], by simp, fun _ => ⟨rfl, rfl, _, rfl, ?_, ?_, ?_⟩⟩
    · simp
    · simp
    · simp
  | some t =>
    dsimp only
    cases hv : verify t with
    | ok p =>
      dsimp only
      refine ⟨by simp [hv], ?_, fun h => absurd ⟨t, p, rfl, hv⟩ h⟩
      intro t' p' ht' hp'
      simp only [Option.some.injEq] at ht'
      subst ht'
      rw [hv] at hp'
      simp only [Except.ok.injEq] at hp'
      subst hp'
      rfl
    | error name =>
      have hno : ¬ ∃ t' p, some t = some t' ∧ verify t' = Except.ok p := by
        rintro ⟨t', p, ht', hp⟩
        simp only [Option.some.injEq] at ht'
        subst ht'
        rw [hv] at hp
        simp at hp
      dsimp only
      refine ⟨?_, ?_, fun _ => ?_⟩
      · simp only [hno, iff_false]
        split_ifs <;> simp [deny]
      · intro t' p' ht' hp'
        exact absurd ⟨t', p', ht', hp'⟩ hno
      · by_cases h1 : name = "TokenExpiredError"
        · subst h1
          refine ⟨rfl, rfl, _, rfl, ?_, ?_, ?_⟩
          · simp
          · simp [hv]
          · simp [hv]
        · by_cases h2 : name = "JsonWebTokenError"
          · subst h2
            refine ⟨rfl, rfl, _, rfl, ?_, ?_, ?_⟩
            · simp
            · simp [hv]
            · simp [hv]
          · simp only [h1, h2, if_false]
            refine ⟨rfl, rfl, _, rfl, ?_, ?_, ?_⟩
            · simp
            · simp [hv, h1]
            · simp [hv, h2]

/-- Witness of C13: a bearer token that verifies, an expired cookie token behind
an Authorization header without second field, and no token at all. -/
theorem authenticateToken_exclusive_witness :
    authenticateToken demoVerify ⟨some "Bearer good", some "old"⟩ =
        { user := some ⟨1, "kwame123", "kwame@knust.edu.gh", false⟩, next := 1, sent := [] } ∧
      authenticateToken demoVerify ⟨some "Bearer", some "old"⟩ =
        deny "Token has expired. Please log in again." ∧
      (authenticateToken demoVerify ⟨none, none⟩).next = 0 :=
  ⟨(authenticateToken_exclusive demoVerify ⟨some "Bearer good", some "old"⟩).2.1 "good" _
      (by decide) rfl,
    by decide,
    ((authenticateToken_exclusive demoVerify ⟨none, none⟩).2.2 (by
      rintro ⟨t, p, ht, -⟩
      have hn : selectedToken ⟨none, none⟩ = none := by decide
      rw [hn] at ht
      exact Option.noConfusion ht)).1⟩

/-- C14: `optionalAuth` always calls `next` once and never sends a response;
`req.user` is the decoded payload exactly when the selected token exists and
verifies, and `null` when there is no token or it fails verification; so it sets
an identity on exactly the requests on which `authenticateToken` calls `next`,
and it is the same identity. -/
theorem optionalAuth_identity (verify : String → Except String Payload) (c : Credentials) :
    (optionalAuth verify c).next = 1 ∧ (optionalAuth verify c).sent = [] ∧
    (∀ p, (optionalAuth verify c).user = some p ↔
      ∃ t, selectedToken c = some t ∧ verify t = Except.ok p) ∧
    ((optionalAuth verify c).user = none ↔
      selectedToken c = none ∨
        ∃ t name, selectedToken c = some t ∧ verify t = Except.error name) ∧
    ((optionalAuth verify c).user.isSome = true ↔ (authenticateToken verify c).next = 1) ∧
    ((authenticateToken verify c).next = 1 →
      (optionalAuth verify c).user = (authenticateToken verify c).user) := by
  rw [optionalAuth_eq, authenticateToken_eq]
  cases hs : selectedToken c with
  | none => simp [deny]
  | some t =>
    dsimp only
    cases hv : verify t with
    | ok p => simp [hv]
    | error name =>
      dsimp only
      refine ⟨rfl, rfl, by simp [hv], by simp [hv], ?_, ?_⟩
      · split_ifs <;> simp [deny]
      · split_ifs <;> simp [deny]

/-- Witness of C14: the same three requests. -/
theorem optionalAuth_identity_witness :
    optionalAuth demoVerify ⟨some "Bearer good", some "old"⟩ =
        { user := some ⟨1, "kwame123", "kwame@knust.edu.gh", false⟩, next := 1, sent := [] } ∧
      optionalAuth demoVerify ⟨some "Bearer", some "old"⟩ =
        { user := none, next := 1, sent := [] } ∧
      (optionalAuth demoVerify ⟨none, none⟩).next = 1 ∧
      (optionalAuth demoVerify ⟨some "Bearer good", some "old"⟩).user =
        (authenticateToken demoVerify ⟨some "Bearer good", some "old"⟩).user :=
  ⟨by decide, by decide, (optionalAuth_identity demoVerify ⟨none, none⟩).1,
    (optionalAuth_identity demoVerify ⟨some "Bearer good", some "old"⟩).2.2.2.2.2
      (by decide)⟩

end Auth

namespace Routes

open Orders (Money Err)
open Auth (Payload Credentials)

theorem filter_business_key {bs : List Business} {b : Business}
    (hpk : (bs.map fun x => x.id).Nodup) (hb : b ∈ bs) :
    (bs.filter fun x => x.id = b.id) = [b] := by
  induction bs with
  | nil => simp at hb
  | cons x rest ih =>
    simp only [List.map_cons, List.nodup_cons, List.mem_map, not_exists, not_and] at hpk
    rcases List.mem_cons.1 hb with rfl | hmem
    · have hrest : (rest.filter fun x => decide (x.id = b.id)) = [] := by
        rw [List.filter_eq_nil_iff]
        intro y hy
        have := hpk.1 y hy
        simpa using this
      simp [List.filter_cons, hrest]
    · have hne : x.id ≠ b.id := fun he => hpk.1 b hmem he.symm
      simp [List.filter_cons, hne, ih hpk.2 hmem]

theorem filter_business_absent {bs : List Business} {id : Int}
    (h : ∀ b ∈ bs, b.id ≠ id) : (bs.filter fun x => x.id = id) = [] := by
  rw [List.filter_eq_nil_iff]
  intro b hb
  simpa using h b hb

/-- For an authenticated caller the guarded route is the ownership check
followed by the handler. -/
theorem guarded_authenticated {verify : String → Except String Payload} {fault : Nat → Bool}
    {c : Credentials} {p : Payload} (id : Int) (t : Tables) (handler : Run → Outcome)
    (hauth : Auth.authenticateToken verify c = { user := some p, next := 1, sent := [] })
    (hf : fault 0 = false) :
    guarded verify fault "business" c id t handler =
      match (t.businesses.filter fun b => b.id = id).map fun b => b.owner_id with
      | [] =>
        { response := ⟨404, Body.error "business not found"⟩, tables := t,
          log := [Query.select_business_owner id] }
      | ownerId :: _ =>
        if ownerId ≠ some p.id then
          { response := ⟨403, Body.error "You don't have permission to modify this business"⟩,
            tables := t, log := [Query.select_business_owner id] }
        else handler ⟨t, [Query.select_business_owner id]⟩ := by
  unfold guarded
  rw [hauth]
  simp only [authorizeOwner, if_true, selectBusinessOwner, query, List.length_nil, hf,
    Bool.false_eq_true, if_false, List.nil_append]
  cases (t.businesses.filter fun b => b.id = id).map fun b => b.owner_id with
  | nil => rfl
  | cons o rest =>
    simp only [ownerCheck]
    split_ifs <;> rfl

theorem pushIf_eq (cond : Bool) (msg : String) (errors : List String) :
    pushIf cond msg errors = errors ++ (if cond then [msg] else []) := by
  cases cond <;> simp [pushIf]

theorem filter_map_cons {α β : Type} (p : α → Bool) (f : α → β) (a : α) (l : List α) :
    ((a :: l).filter p).map f = (if p a then [f a] else []) ++ (l.filter p).map f := by
  cases h : p a <;> simp [List.filter_cons, h]

/-- The `errors` array holds the message of each violated rule, once, in the
order of the rules. -/
theorem registerErrors_rules (b : RegisterBody) :
    registerErrors b = (registerRules.filter fun r => r.1 b).map fun r => r.2 := by
  simp only [registerErrors, registerRules, pushIf_eq, filter_map_cons, List.filter_nil,
    List.map_nil, List.append_assoc, List.nil_append, List.append_nil]

/-- On the username of an existing user the registration route answers 400 or
409 and leaves the tables as they are. -/
theorem register_duplicate (hash : String → String) (sign : Payload → String)
    (fault : Nat → Bool) (now : Nat) (b : RegisterBody) (t : Tables) (u : User)
    (hu : u ∈ t.users) (hb : b.username = Field.str u.username) (hf : fault 0 = false) :
    (register hash sign fault now b t).tables = t ∧
      ((register hash sign fault now b t).response.status = 400 ∨
        (register hash sign fault now b t).response.status = 409) := by
  unfold register
  split_ifs with hv
  · exact ⟨rfl, Or.inl rfl⟩
  · have hmem : u ∈ t.users.filter fun x =>
        some x.username = b.username.param ∨ some x.email = b.email.param ∨
          some x.index_number = b.indexNumber.param := by
      simp [List.mem_filter, hu, hb, Field.param]
    simp only [selectUserByUsernameEmailIndex, query, List.length_nil, hf, Bool.false_eq_true,
      if_false, List.nil_append]
    cases hrows : (t.users.filter fun x =>
        some x.username = b.username.param ∨ some x.email = b.email.param ∨
          some x.index_number = b.indexNumber.param) with
    | nil => rw [hrows] at hmem; simp at hmem
    | cons x rest => exact ⟨rfl, Or.inr rfl⟩

/-- On the username of an existing user the user creation route answers 400 and
leaves the tables as they are. -/
theorem createUser_duplicate (fault : Nat → Bool) (now : Nat) (b : NewUserBody) (t : Tables)
    (u : User) (hu : u ∈ t.users) (hb : b.username = some u.username) (hf : fault 0 = false) :
    (createUser fault now b t).tables = t ∧
      (createUser fault now b t).response = ⟨400, Body.error "User already exists"⟩ := by
  unfold createUser
  have hmem : u ∈ t.users.filter fun x =>
      some x.email = b.email ∨ some x.username = b.username := by
    simp [List.mem_filter, hu, hb]
  simp only [selectUserByEmailUsername, query, List.length_nil, hf, Bool.false_eq_true,
    if_false, List.nil_append]
  cases hrows : (t.users.filter fun x =>
      some x.email = b.email ∨ some x.username = b.username) with
  | nil => rw [hrows] at hmem; simp at hmem
  | cons x rest => exact ⟨rfl, rfl⟩

theorem query_log {α : Type} (fault : Nat → Bool) (q : Query) (r : Run)
    (eff : Tables → Tables × Except Err α) : (query fault q r eff).1.log = r.log ++ [q] := by
  unfold query
  split_ifs <;> rfl

theorem insertUserStmt_log (fault : Nat → Bool) (now : Nat) (row : NewUserBody) (r : Run) :
    (insertUserStmt fault now row r).1.log = r.log ++ [Query.insert_user row] :=
  query_log _ _ _ _

/-- C15, the code at the failing input: user 1 is authenticated and owns
business 1.  The update of business 1 with a body that carries only a new
description passes the ownership check and reaches the handler, whose statement
binds every absent field as `NULL` and so breaks `NOT NULL`: the owner is
answered 500 and nothing changes, with an empty body as well.  With a body that
carries every field the same owner is answered 200, the owner's delete is
answered 200, and user 2 is answered 403 on both. -/
theorem owner_update_fails :
    Auth.authenticateToken Auth.demoVerify ownerCreds =
        { user := some ⟨1, "kwame123", "kwame@knust.edu.gh", false⟩, next := 1, sent := [] } ∧
      (demoTables.businesses.map fun b => (b.id, b.owner_id)) = [(1, some 1), (2, some 2)] ∧
      putBusiness Auth.demoVerify noFault 10 ownerCreds 1 descriptionBody demoTables =
        { response := ⟨500, Body.error "Error updating business"⟩, tables := demoTables,
          log := [Query.select_business_owner 1, Query.update_business 1 descriptionBody] } ∧
      putBusiness Auth.demoVerify noFault 10 ownerCreds 1 emptyBusinessBody demoTables =
        { response := ⟨500, Body.error "Error updating business"⟩, tables := demoTables,
          log := [Query.select_business_owner 1, Query.update_business 1 emptyBusinessBody] } ∧
      (putBusiness Auth.demoVerify noFault 10 ownerCreds 1 demoBusinessBody
        demoTables).response.status = 200 ∧
      (delBusiness Auth.demoVerify noFault ownerCreds 1 demoTables).response =
        ⟨200, Body.message "Business deleted successfully"⟩ ∧
      putBusiness Auth.demoVerify noFault 10 otherCreds 1 descriptionBody demoTables =
        { response := ⟨403, Body.error "You don't have permission to modify this business"⟩,
          tables := demoTables, log := [Query.select_business_owner 1] } ∧
      delBusiness Auth.demoVerify noFault otherCreds 1 demoTables =
        { response := ⟨403, Body.error "You don't have permission to modify this business"⟩,
          tables := demoTables, log := [Query.select_business_owner 1] } :=
  ⟨by decide, by decide, by decide, by decide, by decide, by decide, by decide, by decide⟩

/-- What the two business routes do for a caller authenticated as `p`, on tables
with unique business ids and a store that raises no error.  On an existing
business `b`: when `b.owner_id` is not `p.id`, update and delete are answered
403 and nothing is changed (only the ownership query is sent); when it is
`p.id`, both reach their handler, the delete is answered 200 and removes the
business, and the update statement is sent, answered 200 with the updated row
when the body carries `name`, `category`, `location` and `contact_number`, and
500 with nothing changed when the statement binds one of them as `NULL`.  On an
id no business has, both are answered 404. -/
theorem business_ownership (verify : String → Except String Payload) (fault : Nat → Bool)
    (now : Nat) (c : Credentials) (p : Payload) (body : BusinessBody) (t : Tables)
    (hauth : Auth.authenticateToken verify c = { user := some p, next := 1, sent := [] })
    (hf0 : fault 0 = false) (hf1 : fault 1 = false)
    (hpk : (t.businesses.map fun x => x.id).Nodup) :
    (∀ b ∈ t.businesses, b.owner_id ≠ some p.id →
      putBusiness verify fault now c b.id body t =
        { response := ⟨403, Body.error "You don't have permission to modify this business"⟩,
          tables := t, log := [Query.select_business_owner b.id] } ∧
      delBusiness verify fault c b.id t =
        { response := ⟨403, Body.error "You don't have permission to modify this business"⟩,
          tables := t, log := [Query.select_business_owner b.id] }) ∧
    (∀ b ∈ t.businesses, b.owner_id = some p.id →
      delBusiness verify fault c b.id t =
        { response := ⟨200, Body.message "Business deleted successfully"⟩,
          tables :=
            { t with
              businesses := t.businesses.filter fun x => x.id ≠ b.id,
              products := t.products.filter fun x => x.business_id ≠ some b.id },
          log := [Query.select_business_owner b.id, Query.delete_business b.id] } ∧
      (putBusiness verify fault now c b.id body t).log =
        [Query.select_business_owner b.id, Query.update_business b.id body] ∧
      (∀ n g l k, body.name = some n → body.category = some g → body.location = some l →
        body.contact_number = some k →
        (putBusiness verify fault now c b.id body t).response =
          ⟨200, Body.business (setBusiness now b.id n g l k body b)⟩ ∧
        (putBusiness verify fault now c b.id body t).tables =
          { t with businesses := t.businesses.map (setBusiness now b.id n g l k body) }) ∧
      ((body.name = none ∨ body.category = none ∨ body.location = none ∨
          body.contact_number = none) →
        (putBusiness verify fault now c b.id body t).response =
          ⟨500, Body.error "Error updating business"⟩ ∧
        (putBusiness verify fault now c b.id body t).tables = t)) ∧
    (∀ id, (∀ b ∈ t.businesses, b.id ≠ id) →
      putBusiness verify fault now c id body t =
        { response := ⟨404, Body.error "business not found"⟩, tables := t,
          log := [Query.select_business_owner id] } ∧
      delBusiness verify fault c id t =
        { response := ⟨404, Body.error "business not found"⟩, tables := t,
          log := [Query.select_business_owner id] }) := by
  refine ⟨fun b hb hne => ?_, fun b hb heq => ?_, fun id hno => ?_⟩
  · unfold putBusiness delBusiness
    rw [guarded_authenticated b.id t _ hauth hf0, guarded_authenticated b.id t _ hauth hf0,
      filter_business_key hpk hb]
    simp [hne]
  · unfold putBusiness delBusiness
    rw [guarded_authenticated b.id t _ hauth hf0, guarded_authenticated b.id t _ hauth hf0,
      filter_business_key hpk hb]
    simp only [List.map_cons, List.map_nil, heq, ne_eq, not_true_eq_false, if_false]
    have hdel : deleteBusiness fault b.id ⟨t, [Query.select_business_owner b.id]⟩ =
        { response := ⟨200, Body.message "Business deleted successfully"⟩,
          tables :=
            { t with
              businesses := t.businesses.filter fun x => x.id ≠ b.id,
              products := t.products.filter fun x => x.business_id ≠ some b.id },
          log := [Query.select_business_owner b.id, Query.delete_business b.id] } := by
      simp [deleteBusiness, deleteBusinessStmt, query, hf1, filter_business_key hpk hb, finish]
    refine ⟨hdel, ?_, ?_, ?_⟩
    · cases hn : body.name <;> cases hg : body.category <;> cases hl : body.location <;>
        cases hk : body.contact_number <;>
        simp [updateBusiness, updateBusinessStmt, query, hf1, filter_business_key hpk hb,
          finish, hn, hg, hl, hk]
    · intro n g l k hn hg hl hk
      simp [updateBusiness, updateBusinessStmt, query, hf1, filter_business_key hpk hb,
        finish, hn, hg, hl, hk]
    · intro hmiss
      cases hn : body.name <;> cases hg : body.category <;> cases hl : body.location <;>
        cases hk : body.contact_number <;>
        first
        | (simp [updateBusiness, updateBusinessStmt, query, hf1, filter_business_key hpk hb,
            finish, hn, hg, hl, hk]; done)
        | simp [hn, hg, hl, hk] at hmiss
  · unfold putBusiness delBusiness
    rw [guarded_authenticated id t _ hauth hf0, guarded_authenticated id t _ hauth hf0,
      filter_business_absent hno]
    simp

/-- An instance of `business_ownership`: user 2 is refused on business 1; user 1
updates it with a full body and deletes it; nobody has business 9. -/
theorem business_ownership_witness :
    (putBusiness Auth.demoVerify noFault 10 otherCreds 1 demoBusinessBody demoTables).response
        = ⟨403, Body.error "You don't have permission to modify this business"⟩ ∧
      (putBusiness Auth.demoVerify noFault 10 ownerCreds 1 demoBusinessBody
        demoTables).response.status = 200 ∧
      (delBusiness Auth.demoVerify noFault ownerCreds 1 demoTables).response =
        ⟨200, Body.message "Business deleted successfully"⟩ ∧
      (putBusiness Auth.demoVerify noFault 10 ownerCreds 9 demoBusinessBody demoTables).response
        = ⟨404, Body.error "business not found"⟩ :=
  ⟨by rw [((business_ownership Auth.demoVerify noFault 10 otherCreds
      ⟨2, "ama_serwaa", "ama@knust.edu.gh", false⟩ demoBusinessBody demoTables (by decide) rfl rfl
      (by decide)).1 _ (List.mem_cons_self _ _) (by decide)).1],
    by decide,
    by rw [((business_ownership Auth.demoVerify noFault 10 ownerCreds
      ⟨1, "kwame123", "kwame@knust.edu.gh", false⟩ demoBusinessBody demoTables (by decide) rfl rfl
      (by decide)).2.1 _ (List.mem_cons_self _ _) (by decide)).1],
    by rw [((business_ownership Auth.demoVerify noFault 10 ownerCreds
      ⟨1, "kwame123", "kwame@knust.edu.gh", false⟩ demoBusinessBody demoTables (by decide) rfl rfl
      (by decide)).2.2 9 (by decide)).1]⟩

/-- C16, the code at the failing input: product 1 belongs to business 1, which
user 1 owns.  The update and the delete of product 1 are answered 200 and take
effect for user 2, who owns another business, and for a request without any
credentials; the credentials never enter the result. -/
theorem product_routes_unguarded :
    (demoTables.products.map fun p => (p.id, p.business_id)) = [(1, some 1), (2, some 1)] ∧
      (demoTables.businesses.map fun b => (b.id, b.owner_id)) = [(1, some 1), (2, some 2)] ∧
      (Auth.authenticateToken Auth.demoVerify otherCreds).user =
        some ⟨2, "ama_serwaa", "ama@knust.edu.gh", false⟩ ∧
      (putProduct noFault 10 otherCreds 1 demoProductBody demoTables).response.status = 200 ∧
      (putProduct noFault 10 otherCreds 1 demoProductBody demoTables).tables.products.map
          (fun p => (p.id, p.name, p.price)) =
        [(1, "Jollof Rice", 2800), (2, "Banku with Tilapia", 3000)] ∧
      (delProduct noFault ⟨none, none⟩ 1 demoTables).response =
        ⟨200, Body.message "Product deleted successfully"⟩ ∧
      (delProduct noFault ⟨none, none⟩ 1 demoTables).tables.products.map (fun p => p.id) = [2] ∧
      (∀ (fault : Nat → Bool) (now : Nat) (c c' : Credentials) (id : Int) (body : ProductBody)
          (t : Tables),
        putProduct fault now c id body t = putProduct fault now c' id body t ∧
        delProduct fault c id t = delProduct fault c' id t) :=
  ⟨by decide, by decide, by decide, by decide, by decide, by decide, by decide,
    fun _ _ _ _ _ _ _ => ⟨rfl, rfl⟩⟩

/-- C20, the code at the failing input: product 1 has a description, a stock of
50 and is available; an update whose body carries only `name`, `price` and
`category` is answered 200 and leaves `description`, `image_url`,
`stock_quantity` and `is_available` at `NULL`.  Likewise the update of business
1 with a body without `whatsapp_link` sets that column to `NULL`. -/
theorem update_overwrites_absent :
    (demoTables.products.map fun p => (p.id, p.description, p.stock_quantity, p.is_available))
        = [(1, some "Delicious Ghanaian jollof rice", some 50, some true),
            (2, some "Traditional banku", some 30, some true)] ∧
      (putProduct noFault 10 ⟨none, none⟩ 1 demoProductBody demoTables).response.status = 200 ∧
      (putProduct noFault 10 ⟨none, none⟩ 1 demoProductBody demoTables).tables.products.map
          (fun p => (p.id, p.description, p.stock_quantity, p.is_available)) =
        [(1, none, none, none), (2, some "Traditional banku", some 30, some true)] ∧
      (demoTables.businesses.map fun b => (b.id, b.whatsapp_link)) =
        [(1, some "233123456789"), (2, some "233234567890")] ∧
      demoBusinessBody.whatsapp_link = none ∧
      (putBusiness Auth.demoVerify noFault 10 ownerCreds 1 demoBusinessBody
        demoTables).response.status = 200 ∧
      (putBusiness Auth.demoVerify noFault 10 ownerCreds 1 demoBusinessBody
          demoTables).tables.businesses.map (fun b => (b.id, b.whatsapp_link)) =
        [(1, none), (2, some "233234567890")] :=
  ⟨by decide, by decide, by decide, by decide, by decide, by decide, by decide⟩

/-- C17: the `errors` array of the registration holds exactly the message of
each violated rule, in the order of the rules.  When a rule is violated the
handler answers 400 with that list as `details`, sends no statement and leaves
the tables unchanged; when none is violated the list is empty and the handler
goes on to the store, its first statement being the search for an existing
user. -/
theorem register_validation (hash : String → String) (sign : Payload → String)
    (fault : Nat → Bool) (now : Nat) (b : RegisterBody) (t : Tables) :
    registerErrors b = ((registerRules.filter fun r => r.1 b).map fun r => r.2) ∧
    ((∃ r ∈ registerRules, r.1 b = true) →
      register hash sign fault now b t =
        { response := ⟨400, Body.validation "Validation failed"
            ((registerRules.filter fun r => r.1 b).map fun r => r.2)⟩,
          tables := t, log := [] }) ∧
    ((∀ r ∈ registerRules, r.1 b = false) →
      registerErrors b = [] ∧
      (register hash sign fault now b t).log.head? =
        some (Query.select_user_by_username_email_index b.username.param b.email.param
          b.indexNumber.param)) := by
  refine ⟨registerErrors_rules b, fun hex => ?_, fun hall => ?_⟩
  · obtain ⟨r, hr, hb⟩ := hex
    have hne : 0 < (registerErrors b).length := by
      rw [registerErrors_rules, List.length_map]
      exact List.length_pos_of_mem (List.mem_filter.2 ⟨hr, hb⟩)
    unfold register
    rw [if_pos hne, registerErrors_rules]
  · have hnil : registerErrors b = [] := by
      rw [registerErrors_rules, List.map_eq_nil_iff, List.filter_eq_nil_iff]
      intro r hr
      simp [hall r hr]
    refine ⟨hnil, ?_⟩
    unfold register
    simp only [hnil, List.length_nil, gt_iff_lt, lt_self_iff_false, if_false,
      selectUserByUsernameEmailIndex, query]
    cases fault 0 with
    | true => rfl
    | false =>
      simp only [Bool.false_eq_true, if_false, List.nil_append]
      cases (t.users.filter fun u =>
          some u.username = b.username.param ∨ some u.email = b.email.param ∨
            some u.index_number = b.indexNumber.param).map fun u => u.id with
      | cons x rest => rfl
      | nil =>
        simp only
        have hlog := insertUserStmt_log fault now
          ⟨b.username.param, b.email.param, some (hash b.password.text), b.firstName.param,
            b.lastName.param, b.indexNumber.param, b.hallOfResidence.param, b.department.param,
            b.phoneNumber.param⟩
          ⟨t, [Query.select_user_by_username_email_index b.username.param b.email.param
            b.indexNumber.param]⟩
        cases hins : insertUserStmt fault now
          ⟨b.username.param, b.email.param, some (hash b.password.text), b.firstName.param,
            b.lastName.param, b.indexNumber.param, b.hallOfResidence.param, b.department.param,
            b.phoneNumber.param⟩
          ⟨t, [Query.select_user_by_username_email_index b.username.param b.email.param
            b.indexNumber.param]⟩ with
        | mk r2 res =>
          rw [hins] at hlog
          simp only at hlog
          cases res <;> simp [finish, hlog]

/-- Witness of C17: a body that violates four rules, and one that violates
none. -/
theorem register_validation_witness :
    register demoHash demoSign noFault 10 badRegisterBody demoTables =
        { response := ⟨400, Body.validation "Validation failed"
            ["Please provide a valid email address",
              "Please use your KNUST email address (@knust.edu.gh or @st.knust.edu.gh)",
              "Password confirmation does not match", "Department is required"]⟩,
          tables := demoTables, log := [] } ∧
      registerErrors demoRegisterBody = [] ∧
      (register demoHash demoSign noFault 10 demoRegisterBody demoTables).log.head? =
        some (Query.select_user_by_username_email_index (some "yaw_boat")
          (some "yaw@st.knust.edu.gh") (some "20481234")) :=
  ⟨(register_validation demoHash demoSign noFault 10 badRegisterBody demoTables).2.1
      ⟨_, List.mem_cons_of_mem _ (List.mem_cons_self _ _), by decide⟩,
    (register_validation demoHash demoSign noFault 10 demoRegisterBody demoTables).2.2
      (by decide)⟩

end Routes

namespace Controllers

open Routes (Field)

theorem collect_foldl (updateData : String → Option JsValue) (allowedFields : List String)
    (acc : List String × List JsValue) :
    allowedFields.foldl
        (fun acc field =>
          match updateData field with
          | some v => (acc.1 ++ [field ++ " = ?"], acc.2 ++ [v])
          | none => acc)
        acc =
      (acc.1 ++ (presentFields updateData allowedFields).map (fun field => field ++ " = ?"),
        acc.2 ++ updateValues updateData allowedFields) := by
  induction allowedFields generalizing acc with
  | nil => simp [presentFields, updateValues]
  | cons f rest ih =>
    rw [List.foldl_cons, ih]
    cases hf : updateData f with
    | none =>
      simp [presentFields, updateValues, List.filter_cons, hf]
    | some v =>
      simp [presentFields, updateValues, List.filter_cons, hf, List.filterMap_cons]

/-- The loop collects the assignments and the values of the fields the body
defines, in allow-list order. -/
theorem collect_eq (updateData : String → Option JsValue) (allowedFields : List String) :
    collect updateData allowedFields =
      ((presentFields updateData allowedFields).map (fun field => field ++ " = ?"),
        updateValues updateData allowedFields) := by
  unfold collect
  rw [collect_foldl]
  simp

/-- Only the allow-listed properties of the body enter `updates` and `values`. -/
theorem collect_congr {u u' : String → Option JsValue} {allowedFields : List String}
    (h : ∀ f ∈ allowedFields, u' f = u f) :
    collect u' allowedFields = collect u allowedFields := by
  unfold collect
  generalize (([], []) : List String × List JsValue) = acc
  induction allowedFields generalizing acc with
  | nil => rfl
  | cons f rest ih =>
    simp only [List.foldl_cons]
    rw [h f (List.mem_cons_self _ _)]
    exact ih (fun g hg => h g (List.mem_cons_of_mem _ hg)) _

/-- C18, the code at the failing input: the body carries every field and the
username of an existing user.  `registerUser` runs on the `db` of
`require('../db/init')`, which has no `get`: the call of its duplicate check
throws and the answer is 500, not 400 or 409; no statement reaches the store.
That is its answer on every body with all nine fields, and 400 is its answer
exactly when one of them is missing.  The route of `routes/auth.js` answers 409
and the route of `routes/users.js` answers 400 on the same username, both
without changing the tables. -/
theorem registerUser_duplicate_unchecked :
    (Routes.demoTables.users.map fun u => u.username) =
        ["kwame123", "ama_serwaa", "kwesi_manu"] ∧
      takenUserBody.username = Field.str "kwame123" ∧
      registerUser Routes.demoHash initModule takenUserBody =
        ⟨⟨500, false, "Failed to register user", none⟩, []⟩ ∧
      (∀ (hash : String → String) (b : RegisterUserBody),
        (registerUser hash initModule b).calls = [] ∧
        ((registerUser hash initModule b).response.status = 400 ∨
          (registerUser hash initModule b).response.status = 500) ∧
        ((registerUser hash initModule b).response.status = 400 ↔
          (b.username.falsy || b.email.falsy || b.password.falsy || b.first_name.falsy ||
            b.last_name.falsy || b.index_number.falsy || b.hall_of_residence.falsy ||
            b.department.falsy || b.phone_number.falsy) = true)) ∧
      Routes.register Routes.demoHash Routes.demoSign Routes.noFault 10 Routes.takenRegisterBody
          Routes.demoTables =
        { response := ⟨409, Routes.Body.error
            "User already exists with this username, email, or index number"⟩,
          tables := Routes.demoTables,
          log := [Routes.Query.select_user_by_username_email_index (some "kwame123")
            (some "yaw@st.knust.edu.gh") (some "20481234")] } ∧
      (∀ (fault : Nat → Bool) (now : Nat) (b : Routes.NewUserBody) (t : Routes.Tables)
          (u : Routes.User), u ∈ t.users → b.username = some u.username → fault 0 = false →
        (Routes.createUser fault now b t).tables = t ∧
        (Routes.createUser fault now b t).response =
          ⟨400, Routes.Body.error "User already exists"⟩) ∧
      (∀ (hash : String → String) (sign : Auth.Payload → String) (fault : Nat → Bool)
          (now : Nat) (b : Routes.RegisterBody) (t : Routes.Tables) (u : Routes.User),
        u ∈ t.users → b.username = Field.str u.username → fault 0 = false →
        (Routes.register hash sign fault now b t).tables = t ∧
        ((Routes.register hash sign fault now b t).response.status = 400 ∨
          (Routes.register hash sign fault now b t).response.status = 409)) := by
  refine ⟨by decide, rfl, by decide, fun hash b => ?_, by decide,
    fun fault now b t u hu hb hf => Routes.createUser_duplicate fault now b t u hu hb hf,
    fun hash sign fault now b t u hu hb hf =>
      Routes.register_duplicate hash sign fault now b t u hu hb hf⟩
  unfold registerUser
  cases h : (b.username.falsy || b.email.falsy || b.password.falsy || b.first_name.falsy ||
      b.last_name.falsy || b.index_number.falsy || b.hall_of_residence.falsy ||
      b.department.falsy || b.phone_number.falsy) <;> simp [h, initModule]

/-- C19, the code at the failing input: the object `../db/init` exports has no
`get` and no `run`.  On it `updateBusiness` answers 500 before any statement,
whatever the body and whoever the caller, so also for a body without any
allow-listed field, where 400 is due; `updateUserProfile` answers 500 without
sending its `UPDATE` for a body that defines an allow-listed field, and 400 for
a body that defines none. -/
theorem update_never_sent :
    presentFields demoUpdate businessFields = ["name", "description"] ∧
      presentFields demoUpdate profileFields = ["phone_number"] ∧
      updateBusiness initModule "1" 1 demoUpdate =
        ⟨⟨500, false, "Failed to update business", none⟩, []⟩ ∧
      updateUserProfile initModule 1 demoUpdate =
        ⟨⟨500, false, "Failed to update profile", none⟩, []⟩ ∧
      presentFields emptyUpdate businessFields = [] ∧
      updateBusiness initModule "1" 1 emptyUpdate =
        ⟨⟨500, false, "Failed to update business", none⟩, []⟩ ∧
      updateUserProfile initModule 1 emptyUpdate =
        ⟨⟨400, false, "No valid fields to update", none⟩, []⟩ ∧
      (∀ (id : String) (userId : Int) (updateData : String → Option JsValue),
        updateBusiness initModule id userId updateData =
          ⟨⟨500, false, "Failed to update business", none⟩, []⟩) :=
  ⟨by decide, by decide, by decide, by decide, by decide, by decide, by decide,
    fun _ _ _ => rfl⟩

/-- What the two controllers would send if `db` had `get` and `run`, for every
request body.  `updateUserProfile` answers 400 without any call when the body
defines no allow-listed field; otherwise its only call is the `UPDATE users`
whose `SET` list is one `field = ?` per allow-listed field the body defines (a
`null` counts as defined), in allow-list order, followed by `updated_at`, with
the values of those fields in the same order followed by the id.
`updateBusiness` first asks whether the caller owns the business: it answers
403 when not; when so, it answers 400 without an update when the body defines
no allow-listed field, and otherwise sends the `UPDATE businesses` built in the
same way.  Properties of the body outside the allow-list change nothing. -/
theorem update_statement (get : String → List JsValue → Except Unit Bool)
    (run : String → List JsValue → Except Unit Int) (id : String) (userId : Int)
    (updateData : String → Option JsValue) :
    (presentFields updateData profileFields = [] →
      updateUserProfile ⟨some get, some run⟩ userId updateData =
        ⟨⟨400, false, "No valid fields to update", none⟩, []⟩) ∧
    (presentFields updateData profileFields ≠ [] →
      (updateUserProfile ⟨some get, some run⟩ userId updateData).calls =
        [Call.run (updateText "UPDATE users SET " updateData profileFields)
          (updateValues updateData profileFields ++ [JsValue.num userId])]) ∧
    (get ownershipQuery [JsValue.str id, JsValue.num userId] = Except.ok false →
      updateBusiness ⟨some get, some run⟩ id userId updateData =
        ⟨⟨403, false, "You can only update your own businesses", none⟩,
          [Call.get ownershipQuery [JsValue.str id, JsValue.num userId]]⟩) ∧
    (get ownershipQuery [JsValue.str id, JsValue.num userId] = Except.ok true →
      (presentFields updateData businessFields = [] →
        updateBusiness ⟨some get, some run⟩ id userId updateData =
          ⟨⟨400, false, "No valid fields to update", none⟩,
            [Call.get ownershipQuery [JsValue.str id, JsValue.num userId]]⟩) ∧
      (presentFields updateData businessFields ≠ [] →
        (updateBusiness ⟨some get, some run⟩ id userId updateData).calls =
          [Call.get ownershipQuery [JsValue.str id, JsValue.num userId],
            Call.run (updateText "UPDATE businesses SET " updateData businessFields)
              (updateValues updateData businessFields ++ [JsValue.str id])])) ∧
    (∀ other : String → Option JsValue,
      ((∀ f ∈ profileFields, other f = updateData f) →
        updateUserProfile ⟨some get, some run⟩ userId other =
          updateUserProfile ⟨some get, some run⟩ userId updateData) ∧
      ((∀ f ∈ businessFields, other f = updateData f) →
        updateBusiness ⟨some get, some run⟩ id userId other =
          updateBusiness ⟨some get, some run⟩ id userId updateData)) := by
  refine ⟨fun h => ?_, fun h => ?_, fun hg => ?_, fun hg => ⟨fun h => ?_, fun h => ?_⟩,
    fun other => ⟨fun h => ?_, fun h => ?_⟩⟩
  · simp [updateUserProfile, collect_eq, h]
  · have hlen : ¬ ((presentFields updateData profileFields).map
        fun field => field ++ " = ?").length = 0 := by
      rw [List.length_map]
      exact fun h0 => h (List.length_eq_zero.1 h0)
    simp only [updateUserProfile, collect_eq, hlen, if_false, updateText]
    cases run ("UPDATE users SET " ++
        ", ".intercalate (((presentFields updateData profileFields).map
          fun field => field ++ " = ?") ++ ["updated_at = CURRENT_TIMESTAMP"]) ++
        " WHERE id = ?") (updateValues updateData profileFields ++ [JsValue.num userId]) <;>
      rfl
  · simp [updateBusiness, hg]
  · simp [updateBusiness, hg, collect_eq, h]
  · have hlen : ¬ ((presentFields updateData businessFields).map
        fun field => field ++ " = ?").length = 0 := by
      rw [List.length_map]
      exact fun h0 => h (List.length_eq_zero.1 h0)
    simp only [updateBusiness, hg, collect_eq, hlen, if_false, updateText]
    cases run ("UPDATE businesses SET " ++
        ", ".intercalate (((presentFields updateData businessFields).map
          fun field => field ++ " = ?") ++ ["updated_at = CURRENT_TIMESTAMP"]) ++
        " WHERE id = ?") (updateValues updateData businessFields ++ [JsValue.str id]) <;>
      rfl
  · simp only [updateUserProfile, collect_congr h]
  · simp only [updateBusiness, collect_congr h]

/-- An instance of `update_statement`: a body with `name`, a `null`
`description`, a `phone_number` and properties outside the allow-lists. -/
theorem update_statement_witness :
    (updateUserProfile owningDb 1 demoUpdate).calls =
        [Call.run "UPDATE users SET phone_number = ?, updated_at = CURRENT_TIMESTAMP WHERE id = ?"
          [JsValue.str "233200000000", JsValue.num 1]] ∧
      (updateBusiness owningDb "1" 1 demoUpdate).calls =
        [Call.get ownershipQuery [JsValue.str "1", JsValue.num 1],
          Call.run (updateText "UPDATE businesses SET " demoUpdate businessFields)
            (updateValues demoUpdate businessFields ++ [JsValue.str "1"])] ∧
      updateText "UPDATE businesses SET " demoUpdate businessFields =
        "UPDATE businesses SET name = ?, description = ?, updated_at = CURRENT_TIMESTAMP WHERE id = ?" ∧
      updateUserProfile owningDb 1 emptyUpdate =
        ⟨⟨400, false, "No valid fields to update", none⟩, []⟩ :=
  ⟨by decide,
    ((update_statement (fun _ _ => Except.ok true) (fun _ _ => Except.ok 1) "1" 1
      demoUpdate).2.2.2.1 rfl).2 (by decide),
    by decide,
    (update_statement (fun _ _ => Except.ok true) (fun _ _ => Except.ok 1) "1" 1
      emptyUpdate).1 (by decide)⟩

end Controllers

namespace Orders

/-- The row update of a cancellation leaves every row as it is when no order
has the id. -/
theorem map_cancel_absent (now : Nat) (id : Int) (orders : List Order)
    (h : ∀ o ∈ orders, o.id ≠ id) :
    orders.map (fun o => if o.id = id then { o with status := "cancelled", updated_at := now }
      else o) = orders := by
  induction orders with
  | nil => rfl
  | cons o rest ih =>
    have ho : o.id ≠ id := h o (List.mem_cons_self _ _)
    simp only [List.map_cons, if_neg ho]
    rw [ih fun x hx => h x (List.mem_cons_of_mem _ hx)]

/-- C25: when no order has the given id and no order item refers to it, and
the store raises no error, `cancelOrder` answers 404 and the committed store is
the one it started from: every order, order item and product, so every status
and every stock, is as before.  The transaction the handler leaves open on the
connection it releases holds no change either. -/
theorem cancelOrder_absent (fault : Nat → Bool) (now : Nat) (id : Int) (s : Store)
    (hf : ∀ i, fault i = false)
    (horder : ∀ o ∈ s.db.orders, o.id ≠ id)
    (hitems : ∀ i ∈ s.db.order_items, i.order_id ≠ some id) :
    (cancelOrder fault now id s).response = ⟨404, Body.error "Order not found"⟩ ∧
      (cancelOrder fault now id s).store = s ∧
      (cancelOrder fault now id s).open_txn = some s.db := by
  have hsel : (s.db.order_items.filter fun i => i.order_id = some id) = [] := by
    rw [List.filter_eq_nil_iff]
    intro i hi
    simpa using hitems i hi
  have hrows : (s.db.orders.filter fun o => o.id = id) = [] := by
    rw [List.filter_eq_nil_iff]
    intro o ho
    simpa using horder o ho
  have hmap := map_cancel_absent now id s.db.orders horder
  simp [cancelOrder, cancelOrderTry, begin, stmt, connect, selectOrderItems, restoreStock,
    updateOrderCancelled, Session.view, Session.write, finish, release, hf, hsel, hrows, hmap]

/-- Witness of C25: order 99 in the store of the delivered order, whose only
order is order 1 and whose only order item belongs to it. -/
theorem cancelOrder_absent_witness :
    (cancelOrder noFault 30 99 demoDeliveredStore).response =
        ⟨404, Body.error "Order not found"⟩ ∧
      (cancelOrder noFault 30 99 demoDeliveredStore).store = demoDeliveredStore ∧
      (cancelOrder noFault 30 99 demoDeliveredStore).open_txn = some demoDeliveredStore.db :=
  cancelOrder_absent noFault 30 99 demoDeliveredStore (fun _ => rfl) (by decide) (by decide)

/-- C23, the code at the failing input: `requireAdmin` refuses a request
without a user and the user of the token `other`, who is no admin; the route
`DELETE /api/orders/:id` does not go through it or through any other
middleware.  A request without credentials for order 1 is answered 200, the
order and its order item are gone, and the credentials never enter the result. -/
theorem deleteOrder_unguarded :
    Auth.requireAdmin none = some (403, "Admin access required") ∧
      Auth.requireAdmin (Auth.authenticateToken Auth.demoVerify ⟨some "Bearer other", none⟩).user =
        some (403, "Admin access required") ∧
      (demoDeliveredStore.db.orders.map fun o => o.id) = [1] ∧
      delOrder noFault ⟨none, none⟩ 1 demoDeliveredStore =
        ⟨200, DeleteBody.message "Order deleted successfully",
          { demoDeliveredStore with
            db := { demoDeliveredStore.db with orders := [], order_items := [] } }⟩ ∧
      (delOrder noFault ⟨some "Bearer other", none⟩ 1 demoDeliveredStore).store.db.orders = [] ∧
      (∀ (fault : Nat → Bool) (c c' : Auth.Credentials) (id : Int) (s : Store),
        delOrder fault c id s = delOrder fault c' id s) :=
  ⟨by decide, by decide, by decide, by decide, by decide, fun _ _ _ _ _ => rfl⟩

/-- C27, the code at the failing input: cancelling order 99, which does not
exist, with no store error.  The connection is sent `BEGIN`, the selection of
the order items and the update of the order, and is then released: neither
`COMMIT` nor `ROLLBACK` is sent, and the transaction is still open on the
released connection. -/
theorem cancelOrder_releases_open_transaction :
    (cancelOrder noFault 20 99 demoStore).response = ⟨404, Body.error "Order not found"⟩ ∧
      (cancelOrder noFault 20 99 demoStore).log =
        [Event.query Stmt.BEGIN, Event.query (Stmt.select_order_items 99),
          Event.query (Stmt.update_order_cancelled 99), Event.release] ∧
      Event.query Stmt.COMMIT ∉ (cancelOrder noFault 20 99 demoStore).log ∧
      Event.query Stmt.ROLLBACK ∉ (cancelOrder noFault 20 99 demoStore).log ∧
      (cancelOrder noFault 20 99 demoStore).open_txn ≠ none :=
  ⟨by decide, by decide, by decide, by decide, by decide⟩

end Orders

namespace Routes

/-- A character of the local part of a KNUST address is no white space. -/
theorem knustChar_not_space (c : Char)
    (h : (isLetter c || isDigit c || ['.', '_', '%', '+', '-'].contains c) = true) :
    isSpace c = false := by
  simp only [Bool.or_eq_true, List.contains_iff_exists_mem_beq] at h
  rcases h with (h | h) | h
  · simp only [isLetter, Bool.or_eq_true, Bool.and_eq_true, decide_eq_true_eq] at h
    simp only [isSpace, Bool.or_eq_false_iff, Bool.and_eq_false_iff, decide_eq_false_iff_not]
    omega
  · simp only [isDigit, Bool.and_eq_true, decide_eq_true_eq] at h
    simp only [isSpace, Bool.or_eq_false_iff, Bool.and_eq_false_iff, decide_eq_false_iff_not]
    omega
  · obtain ⟨x, hx, hcx⟩ := h
    have hc : c = x := by simpa using hcx
    subst hc
    simp only [List.mem_cons, List.mem_singleton, List.not_mem_nil, or_false] at hx
    rcases hx with rfl | rfl | rfl | rfl | rfl <;> decide

/-- A message is in the array after `pushIf` when it was there before or is the
one pushed. -/
theorem mem_pushIf (m : String) (cond : Bool) (msg : String) (errors : List String) :
    m ∈ pushIf cond msg errors ↔ m ∈ errors ∨ (cond = true ∧ m = msg) := by
  cases cond <;> simp [pushIf]

/-- Counterexample to C22: `abc 123` and `pass_word1` have at least 6
characters, a letter and a digit, and `validatePassword` rejects them: a space
and an underscore are outside the characters its expression allows. -/
theorem validatePassword_rejects_rule :
    passwordRule "abc 123" = true ∧ validatePassword "abc 123" = false ∧
      passwordRule "pass_word1" = true ∧ validatePassword "pass_word1" = false :=
  ⟨by decide, by decide, by decide, by decide⟩

/-- C22, amended: `validatePassword` accepts a string exactly when it has at
least 6 characters, every one of them a letter, a digit or one of `@$!%*#?&`,
and among them at least one letter and at least one digit.  So every accepted
password meets the rule of the specification, and a string that meets it is
accepted exactly when it is made of those characters. -/
theorem validatePassword_iff (p : String) :
    (validatePassword p = true ↔
      6 ≤ p.length ∧ (∀ c ∈ p.toList, passwordChar c = true) ∧
        (∃ c ∈ p.toList, isLetter c = true) ∧ (∃ c ∈ p.toList, isDigit c = true)) ∧
      (validatePassword p = true → passwordRule p = true) ∧
      (passwordRule p = true →
        (validatePassword p = true ↔ ∀ c ∈ p.toList, passwordChar c = true)) := by
  have hlen : p.toList.length = p.length := rfl
  have hiff : validatePassword p = true ↔
      6 ≤ p.length ∧ (∀ c ∈ p.toList, passwordChar c = true) ∧
        (∃ c ∈ p.toList, isLetter c = true) ∧ (∃ c ∈ p.toList, isDigit c = true) := by
    simp only [validatePassword, passwordChar, Bool.and_eq_true, List.all_eq_true,
      List.any_eq_true, decide_eq_true_eq, hlen]
    tauto
  have hrule : passwordRule p = true ↔
      6 ≤ p.length ∧ (∃ c ∈ p.toList, isLetter c = true) ∧ (∃ c ∈ p.toList, isDigit c = true) := by
    simp only [passwordRule, Bool.and_eq_true, List.any_eq_true, decide_eq_true_eq]
    tauto
  refine ⟨hiff, fun h => ?_, fun h => ?_⟩
  · rw [hrule]; rw [hiff] at h; tauto
  · rw [hrule] at h; rw [hiff]; tauto

/-- Witness of C22: `secret12` meets the rule and is made of allowed
characters, so it is accepted. -/
theorem validatePassword_iff_witness : validatePassword "secret12" = true :=
  ((validatePassword_iff "secret12").2.2 (by decide)).2 (by decide)

/-- C28: a string `validateKNUSTEmail` accepts is accepted by `validateEmail`;
hence whenever the `errors` array of the registration holds the message on a
valid email address it holds the message on the KNUST address as well. -/
theorem knust_email_valid (s : String) (b : RegisterBody) :
    (validateKNUSTEmail s = true → validateEmail s = true) ∧
      ("Please provide a valid email address" ∈ registerErrors b →
        "Please use your KNUST email address (@knust.edu.gh or @st.knust.edu.gh)" ∈
          registerErrors b) := by
  have key : ∀ t : String, validateKNUSTEmail t = true → validateEmail t = true := by
    intro t h
    unfold validateKNUSTEmail at h
    unfold validateEmail
    cases hsp : splitFirst '@' t.toList with
    | none => rw [hsp] at h; exact absurd h (by simp)
    | some ad =>
      obtain ⟨a, d⟩ := ad
      rw [hsp] at h
      simp only [Bool.and_eq_true] at h ⊢
      obtain ⟨⟨ha, hall⟩, hd⟩ := h
      have hspace : (a.all fun c => !isSpace c) = true := by
        rw [List.all_eq_true] at hall ⊢
        intro c hc
        rw [knustChar_not_space c (hall c hc)]
        rfl
      have hdom : d = "knust.edu.gh".toList ∨ d = "st.knust.edu.gh".toList := by
        simpa using hd
      refine ⟨⟨⟨ha, hspace⟩, ?_⟩, ?_⟩
      · rcases hdom with rfl | rfl <;> decide
      · rcases hdom with rfl | rfl <;> decide
  refine ⟨key s, fun h => ?_⟩
  have hgen : (b.email.falsy || !validateEmail b.email.text) = true := by
    simp only [registerErrors, mem_pushIf, List.not_mem_nil, false_or] at h
    simpa using h
  have hk : validateKNUSTEmail b.email.text = false := by
    cases hv : validateKNUSTEmail b.email.text with
    | false => rfl
    | true =>
      have he := key _ hv
      rw [he] at hgen
      simp only [Bool.not_true, Bool.or_false] at hgen
      cases hb : b.email with
      | undefined => rw [hb] at hv; exact absurd hv (by decide)
      | null => rw [hb] at hv; exact absurd hv (by decide)
      | str x =>
        rw [hb] at hgen hv
        have hx : x = "" := by simpa [Field.falsy] using hgen
        subst hx
        exact absurd hv (by decide)
  simp only [registerErrors, mem_pushIf, List.not_mem_nil, false_or, hk]
  simp

/-- Witness of C28: a KNUST address, and a body whose email is not an address. -/
theorem knust_email_valid_witness :
    validateEmail "yaw@st.knust.edu.gh" = true ∧
      "Please use your KNUST email address (@knust.edu.gh or @st.knust.edu.gh)" ∈
        registerErrors badRegisterBody :=
  ⟨(knust_email_valid "yaw@st.knust.edu.gh" badRegisterBody).1 (by decide),
    (knust_email_valid "yaw@st.knust.edu.gh" badRegisterBody).2 (by decide)⟩

end Routes

namespace Routes

open Orders (Money Err)
open Auth (Payload Credentials)

/-- The insert does not read the `owner_id` of the body. -/
theorem insertBusinessStmt_owner (now : Nat) (body : NewBusinessBody) (x owner_id : Option Int)
    (s : BusinessStore) :
    insertBusinessStmt now { body with owner_id := x } owner_id s =
      insertBusinessStmt now body owner_id s := rfl

/-- The row a successful insert returns has the owner it was given and is the
row added to `businesses`. -/
theorem insertBusinessStmt_ok {now : Nat} {body : NewBusinessBody} {owner_id : Option Int}
    {s s' : BusinessStore} {row : Business}
    (h : insertBusinessStmt now body owner_id s = (s', Except.ok row)) :
    row.owner_id = owner_id ∧ s'.tables.businesses = s.tables.businesses ++ [row] := by
  unfold insertBusinessStmt at h
  simp only at h
  split at h
  · split_ifs at h
    · simp at h
    · simp only [Prod.mk.injEq, Except.ok.injEq] at h
      obtain ⟨rfl, rfl⟩ := h
      exact ⟨rfl, rfl⟩
    · simp at h
  · simp at h

/-- What a `201` answer of the handler entails. -/
theorem createBusiness_created {fault : Nat → Bool} {now : Nat} {user : Option Payload}
    {body : NewBusinessBody} {s : BusinessStore} {row : Business}
    (h : (createBusiness fault now user body s).response = ⟨201, Body.business row⟩) :
    ∃ u, user = some u ∧ row.owner_id = some u.id ∧
      (createBusiness fault now user body s).store.tables.businesses =
        s.tables.businesses ++ [row] := by
  cases user with
  | none => simp [createBusiness] at h
  | some u =>
    refine ⟨u, rfl, ?_⟩
    unfold createBusiness at h ⊢
    simp only at h ⊢
    rcases Bool.eq_false_or_eq_true (fault 0) with hf | hf
    · simp [hf] at h
    · simp only [hf, Bool.false_eq_true, if_false] at h ⊢
      generalize hins : insertBusinessStmt now body (some u.id) s = r at h ⊢
      obtain ⟨s', res⟩ := r
      cases res with
      | error e => simp at h
      | ok r =>
        simp only [Response.mk.injEq, Body.business.injEq, true_and] at h
        subst h
        exact insertBusinessStmt_ok hins

/-- C24: two `POST /api/businesses` requests that differ only in the `owner_id`
of the body have the same outcome, response and store alike; and when the
answer is 201 the user of the token is set, the row returned has this user's id
as `owner_id`, and it is the row added to `businesses`. -/
theorem postBusiness_owner (verify : String → Except String Payload) (fault : Nat → Bool)
    (now : Nat) (c : Credentials) (body : NewBusinessBody) (x : Option Int)
    (s : BusinessStore) :
    postBusiness verify fault now c { body with owner_id := x } s =
        postBusiness verify fault now c body s ∧
      ∀ row, (postBusiness verify fault now c body s).response = ⟨201, Body.business row⟩ →
        ∃ u, (Auth.authenticateToken verify c).user = some u ∧ row.owner_id = some u.id ∧
          (postBusiness verify fault now c body s).store.tables.businesses =
            s.tables.businesses ++ [row] := by
  refine ⟨rfl, fun row h => ?_⟩
  unfold postBusiness at h ⊢
  cases hs : (Auth.authenticateToken verify c).sent with
  | cons d rest => rw [hs] at h; simp at h
  | nil =>
    rw [hs] at h
    simp only at h ⊢
    exact createBusiness_created h

/-- Witness of C24: user 1 asks for a business owned by user 2, or names no
owner; both requests have the same outcome, and the row added is owned by the
user of the token. -/
theorem postBusiness_owner_witness :
    postBusiness Auth.demoVerify noFault 10 ownerCreds { demoNewBusiness with owner_id := none }
        demoBusinessStore =
      postBusiness Auth.demoVerify noFault 10 ownerCreds demoNewBusiness demoBusinessStore ∧
    ∃ u, (Auth.authenticateToken Auth.demoVerify ownerCreds).user = some u ∧
      demoNewRow.owner_id = some u.id ∧
      (postBusiness Auth.demoVerify noFault 10 ownerCreds demoNewBusiness
          demoBusinessStore).store.tables.businesses =
        demoBusinessStore.tables.businesses ++ [demoNewRow] :=
  ⟨(postBusiness_owner Auth.demoVerify noFault 10 ownerCreds demoNewBusiness none
      demoBusinessStore).1,
    (postBusiness_owner Auth.demoVerify noFault 10 ownerCreds demoNewBusiness none
      demoBusinessStore).2 demoNewRow (by decide)⟩

end Routes

namespace Search

open Routes (Product Business Tables)

/-- Reading a pattern, one step. -/
theorem tokens_cons (c : Char) (rest : List Char) :
    tokens (c :: rest) =
      if c = escape then
        match rest with
        | [] => none
        | d :: rest => (tokens rest).map fun ts => Tok.lit d :: ts
      else if c = '%' then (tokens rest).map fun ts => Tok.any :: ts
      else if c = '_' then (tokens rest).map fun ts => Tok.one :: ts
      else (tokens rest).map fun ts => Tok.lit c :: ts :=
  (tokens.eq_def (c :: rest)).trans rfl

/-- A pattern that ends in `%` can always be read. -/
theorem tokens_percent (q : List Char) :
    (tokens (q ++ ['%'])).isSome = true ∧ ∀ c, (tokens (c :: (q ++ ['%']))).isSome = true := by
  induction q with
  | nil =>
    refine ⟨by decide, fun c => ?_⟩
    have h0 : tokens [] = some [] := rfl
    have h1 : tokens ['%'] = some [Tok.any] := by decide
    rw [List.nil_append, tokens_cons]
    split_ifs
    · simp [h0]
    · simp [h1]
    · simp [h1]
    · simp [h1]
  | cons d rest ih =>
    refine ⟨ih.2 d, fun c => ?_⟩
    have h1 := ih.1
    have h2 := ih.2 d
    simp only [List.cons_append] at h2 ⊢
    rw [tokens_cons]
    split_ifs
    · simpa using h1
    · simpa using h2
    · simpa using h2
    · simpa using h2

/-- The pattern of a query can always be read. -/
theorem tokens_pattern (query : String) : ∃ pat, tokens (pattern query) = some pat :=
  Option.isSome_iff_exists.1 ((tokens_percent query.toList).2 '%')

/-- Without `%`, `_` and the escape character in it, a text is read as
itself. -/
theorem tokens_plain (q : List Char)
    (hq : ∀ c ∈ q, c ≠ '%' ∧ c ≠ '_' ∧ c ≠ escape) :
    tokens (q ++ ['%']) = some (q.map Tok.lit ++ [Tok.any]) := by
  induction q with
  | nil => decide
  | cons c rest ih =>
    obtain ⟨h1, h2, h3⟩ := hq c (List.mem_cons_self _ _)
    simp only [List.cons_append, List.map_cons]
    rw [tokens_cons, if_neg h3, if_neg h1, if_neg h2,
      ih fun x hx => hq x (List.mem_cons_of_mem _ hx)]
    rfl

/-- The pattern of a query without `%`, `_` and the escape character. -/
theorem tokens_pattern_plain (query : String)
    (hq : ∀ c ∈ query.toList, c ≠ '%' ∧ c ≠ '_' ∧ c ≠ escape) :
    tokens (pattern query) = some (Tok.any :: (query.toList.map Tok.lit ++ [Tok.any])) := by
  unfold pattern
  rw [tokens_cons, if_neg (by decide), if_pos rfl, tokens_plain _ hq]
  rfl

/-- The pattern `%` matches every text. -/
theorem likeMatch_any (fold : Char → Char) (s : List Char) :
    likeMatch fold [Tok.any] s = true := by
  simp only [likeMatch, List.any_eq_true, List.mem_tails]
  exact ⟨[], List.nil_suffix, rfl⟩

/-- A text followed by `%` matches what it is a prefix of, up to `fold`. -/
theorem likeMatch_leading (fold : Char → Char) (q s : List Char) :
    likeMatch fold (q.map Tok.lit ++ [Tok.any]) s = true ↔ q.map fold <+: s.map fold := by
  induction q generalizing s with
  | nil => simp [likeMatch_any]
  | cons a rest ih =>
    cases s with
    | nil => simp [likeMatch]
    | cons c s =>
      simp only [List.map_cons, List.cons_append, likeMatch, Bool.and_eq_true, beq_iff_eq,
        List.cons_prefix_cons, List.append_eq, ih]

/-- A pattern after `%` matches a text when it matches one of its suffixes. -/
theorem likeMatch_any_cons (fold : Char → Char) (p : List Tok) (s : List Char) :
    likeMatch fold (Tok.any :: p) s = true ↔ ∃ t, t <:+ s ∧ likeMatch fold p t = true := by
  simp only [likeMatch, List.any_eq_true, List.mem_tails]

/-- A text between two `%` matches where it occurs, up to `fold`. -/
theorem likeMatch_inside (fold : Char → Char) (q s : List Char) :
    likeMatch fold (Tok.any :: (q.map Tok.lit ++ [Tok.any])) s = true ↔
      q.map fold <:+: s.map fold := by
  rw [likeMatch_any_cons, List.infix_iff_prefix_suffix]
  constructor
  · rintro ⟨t, ht, hm⟩
    exact ⟨t.map fold, (likeMatch_leading fold q t).1 hm, ht.map fold⟩
  · rintro ⟨t', hp, hs⟩
    obtain ⟨k, rfl⟩ : ∃ k, t' = (s.drop k).map fold := by
      refine ⟨(s.map fold).length - t'.length, ?_⟩
      rw [List.map_drop]
      exact List.suffix_iff_eq_drop.1 hs
    exact ⟨s.drop k, List.drop_suffix _ _, (likeMatch_leading fold q _).2 hp⟩

/-- For a query without `%`, `_` and the escape character `ILIKE` holds of a
column exactly when the query occurs in it. -/
theorem ilike_occurs (fold : Char → Char) (query : String) (x : Option String) :
    ilike fold (Tok.any :: (query.toList.map Tok.lit ++ [Tok.any])) x = occurs fold query x := by
  cases x with
  | none => rfl
  | some s =>
    simp only [ilike, occurs]
    rw [Bool.eq_iff_iff, likeMatch_inside, decide_eq_true_eq]

/-- The rows of the join: a product with the name and location of its business. -/
theorem mem_joined (t : Tables) (r : ProductRow) :
    r ∈ joined t ↔
      ∃ p ∈ t.products, ∃ b ∈ t.businesses,
        p.business_id = some b.id ∧ r = ⟨p, b.name, b.location⟩ := by
  simp only [joined, List.mem_flatten, List.mem_map, List.mem_filter, decide_eq_true_eq]
  constructor
  · rintro ⟨l, ⟨p, hp, rfl⟩, hr⟩
    simp only [List.mem_map, List.mem_filter, decide_eq_true_eq] at hr
    obtain ⟨b, ⟨hb, hpb⟩, rfl⟩ := hr
    exact ⟨p, hp, b, hb, hpb, rfl⟩
  · rintro ⟨p, hp, b, hb, hpb, rfl⟩
    refine ⟨_, ⟨p, hp, rfl⟩, ?_⟩
    simp only [List.mem_map, List.mem_filter, decide_eq_true_eq]
    exact ⟨b, ⟨hb, hpb⟩, rfl⟩

/-- The rows of the product statement. -/
theorem mem_selectProducts (fold : Char → Char) (pat : List Tok) (t : Tables) (r : ProductRow) :
    r ∈ selectProducts fold pat t ↔ r ∈ joined t ∧ productWhere fold pat r.product = true := by
  unfold selectProducts
  rw [(List.perm_insertionSort _ _).mem_iff, List.mem_filter]

/-- The rows of the business statement. -/
theorem mem_selectBusinesses (fold : Char → Char) (pat : List Tok) (t : Tables)
    (r : BusinessRow) :
    r ∈ selectBusinesses fold pat t ↔
      r.business ∈ t.businesses ∧ businessWhere fold pat r.business = true ∧
        r.product_count = productCount t r.business := by
  unfold selectBusinesses
  rw [(List.perm_insertionSort _ _).mem_iff, List.mem_map]
  constructor
  · rintro ⟨b, hb, rfl⟩
    obtain ⟨h1, h2⟩ := List.mem_filter.1 hb
    exact ⟨h1, h2, rfl⟩
  · rintro ⟨h1, h2, h3⟩
    refine ⟨r.business, List.mem_filter.2 ⟨h1, h2⟩, ?_⟩
    cases r
    simp only at h3
    rw [h3]

/-- Counterexample to C21: `b_n` occurs in no name, description or category of
the sample products, and the product search for it returns product 2, `Banku
with Tilapia`, because `_` stands for the `a`; `%` occurs in no column of the
sample businesses, and the business search for it returns both. -/
theorem search_wildcard :
    Routes.demoTables.products.map (productHas Char.toLower "b_n") = [false, false] ∧
      (searchProducts Char.toLower Routes.noFault "b_n" Routes.demoTables).status = 200 ∧
      (searchProducts Char.toLower Routes.noFault "b_n" Routes.demoTables).productRows.map
          (fun r => (r.product.id, r.product.name)) = [(2, "Banku with Tilapia")] ∧
      Routes.demoTables.businesses.map (businessHas Char.toLower "%") = [false, false] ∧
      (searchBusinesses Char.toLower Routes.noFault "%" Routes.demoTables).status = 200 ∧
      (searchBusinesses Char.toLower Routes.noFault "%" Routes.demoTables).businessRows.map
          (fun r => r.business.id) = [1, 2] :=
  ⟨by decide, by decide, by decide, by decide, by decide, by decide⟩

/-- C21, amended: with no store error both search routes answer 200 with the
rows their `ILIKE` pattern takes, whatever the query; and when the query has
no `%`, no `_` and no backslash, the product search returns exactly the
products that belong to a business and have the query as a case-insensitive
substring of their name, description or category, each with the name and
location of its business, and the business search returns exactly the
businesses that have it in their name, description or category. -/
theorem search_rows (fold : Char → Char) (fault : Nat → Bool) (query : String) (t : Tables)
    (hf : fault 0 = false) :
    (∃ pat, tokens (pattern query) = some pat ∧
        searchProducts fold fault query t = ⟨200, Body.products (selectProducts fold pat t)⟩ ∧
        searchBusinesses fold fault query t =
          ⟨200, Body.businesses (selectBusinesses fold pat t)⟩) ∧
      ((∀ c ∈ query.toList, c ≠ '%' ∧ c ≠ '_' ∧ c ≠ escape) →
        (∀ r, r ∈ (searchProducts fold fault query t).productRows ↔
          ∃ p ∈ t.products, ∃ b ∈ t.businesses, p.business_id = some b.id ∧
            r = ⟨p, b.name, b.location⟩ ∧ productHas fold query p = true) ∧
        (∀ r, r ∈ (searchBusinesses fold fault query t).businessRows ↔
          r.business ∈ t.businesses ∧ businessHas fold query r.business = true ∧
            r.product_count = productCount t r.business)) := by
  obtain ⟨pat, hpat⟩ := tokens_pattern query
  have hp : searchProducts fold fault query t =
      ⟨200, Body.products (selectProducts fold pat t)⟩ := by
    simp [searchProducts, hf, hpat]
  have hb : searchBusinesses fold fault query t =
      ⟨200, Body.businesses (selectBusinesses fold pat t)⟩ := by
    simp [searchBusinesses, hf, hpat]
  refine ⟨⟨pat, hpat, hp, hb⟩, fun hq => ?_⟩
  have hplain := tokens_pattern_plain query hq
  rw [hpat, Option.some.injEq] at hplain
  subst hplain
  have hpw : ∀ p, productWhere fold
      (Tok.any :: (query.toList.map Tok.lit ++ [Tok.any])) p = productHas fold query p := by
    intro p
    simp only [productWhere, productHas, ilike_occurs]
  have hbw : ∀ b, businessWhere fold
      (Tok.any :: (query.toList.map Tok.lit ++ [Tok.any])) b = businessHas fold query b := by
    intro b
    simp only [businessWhere, businessHas, ilike_occurs]
  refine ⟨fun r => ?_, fun r => ?_⟩
  · rw [hp]
    simp only [Response.productRows]
    rw [mem_selectProducts, mem_joined, hpw]
    constructor
    · rintro ⟨⟨p, hp1, b, hb1, hpb, rfl⟩, hm⟩
      exact ⟨p, hp1, b, hb1, hpb, rfl, hm⟩
    · rintro ⟨p, hp1, b, hb1, hpb, rfl, hm⟩
      exact ⟨⟨p, hp1, b, hb1, hpb, rfl⟩, hm⟩
  · rw [hb]
    simp only [Response.businessRows]
    rw [mem_selectBusinesses, hbw]

/-- Witness of C21: the search for `rice` returns the first sample product,
`Jollof Rice with Chicken` of `Los Barbados`. -/
theorem search_rows_witness :
    (⟨⟨1, "Jollof Rice with Chicken", some "Delicious Ghanaian jollof rice", 2500, none,
        some 1, "Food & Drinks", some 50, some true, 0, 0⟩, "Los Barbados", "Unity Hall"⟩ :
      ProductRow) ∈
      (searchProducts Char.toLower Routes.noFault "rice" Routes.demoTables).productRows :=
  (((search_rows Char.toLower Routes.noFault "rice" Routes.demoTables rfl).2
    (by decide)).1 _).2
    ⟨_, List.mem_cons_self _ _, _, List.mem_cons_self _ _, by decide, rfl, by decide⟩

end Search

namespace Validation

open Routes (Field utf16Length isSpace)

/-- A text of `n` letters has length `n`. -/
theorem utf16Length_letters (n : Nat) :
    utf16Length (String.mk (List.replicate n 'a')) = n := by
  simp [utf16Length]

/-- A text of letters passes `validateRequired` unless it is empty. -/
theorem validateRequired_letters (n : Nat) (fieldName : String) (errors : List String) :
    validateRequired (letters (n + 1)) fieldName errors = (true, errors) := by
  have ha : isSpace 'a' = false := by decide
  have h1 : (letters (n + 1)).falsy = false := by
    simp [letters, Field.falsy, List.replicate_succ, String.ext_iff]
  have h2 : (letters (n + 1)).text.toList.all isSpace = false := by
    show (List.replicate (n + 1) 'a').all isSpace = false
    rw [List.replicate_succ, List.all_cons, ha, Bool.false_and]
  unfold validateRequired
  rw [h1, h2]
  rfl

/-- C26, the code at the failing input: a business name of exactly 100
characters and a description of exactly 500 characters are accepted and no
message is pushed, although the messages of the two tests say `less than 100`
and `less than 500`; one character more and they are refused with these
messages.  The lower bounds are the ones of their messages. -/
theorem length_bound_inclusive :
    utf16Length (letters 100).text = 100 ∧
      validateBusinessName (letters 100) [] = (true, []) ∧
      validateBusinessName (letters 101) [] =
        (false, ["Business name must be less than 100 characters"]) ∧
      validateBusinessName (letters 2) [] =
        (false, ["Business name must be at least 3 characters long"]) ∧
      validateBusinessName (letters 3) [] = (true, []) ∧
      utf16Length (letters 500).text = 500 ∧
      validateDescription (letters 500) [] = (true, []) ∧
      validateDescription (letters 501) [] =
        (false, ["Description must be less than 500 characters"]) ∧
      validateDescription (letters 9) [] =
        (false, ["Description must be at least 10 characters long"]) ∧
      validateDescription (letters 10) [] = (true, []) := by
  have name : ∀ n, validateBusinessName (letters (n + 1)) [] =
      if n + 1 < 3 then (false, ["Business name must be at least 3 characters long"])
      else if n + 1 > 100 then (false, ["Business name must be less than 100 characters"])
      else (true, []) := by
    intro n
    simp only [validateBusinessName, validateRequired_letters]
    simp [letters, Field.text, utf16Length_letters]
  have desc : ∀ n, validateDescription (letters (n + 1)) [] =
      if n + 1 < 10 then (false, ["Description must be at least 10 characters long"])
      else if n + 1 > 500 then (false, ["Description must be less than 500 characters"])
      else (true, []) := by
    intro n
    simp only [validateDescription, validateRequired_letters]
    simp [letters, Field.text, utf16Length_letters]
  refine ⟨utf16Length_letters 100, ?_, ?_, ?_, ?_, utf16Length_letters 500, ?_, ?_, ?_, ?_⟩
  · exact name 99
  · exact name 100
  · exact name 1
  · exact name 2
  · exact desc 499
  · exact desc 500
  · exact desc 8
  · exact desc 9

end Validation

namespace Cart

/-- An in-place change that keeps the id keeps the ids of the array. -/
theorem updateFound_ids (productId : Int) (f : Item → Item) (hf : ∀ item, (f item).id = item.id)
    (items : List Item) :
    (updateFound productId f items).map Item.id = items.map Item.id := by
  induction items with
  | nil => rfl
  | cons item rest ih =>
    unfold updateFound
    split_ifs
    · simp [hf]
    · simp [ih]

/-- An in-place change keeps the number of items. -/
theorem updateFound_length (productId : Int) (f : Item → Item) (items : List Item) :
    (updateFound productId f items).length = items.length := by
  induction items with
  | nil => rfl
  | cons item rest ih =>
    unfold updateFound
    split_ifs
    · simp
    · simp [ih]

/-- An item of the array after an in-place change was there before or is the
changed one. -/
theorem mem_updateFound {productId : Int} {f : Item → Item} {items : List Item} {x : Item}
    (h : x ∈ updateFound productId f items) : x ∈ items ∨ ∃ item ∈ items, x = f item := by
  induction items with
  | nil => simp [updateFound] at h
  | cons item rest ih =>
    unfold updateFound at h
    split_ifs at h
    · rcases List.mem_cons.1 h with rfl | hx
      · exact Or.inr ⟨item, List.mem_cons_self _ _, rfl⟩
      · exact Or.inl (List.mem_cons_of_mem _ hx)
    · rcases List.mem_cons.1 h with rfl | hx
      · exact Or.inl (List.mem_cons_self _ _)
      · rcases ih hx with h1 | ⟨j, hj, rfl⟩
        · exact Or.inl (List.mem_cons_of_mem _ h1)
        · exact Or.inr ⟨j, List.mem_cons_of_mem _ hj, rfl⟩

/-- Quantities after an in-place change that keeps the id. -/
theorem quantityOf_updateFound (productId : Int) (f : Item → Item)
    (hf : ∀ item, (f item).id = item.id) (items : List Item) (id : Int) :
    quantityOf (updateFound productId f items) id =
      if id = productId then
        (items.find? fun item => item.id = productId).map fun item => (f item).quantity
      else quantityOf items id := by
  induction items with
  | nil => simp [updateFound, quantityOf]
  | cons item rest ih =>
    unfold updateFound
    by_cases hi : item.id = productId
    · rw [if_pos hi]
      by_cases hid : id = productId
      · subst hid
        simp [quantityOf, List.find?_cons, hf, hi]
      · have hne : ¬ item.id = id := fun h => hid (h ▸ hi)
        simp [quantityOf, List.find?_cons, hf, hid, hne]
    · rw [if_neg hi]
      by_cases hid : id = productId
      · subst hid
        have := ih
        simp only [if_true] at this
        simp [quantityOf, List.find?_cons, hi] at this ⊢
        exact this
      · have := ih
        simp only [if_neg hid] at this
        by_cases hx : item.id = id
        · simp [quantityOf, List.find?_cons, hx, hid]
        · simp [quantityOf, List.find?_cons, hx, hid] at this ⊢
          exact this

/-- Removing the items of one id does not change which item is the first with
another id. -/
theorem find_filter_ne {productId id : Int} (hid : id ≠ productId) (items : List Item) :
    (items.filter fun item => item.id ≠ productId).find? (fun item => item.id = id) =
      items.find? fun item => item.id = id := by
  induction items with
  | nil => rfl
  | cons item rest ih =>
    by_cases h1 : item.id = productId
    · have hf : decide (item.id ≠ productId) = false := by simp [h1]
      have h2 : decide (item.id = id) = false :=
        decide_eq_false fun h => hid (h.symm.trans h1)
      rw [List.filter_cons, hf, if_neg Bool.false_ne_true, List.find?_cons, h2]
      exact ih
    · have hf : decide (item.id ≠ productId) = true := by simp [h1]
      rw [List.filter_cons, hf, if_pos rfl, List.find?_cons, List.find?_cons]
      cases decide (item.id = id) with
      | true => rfl
      | false => exact ih

/-- Removing keeps the array valid. -/
theorem removeItem_valid (productId : Int) {items : List Item} (h : Valid items) :
    Valid (removeItem productId items) := by
  refine ⟨?_, fun item hi => h.2 item (List.mem_of_mem_filter hi)⟩
  exact h.1.sublist ((List.filter_sublist _).map _)

/-- Every call keeps the array valid. -/
theorem call_valid (c : Call) {items : List Item} (h : Valid items) : Valid (call c items) := by
  cases c with
  | addItem product =>
    simp only [call, addItem]
    cases hfind : items.find? fun item => item.id = product.id with
    | some found =>
      simp only
      refine ⟨?_, fun x hx => ?_⟩
      · have e := updateFound_ids product.id
          (fun item : Item => { item with quantity := item.quantity + 1 }) (fun _ => rfl) items
        rw [e]
        exact h.1
      · rcases mem_updateFound hx with h1 | ⟨j, hj, rfl⟩
        · exact h.2 x h1
        · have := h.2 j hj
          show 1 ≤ j.quantity + 1
          omega
    | none =>
      simp only
      have hno : ∀ item ∈ items, item.id ≠ product.id := by
        intro item hi heq
        have := List.find?_eq_none.1 hfind item hi
        simp [heq] at this
      refine ⟨?_, fun x hx => ?_⟩
      · rw [List.map_append, List.nodup_append]
        refine ⟨h.1, List.nodup_singleton _, ?_⟩
        intro a ha hb
        simp only [List.map_cons, List.map_nil, List.mem_singleton] at hb
        obtain ⟨item, hi, rfl⟩ := List.mem_map.1 ha
        exact hno item hi hb
      · rcases List.mem_append.1 hx with h1 | h1
        · exact h.2 x h1
        · simp only [List.mem_singleton] at h1
          subst h1
          exact le_refl _
  | removeItem productId => exact removeItem_valid productId h
  | updateQuantity productId quantity =>
    simp only [call, updateQuantity]
    cases items.find? fun item => item.id = productId with
    | none => exact h
    | some found =>
      simp only
      split_ifs with hq
      · exact removeItem_valid productId h
      · refine ⟨?_, fun x hx => ?_⟩
        · have e := updateFound_ids productId
            (fun item : Item => { item with quantity := quantity }) (fun _ => rfl) items
          rw [e]
          exact h.1
        · rcases mem_updateFound hx with h1 | ⟨j, _, rfl⟩
          · exact h.2 x h1
          · show 1 ≤ quantity
            omega

/-- Every sequence of calls keeps the array valid. -/
theorem calls_valid (cs : List Call) : ∀ {items : List Item}, Valid items → Valid (calls cs items) := by
  induction cs with
  | nil => intro items h; exact h
  | cons c rest ih => intro items h; exact ih (call_valid c h)

/-- C29: after every sequence of `addItem`, `removeItem` and `updateQuantity`
calls on the empty cart no two items share an id and every quantity is at
least 1.  On such a cart `addItem` of a product that is in the cart keeps the
number of items, raises the quantity of that product by 1 and leaves the other
quantities alone; `updateQuantity` with a quantity of 0 or less leaves no item
with the id and leaves the other quantities alone. -/
theorem cart_invariant (cs : List Call) :
    ((calls cs []).map Item.id).Nodup ∧ (∀ item ∈ calls cs [], 1 ≤ item.quantity) ∧
      (∀ (product : Product) (q : Int), quantityOf (calls cs []) product.id = some q →
        (addItem product (calls cs [])).length = (calls cs []).length ∧
        quantityOf (addItem product (calls cs [])) product.id = some (q + 1) ∧
        ∀ id, id ≠ product.id →
          quantityOf (addItem product (calls cs [])) id = quantityOf (calls cs []) id) ∧
      (∀ productId quantity : Int, quantity ≤ 0 →
        (∀ item ∈ updateQuantity productId quantity (calls cs []), item.id ≠ productId) ∧
        ∀ id, id ≠ productId →
          quantityOf (updateQuantity productId quantity (calls cs [])) id =
            quantityOf (calls cs []) id) := by
  have hv : Valid (calls cs []) := calls_valid cs ⟨List.nodup_nil, fun _ h => by simp at h⟩
  refine ⟨hv.1, hv.2, ?_, ?_⟩
  · generalize calls cs [] = items
    intro product q hq
    unfold quantityOf at hq
    unfold addItem
    cases hfind : items.find? fun item => item.id = product.id with
    | none => rw [hfind] at hq; simp at hq
    | some found =>
      rw [hfind] at hq
      simp only [Option.map_some', Option.some.injEq] at hq
      simp only
      refine ⟨updateFound_length _ _ _, ?_, fun id hid => ?_⟩
      · have e := quantityOf_updateFound product.id
          (fun item : Item => { item with quantity := item.quantity + 1 }) (fun _ => rfl) items
          product.id
        rw [e, if_pos rfl, hfind]
        simp [hq]
      · have e := quantityOf_updateFound product.id
          (fun item : Item => { item with quantity := item.quantity + 1 }) (fun _ => rfl) items id
        rw [e, if_neg hid]
  · generalize calls cs [] = items
    intro productId quantity hq
    unfold updateQuantity
    cases hfind : items.find? fun item => item.id = productId with
    | none =>
      refine ⟨fun item hi heq => ?_, fun _ _ => rfl⟩
      have := List.find?_eq_none.1 hfind item hi
      simp [heq] at this
    | some found =>
      simp only [if_pos hq]
      refine ⟨fun item hi => ?_, fun id hid => ?_⟩
      · have := (List.mem_filter.1 hi).2
        simpa using this
      · unfold quantityOf removeItem
        rw [find_filter_ne hid]

/-- Witness of C29: with one jollof in the cart a second `addItem` of it keeps
the cart at one item and raises its quantity to 2, and `updateQuantity` with 0
leaves no item of it. -/
theorem cart_invariant_witness :
    (addItem jollof (calls [Call.addItem jollof] [])).length =
        (calls [Call.addItem jollof] []).length ∧
      quantityOf (addItem jollof (calls [Call.addItem jollof] [])) jollof.id = some (1 + 1) ∧
      ∀ item ∈ updateQuantity 1 0 (calls [Call.addItem jollof] []), item.id ≠ 1 :=
  ⟨((cart_invariant [Call.addItem jollof]).2.2.1 jollof 1 (by decide)).1,
    ((cart_invariant [Call.addItem jollof]).2.2.1 jollof 1 (by decide)).2.1,
    ((cart_invariant [Call.addItem jollof]).2.2.2 1 0 (by decide)).1⟩

end Cart

namespace Stars

/-- The integer part of a rating between 0 and 5 lies between 0 and 5, and is 5
only for the rating 5. -/
theorem floor_bounds {r : ℚ} (h0 : 0 ≤ r) (h5 : r ≤ 5) :
    0 ≤ Rat.floor r ∧ Rat.floor r ≤ 5 ∧ (Rat.floor r = 5 → r = (Rat.floor r : ℚ)) := by
  have hfl : Rat.floor r = ⌊r⌋ := rfl
  rw [hfl]
  refine ⟨Int.floor_nonneg.2 h0, ?_, fun h => ?_⟩
  · have h1 : ⌊r⌋ ≤ ⌊(5 : ℚ)⌋ := Int.floor_mono h5
    simpa using h1
  · have h1 : (⌊r⌋ : ℚ) ≤ r := Int.floor_le r
    rw [h] at h1 ⊢
    push_cast at h1 ⊢
    exact le_antisymm h5 h1

/-- Both functions build the same markup from `fullStars` and `hasHalfStar`,
the markup of five icons. -/
theorem stars_agree (n : Int) (h0 : 0 ≤ n) (h5 : n ≤ 5) (half : Bool)
    (hfive : n = 5 → half = false) :
    Scripts.stars n half = ModernUi.stars n half ∧
      ModernUi.stars n half = markup (iconsOf n.toNat half) ∧
      (iconsOf n.toNat half).length = 5 := by
  interval_cases n <;> cases half <;>
    first
    | exact absurd (hfive rfl) (by decide)
    | exact ⟨by decide, by decide, by decide⟩

/-- C30: for a rating between 0 and 5 the two `generateStarRating` functions
return the same string, the markup of five icons: `floor(r)` full stars, then
one half star if the rating is not an integer, then empty stars. -/
theorem generateStarRating_agree (r : ℚ) (h0 : 0 ≤ r) (h5 : r ≤ 5) :
    Scripts.generateStarRating r = ModernUi.generateStarRating r ∧
      ModernUi.generateStarRating r = markup (icons r) ∧
      (icons r).length = 5 := by
  obtain ⟨hn0, hn5, hfive⟩ := floor_bounds h0 h5
  have hhalf : decide (remainderOne r ≠ 0) = decide (r ≠ (Rat.floor r : ℚ)) := by
    apply decide_eq_decide.2
    unfold remainderOne
    rw [if_pos h0, Ne, Ne, sub_eq_zero]
  have key := stars_agree (Rat.floor r) hn0 hn5 (decide (r ≠ (Rat.floor r : ℚ)))
    (fun h => by simpa using hfive h)
  unfold Scripts.generateStarRating ModernUi.generateStarRating icons
  rw [hhalf]
  exact key

/-- Witness of C30: the rating 7/2 gives three full stars, a half star and an
empty star in both functions. -/
theorem generateStarRating_agree_witness :
    Scripts.generateStarRating (7 / 2) = ModernUi.generateStarRating (7 / 2) ∧
      ModernUi.generateStarRating (7 / 2) = markup (icons (7 / 2)) ∧
      (icons (7 / 2)).length = 5 :=
  generateStarRating_agree (7 / 2) (by norm_num) (by norm_num)

end Stars

